import Mathlib

/-!
# EMQX operator: replicant reconciler, status reconciler and validating webhook

A shallow embedding of `addRepl.reconcile`, `getNewReplicaSet`, `sync`,
`findCanBeDeletePod` and `generateReplicaSet` (`controllers/apps/v2alpha2/add_emqx_repl.go`),
of `updateStatus.reconcile` and `getNodeStatuesByAPI`
(`controllers/apps/v2alpha2/update_emqx_status.go`), and of the validating webhook and
`defaultEmqxConfig` of `EmqxBroker` (`apis/apps/v1beta4/emqxbroker_webhook.go`).

* Kubernetes objects are records holding the fields the controller reads or writes;
  sub-objects the controller only passes through are carried as serialized text.
* Go maps are association lists (`GoMap`), Go pointers are `Option`s, `int32` and
  `int64` values are integers with explicit wrap-around.
* A run-time panic (nil dereference, index out of range, failed type assertion) is an
  explicit outcome.
* The API server is an in-memory store, keyed by namespace and name, that logs every write
  request it receives.
* Helpers of the repository that live outside these sources, the patch maker, the order
  `sort.Slice` leaves ties in and the verdicts of the API server are fields of `Env`; the
  theorems hold for every `Env`, and `refEnv` is one to run the definitions on. The status
  reconciler has its own record of such helpers, `StatusEnv`, with `json.Unmarshal` among
  them, and `refStatusEnv` to run it on; the webhook has `WebhookEnv` and `refWebhookEnv`.
-/

namespace EmqxOperator

/-! ## Go values -/

/-- A Go `map[string]string`; the nil map and the empty map are both `[]`. -/
abbrev GoMap := List (String × String)

/-- Map read `m[k]` with the comma-ok result. -/
def GoMap.get (m : GoMap) (k : String) : Option String :=
  List.lookup k m

/-- Map read `m[k]`, the zero value when the key is missing. -/
def GoMap.getD (m : GoMap) (k : String) : String :=
  (GoMap.get m k).getD ""

/-- Map write `m[k] = v`. -/
def GoMap.set : GoMap → String → String → GoMap
  | [], k, v => [(k, v)]
  | (k', v') :: rest, k, v =>
    if k' = k then (k, v) :: rest else (k', v') :: GoMap.set rest k v

/-- Two's-complement wrap-around of `int32` arithmetic. -/
def wrapInt32 (x : Int) : Int :=
  (x + 2147483648) % 4294967296 - 2147483648

/-- Largest `int32`. -/
def maxInt32 : Int := 2147483647

/-- A run-time panic of the Go program. -/
inductive Panic where
  | nilDereference
  | indexOutOfRange
  | interfaceConversion
  deriving DecidableEq, Repr

/-! ## Errors -/

/-- The `metav1.StatusReason` of an API error. -/
inductive StatusReason where
  | alreadyExists
  | notFound
  | conflict
  | invalid
  | internalError
  deriving DecidableEq, Repr

/-- A Go `error`: an API status error, an error made from a text (`errors.New`,
`emperror.Errorf`, the errors of libraries), or an error wrapped with context by
`emperror.Wrap`. -/
inductive GoError where
  | status (reason : StatusReason)
  | wrap (cause : GoError) (msg : String)
  | message (text : String)
  deriving DecidableEq, Repr

/-- The root cause, `emperror.Cause`. -/
def GoError.Cause : GoError → GoError
  | .status r => .status r
  | .wrap c _ => GoError.Cause c
  | .message t => .message t

/-- The test `k8sErrors.IsAlreadyExists`. -/
def IsAlreadyExists : GoError → Bool
  | .status .alreadyExists => true
  | _ => false

/-- The test whether an error carries context added by `emperror.Wrap`. -/
def GoError.isWrapped : GoError → Bool
  | .wrap _ _ => true
  | .status _ => false
  | .message _ => false

/-- The text of an error, `err.Error()`: `emperror.Wrap` puts its message and a colon before
the text of the cause; the text of an API status error is stood for by its reason. -/
def GoError.Error : GoError → String
  | .status .alreadyExists => "AlreadyExists"
  | .status .notFound => "NotFound"
  | .status .conflict => "Conflict"
  | .status .invalid => "Invalid"
  | .status .internalError => "InternalError"
  | .wrap c msg => msg ++ ": " ++ GoError.Error c
  | .message t => t

/-! ## Kubernetes objects -/

/-- An owner reference (`metav1.OwnerReference`). -/
structure OwnerReference where
  Kind : String
  Name : String
  UID : String
  Controller : Bool
  deriving DecidableEq, Repr

/-- Object metadata (`metav1.ObjectMeta`). -/
structure ObjectMeta where
  Name : String := ""
  GenerateName : String := ""
  Namespace : String := ""
  UID : String := ""
  CreationTimestamp : Nat := 0
  Labels : GoMap := []
  Annotations : GoMap := []
  OwnerReferences : List OwnerReference := []
  deriving DecidableEq, Repr

/-- A label selector (`metav1.LabelSelector`), match-labels only. -/
structure LabelSelector where
  MatchLabels : GoMap := []
  deriving DecidableEq, Repr

/-- The source of an environment variable (`corev1.EnvVarSource`). -/
inductive EnvVarSource where
  | FieldRef (fieldPath : String)
  | SecretKeyRef (name : String) (key : String)
  | other (serialized : String)
  deriving DecidableEq, Repr

/-- An environment variable (`corev1.EnvVar`). -/
structure EnvVar where
  Name : String
  Value : String := ""
  ValueFrom : Option EnvVarSource := none
  deriving DecidableEq, Repr

/-- A volume mount (`corev1.VolumeMount`). -/
structure VolumeMount where
  Name : String
  MountPath : String
  SubPath : String := ""
  ReadOnly : Bool := false
  deriving DecidableEq, Repr

/-- The source of a volume (`corev1.VolumeSource`). -/
inductive VolumeSource where
  | Secret (secretName : String)
  | ConfigMap (name : String)
  | EmptyDir
  | other (serialized : String)
  deriving DecidableEq, Repr

/-- A pod volume (`corev1.Volume`). -/
structure Volume where
  Name : String
  VolumeSource : VolumeSource
  deriving DecidableEq, Repr

/-- A container (`corev1.Container`); pass-through sub-objects are serialized text. -/
structure Container where
  Name : String := ""
  Image : String := ""
  ImagePullPolicy : String := ""
  Command : List String := []
  Args : List String := []
  Ports : List String := []
  Env : List EnvVar := []
  EnvFrom : List String := []
  Resources : String := ""
  SecurityContext : Option String := none
  LivenessProbe : Option String := none
  ReadinessProbe : Option String := none
  StartupProbe : Option String := none
  Lifecycle : Option String := none
  VolumeMounts : List VolumeMount := []
  deriving DecidableEq, Repr

/-- A pod specification (`corev1.PodSpec`). -/
structure PodSpec where
  ReadinessGates : List String := []
  ImagePullSecrets : List String := []
  SecurityContext : Option String := none
  Affinity : Option String := none
  Tolerations : List String := []
  NodeName : String := ""
  NodeSelector : GoMap := []
  InitContainers : List Container := []
  Containers : List Container := []
  Volumes : List Volume := []
  deriving DecidableEq, Repr

/-- A pod template (`corev1.PodTemplateSpec`). -/
structure PodTemplateSpec where
  ObjectMeta : ObjectMeta := {}
  Spec : PodSpec := {}
  deriving DecidableEq, Repr

/-- The status of a pod: only the pod IP is read. -/
structure PodStatus where
  PodIP : String := ""
  deriving DecidableEq, Repr

/-- A pod (`corev1.Pod`). -/
structure Pod where
  ObjectMeta : ObjectMeta := {}
  Spec : PodSpec := {}
  Status : PodStatus := {}
  deriving DecidableEq, Repr

/-- The spec of a replica set (`appsv1.ReplicaSetSpec`). -/
structure ReplicaSetSpec where
  Replicas : Option Int := none
  Selector : Option LabelSelector := none
  Template : PodTemplateSpec := {}
  deriving DecidableEq, Repr

/-- The status of a replica set (`appsv1.ReplicaSetStatus`). -/
structure ReplicaSetStatus where
  Replicas : Int := 0
  ReadyReplicas : Int := 0
  deriving DecidableEq, Repr

/-- A replica set (`appsv1.ReplicaSet`). -/
structure ReplicaSet where
  Kind : String := ""
  APIVersion : String := ""
  ObjectMeta : ObjectMeta := {}
  Spec : ReplicaSetSpec := {}
  Status : ReplicaSetStatus := {}
  deriving DecidableEq, Repr

/-- The spec of a stateful set (`appsv1.StatefulSetSpec`), as far as the controller reads it. -/
structure StatefulSetSpec where
  Replicas : Option Int := none
  deriving DecidableEq, Repr

/-- The observed state of a stateful set (`appsv1.StatefulSetStatus`). -/
structure StatefulSetStatus where
  Replicas : Int := 0
  ReadyReplicas : Int := 0
  deriving DecidableEq, Repr

/-- A stateful set (`appsv1.StatefulSet`). -/
structure StatefulSet where
  ObjectMeta : ObjectMeta := {}
  Spec : StatefulSetSpec := {}
  Status : StatefulSetStatus := {}
  deriving DecidableEq, Repr

/-- A cluster event (`corev1.Event`), as far as the scale-down gate may read it. -/
structure Event where
  Reason : String := ""
  Message : String := ""
  LastTimestamp : Nat := 0
  deriving DecidableEq, Repr

/-! ## The EMQX custom resource -/

/-- A broker node as reported by the broker API (`appsv2alpha2.EMQXNode`). -/
structure EMQXNode where
  Node : String := ""
  Edition : String := ""
  Session : Int := 0
  deriving DecidableEq, Repr

/-- A status condition (`metav1.Condition`). -/
structure Condition where
  CondType : String
  Status : String
  Reason : String := ""
  Message : String := ""
  LastTransitionTime : Nat := 0
  deriving DecidableEq, Repr

/-- The condition status `metav1.ConditionTrue`. -/
def ConditionTrue : String := "True"

/-- Per-tier node status (`appsv2alpha2.EMQXNodesStatus`). -/
structure EMQXNodesStatus where
  Nodes : List EMQXNode := []
  Replicas : Int := 0
  ReadyReplicas : Int := 0
  CurrentRevision : String := ""
  CollisionCount : Option Int := none
  deriving DecidableEq, Repr

/-- The status of the cluster object (`appsv2alpha2.EMQXStatus`); the replicant part is a pointer. -/
structure EMQXStatus where
  Conditions : List Condition := []
  CoreNodesStatus : EMQXNodesStatus := {}
  ReplicantNodesStatus : Option EMQXNodesStatus := none
  deriving DecidableEq, Repr

/-- The replicant template spec (`appsv2alpha2.EMQXReplicantTemplateSpec`). -/
structure EMQXReplicantTemplateSpec where
  Replicas : Option Int := none
  PodSecurityContext : Option String := none
  Affinity : Option String := none
  ToleRations : List String := []
  NodeName : String := ""
  NodeSelector : GoMap := []
  InitContainers : List Container := []
  ExtraContainers : List Container := []
  Command : List String := []
  Args : List String := []
  Ports : List String := []
  Env : List EnvVar := []
  EnvFrom : List String := []
  Resources : String := ""
  ContainerSecurityContext : Option String := none
  LivenessProbe : Option String := none
  ReadinessProbe : Option String := none
  StartupProbe : Option String := none
  Lifecycle : Option String := none
  ExtraVolumeMounts : List VolumeMount := []
  ExtraVolumes : List Volume := []
  deriving DecidableEq, Repr

/-- The replicant template (`appsv2alpha2.EMQXReplicantTemplate`). -/
structure EMQXReplicantTemplate where
  Name : String := ""
  Labels : GoMap := []
  Annotations : GoMap := []
  Spec : EMQXReplicantTemplateSpec := {}
  deriving DecidableEq, Repr

/-- The core template spec (`appsv2alpha2.EMQXCoreTemplateSpec`), as far as the status
reconciler reads it; the replica count is a pointer. -/
structure EMQXCoreTemplateSpec where
  Replicas : Option Int := none
  deriving DecidableEq, Repr

/-- The core template (`appsv2alpha2.EMQXCoreTemplate`). -/
structure EMQXCoreTemplate where
  Name : String := ""
  Labels : GoMap := []
  Annotations : GoMap := []
  Spec : EMQXCoreTemplateSpec := {}
  deriving DecidableEq, Repr

/-- The desired state (`appsv2alpha2.EMQXSpec`), as far as the reconcilers read it. -/
structure EMQXSpec where
  Image : String := ""
  ImagePullPolicy : String := ""
  ImagePullSecrets : List String := []
  InitialDelaySeconds : Int := 0
  WaitTakeover : Int := 0
  CoreTemplate : EMQXCoreTemplate := {}
  ReplicantTemplate : Option EMQXReplicantTemplate := none
  deriving DecidableEq, Repr

/-- The cluster object (`appsv2alpha2.EMQX`). -/
structure EMQX where
  Name : String := ""
  Namespace : String := ""
  UID : String := ""
  Labels : GoMap := []
  Spec : EMQXSpec := {}
  Status : EMQXStatus := {}
  deriving DecidableEq, Repr

/-- The result of `ctrl.Result`. -/
structure ctrlResult where
  Requeue : Bool := false
  RequeueAfter : Nat := 0
  deriving DecidableEq, Repr

/-- The uniform result of a sub-reconciler (`subResult`). -/
structure subResult where
  err : Option GoError := none
  result : ctrlResult := {}
  deriving DecidableEq, Repr

/-! ## The resource store -/

/-- A write request received by the API server; a JSON merge patch of a pod is the list of
annotation keys it sets (`some v`) or deletes (`none`). -/
inductive Request where
  | createReplicaSet (rs : ReplicaSet)
  | updateReplicaSet (rs : ReplicaSet)
  | patchPod (ns name : String) (patch : List (String × Option String))
  | updateStatus (status : EMQXStatus)
  deriving DecidableEq, Repr

/-- The verb of a write request. -/
def Request.verb : Request → String
  | .createReplicaSet _ => "create"
  | .updateReplicaSet _ => "update"
  | .patchPod _ _ _ => "patch"
  | .updateStatus _ => "update status"

/-- The test whether a write request creates a replica set. -/
def Request.isCreate : Request → Bool
  | .createReplicaSet _ => true
  | _ => false

/-- The state of the API server, the declarative resource store the controller consumes:
the stored objects, keyed by namespace and name, the persisted status of the cluster object
under reconciliation (`none` when that object is not stored), and the log of write requests
received so far, oldest first. -/
structure Store where
  StatefulSets : List StatefulSet := []
  ReplicaSets : List ReplicaSet := []
  Pods : List Pod := []
  Events : List Event := []
  EMQXStatus : Option EMQXStatus := none
  Requests : List Request := []
  deriving DecidableEq, Repr

/-- One row of the candidate list built by `findCanBeDeletePod`. -/
structure podSessionCount where
  pod : Pod
  edition : String
  session : Int
  deriving DecidableEq, Repr

/-- The options given to `Patcher.Calculate`. -/
inductive CalculateOption where
  | justCheckPodTemplate
  | IgnoreStatusFields
  | IgnoreVolumeClaimTemplateTypeMetaAndStatus
  deriving DecidableEq, Repr

/-- Everything the reconciler uses that is defined outside these sources: constants of the
API package, helpers of the controller package, the patch maker, the order `sort.Slice`
leaves rows of equal session count in (it is not a stable sort), the clock, and the verdict
of the API server on each write (`none` accepts it). `Calculate` gives
`patchResult.IsEmpty()`. -/
structure Env where
  PodTemplateHashLabelKey : String
  DefaultContainerName : String
  PodOnServing : String
  Ready : String
  CoreNodesReady : String
  ReplicantNodesProgressing : String
  NodeCookieName : EMQX → String
  BootstrapUserName : EMQX → String
  BootstrapConfigName : EMQX → String
  computeHash : PodTemplateSpec → Option Int → String
  getReplicaSetList : Store → EMQX → Option ReplicaSet × List ReplicaSet
  getEventList : Store → ReplicaSet → List Event
  canBeScaledDown : EMQX → String → List Event → Bool
  Calculate : ReplicaSet → ReplicaSet → List CalculateOption → Bool
  tieBreak : podSessionCount → podSessionCount → Bool
  now : Nat
  rejectCreate : ReplicaSet → Option StatusReason
  rejectUpdate : ReplicaSet → Option StatusReason
  rejectPatch : Pod → Option StatusReason
  rejectStatusUpdate : EMQXStatus → Option StatusReason
  rejectList : Bool

/-- The test whether every label of `sel` is carried by `labels` (`client.MatchingLabels`). -/
def matchesLabels (sel labels : GoMap) : Bool :=
  sel.all (fun kv => decide (GoMap.get labels kv.1 = some kv.2))

/-- The call `Client.List` for pods, `client.InNamespace(ns)` and `client.MatchingLabels(sel)`;
the caller discards the error, so a failed list is the empty list. -/
def Store.listPods (E : Env) (s : Store) (ns : String) (sel : GoMap) : List Pod :=
  if E.rejectList then []
  else s.Pods.filter (fun p => decide (p.ObjectMeta.Namespace = ns) && matchesLabels sel p.ObjectMeta.Labels)

/-- The test whether a stored replica set has this namespace and name. -/
def ReplicaSet.hasKey (ns name : String) (rs : ReplicaSet) : Bool :=
  decide (rs.ObjectMeta.Namespace = ns) && decide (rs.ObjectMeta.Name = name)

/-- The call `Client.Get` for a replica set, by namespace and name. -/
def Store.getReplicaSet (s : Store) (ns name : String) : Option ReplicaSet :=
  s.ReplicaSets.find? (ReplicaSet.hasKey ns name)

/-- The call `Client.Create` for a replica set: the server refuses it for its own reasons,
or because the name is taken, or stores it with a fresh UID and the creation time. -/
def Store.create (E : Env) (s : Store) (rs : ReplicaSet) : Option GoError × ReplicaSet × Store :=
  let s1 := { s with Requests := s.Requests ++ [Request.createReplicaSet rs] }
  match E.rejectCreate rs with
  | some r => (some (.status r), rs, s1)
  | none =>
    match s.getReplicaSet rs.ObjectMeta.Namespace rs.ObjectMeta.Name with
    | some _ => (some (.status .alreadyExists), rs, s1)
    | none =>
      let stored := { rs with
        ObjectMeta := { rs.ObjectMeta with
          UID := "uid:" ++ rs.ObjectMeta.Namespace ++ "/" ++ rs.ObjectMeta.Name,
          CreationTimestamp := E.now },
        Status := {} }
      (none, stored, { s1 with ReplicaSets := s.ReplicaSets ++ [stored] })

/-- The replica set an accepted update of `cur` by `rs` leaves in the store: the server
keeps the UID, the creation time and the status of the stored object. -/
def updatedReplicaSet (rs cur : ReplicaSet) : ReplicaSet :=
  { rs with
    ObjectMeta := { rs.ObjectMeta with
      UID := cur.ObjectMeta.UID, CreationTimestamp := cur.ObjectMeta.CreationTimestamp },
    Status := cur.Status }

/-- The stored replica sets after the one with the key of `rs` is replaced by an update. -/
def replaceReplicaSet (rs : ReplicaSet) : List ReplicaSet → List ReplicaSet
  | [] => []
  | cur :: rest =>
    if ReplicaSet.hasKey rs.ObjectMeta.Namespace rs.ObjectMeta.Name cur then
      updatedReplicaSet rs cur :: rest
    else cur :: replaceReplicaSet rs rest

/-- The call `Client.Update` for a replica set. -/
def Store.update (E : Env) (s : Store) (rs : ReplicaSet) : Option GoError × Store :=
  let s1 := { s with Requests := s.Requests ++ [Request.updateReplicaSet rs] }
  match E.rejectUpdate rs with
  | some r => (some (.status r), s1)
  | none =>
    match s.getReplicaSet rs.ObjectMeta.Namespace rs.ObjectMeta.Name with
    | none => (some (.status .notFound), s1)
    | some _ => (none, { s1 with ReplicaSets := replaceReplicaSet rs s.ReplicaSets })

/-- The call `Client.Status().Update` for the cluster object. -/
def Store.updateStatus (E : Env) (s : Store) (inst : EMQX) : Option GoError × Store :=
  let s1 := { s with Requests := s.Requests ++ [Request.updateStatus inst.Status] }
  match E.rejectStatusUpdate inst.Status with
  | some r => (some (.status r), s1)
  | none =>
    match s.EMQXStatus with
    | none => (some (.status .notFound), s1)
    | some _ => (none, { s1 with EMQXStatus := some inst.Status })

/-- The JSON merge patch `client.MergeFrom(base)` yields for `obj`, on annotations: the keys
of `obj` whose value differs from `base`, then the keys of `base` that `obj` lacks. -/
def mergeFrom (base obj : Pod) : List (String × Option String) :=
  (obj.ObjectMeta.Annotations.filter
      (fun kv => decide (GoMap.get base.ObjectMeta.Annotations kv.1 ≠ some kv.2))).map
    (fun kv => (kv.1, some kv.2))
  ++ (base.ObjectMeta.Annotations.filter
      (fun kv => (GoMap.get obj.ObjectMeta.Annotations kv.1).isNone)).map
    (fun kv => (kv.1, none))

/-- Deleting a key from a map. -/
def GoMap.erase (m : GoMap) (k : String) : GoMap :=
  m.filter (fun kv => decide (kv.1 ≠ k))

/-- Applying a merge patch to an annotation map. -/
def applyPatch (m : GoMap) : List (String × Option String) → GoMap
  | [] => m
  | (k, some v) :: rest => applyPatch (GoMap.set m k v) rest
  | (k, none) :: rest => applyPatch (GoMap.erase m k) rest

/-- The test whether a stored pod has this namespace and name. -/
def Pod.hasKey (ns name : String) (p : Pod) : Bool :=
  decide (p.ObjectMeta.Namespace = ns) && decide (p.ObjectMeta.Name = name)

/-- The call `Client.Patch(ctx, obj, client.MergeFrom(base))` for a pod: the patch is computed
from `base` to `obj` and applied to the stored pod of that namespace and name. -/
def Store.patch (E : Env) (s : Store) (obj base : Pod) : Option GoError × Store :=
  let data := mergeFrom base obj
  let s1 := { s with
    Requests := s.Requests ++ [Request.patchPod obj.ObjectMeta.Namespace obj.ObjectMeta.Name data] }
  match E.rejectPatch obj with
  | some r => (some (.status r), s1)
  | none =>
    if s.Pods.any (Pod.hasKey obj.ObjectMeta.Namespace obj.ObjectMeta.Name) then
      (none, { s1 with Pods := s.Pods.map (fun p =>
        if Pod.hasKey obj.ObjectMeta.Namespace obj.ObjectMeta.Name p then
          { p with ObjectMeta := { p.ObjectMeta with
              Annotations := applyPatch p.ObjectMeta.Annotations data } }
        else p) })
    else (some (.status .notFound), s1)

/-! ## Helpers of the API package -/

/-- Modelled from the spec: `EMQXStatus.IsConditionTrue` is not in these sources; by the
data model a condition is a typed boolean fact and one entry exists per type, so the
condition holds when the first entry of that type has status `True`. -/
def IsConditionTrue (st : EMQXStatus) (conditionType : String) : Bool :=
  match st.Conditions.find? (fun c => decide (c.CondType = conditionType)) with
  | some c => decide (c.Status = ConditionTrue)
  | none => false

/-- Modelled from the spec: `EMQXStatus.SetCondition` is not in these sources; by the data
model conditions form an append/replace list with one entry per type, each carrying the
time it was set: entries of the same type are dropped and the new entry is appended. -/
def SetCondition (now : Nat) (st : EMQXStatus) (c : Condition) : EMQXStatus :=
  { st with Conditions :=
      st.Conditions.filter (fun c' => decide (c'.CondType ≠ c.CondType))
        ++ [{ c with LastTransitionTime := now }] }

/-- Modelled from the spec: `CloneAndAddLabel` is not in these sources; it copies the label
map and adds the revision label to the copy. -/
def CloneAndAddLabel (labels : GoMap) (labelKey labelValue : String) : GoMap :=
  GoMap.set labels labelKey labelValue

/-- Modelled from the spec: `CloneSelectorAndAddLabel` is not in these sources; it copies
the selector and adds the revision label to the match-labels of the copy. -/
def CloneSelectorAndAddLabel (selector : LabelSelector) (labelKey labelValue : String) :
    LabelSelector :=
  { selector with MatchLabels := GoMap.set selector.MatchLabels labelKey labelValue }

/-- Modelled from the spec: `ctrl.SetControllerReference` makes the cluster object the
controlling owner of the generated resource (ownership, section 3). -/
def SetControllerReference (owner : EMQX) (rs : ReplicaSet) : ReplicaSet :=
  { rs with ObjectMeta := { rs.ObjectMeta with
      OwnerReferences :=
        rs.ObjectMeta.OwnerReferences.filter (fun r => decide (r.UID ≠ owner.UID))
          ++ [{ Kind := "EMQX", Name := owner.Name, UID := owner.UID, Controller := true }] } }

/-- Modelled from the spec: `Handler.Create` is not in these sources; it submits the object
to the resource store and surfaces the store's error wrapped with context. The object the
server stored is written back to the caller's object. -/
def Handler.Create (E : Env) (s : Store) (rs : ReplicaSet) : Option GoError × ReplicaSet × Store :=
  match Store.create E s rs with
  | (some e, rs', s') => (some (.wrap e "failed to create ReplicaSet"), rs', s')
  | (none, rs', s') => (none, rs', s')

/-- Modelled from the spec: `Handler.Update` is not in these sources; it submits the object
to the resource store and surfaces the store's error wrapped with context. -/
def Handler.Update (E : Env) (s : Store) (rs : ReplicaSet) : Option GoError × Store :=
  match Store.update E s rs with
  | (some e, s') => (some (.wrap e "failed to update ReplicaSet"), s')
  | (none, s') => (none, s')

/-! ## `add_emqx_repl.go` -/

/-- The text after the first `@` of a node name, the whole name when it has none:
`node.Node[strings.Index(node.Node, "@")+1:]`. -/
def afterAt (cs : List Char) : List Char :=
  match cs.dropWhile (fun c => decide (c ≠ '@')) with
  | [] => cs
  | _ :: rest => rest

/-- The host part of a node name: `strings.Split(node.Node[strings.Index(node.Node, "@")+1:], ":")[0]`. -/
def hostOf (node : String) : String :=
  String.mk ((afterAt node.data).takeWhile (fun c => decide (c ≠ ':')))

/-- Insertion of a row into a list ordered by session count: before the first row with more
sessions, or with as many sessions when the environment puts the new row first. -/
def insertRow (E : Env) (x : podSessionCount) : List podSessionCount → List podSessionCount
  | [] => [x]
  | y :: rest =>
    if x.session < y.session ∨ (x.session = y.session ∧ E.tieBreak x y = true) then x :: y :: rest
    else y :: insertRow E x rest

/-- The call `sort.Slice(list, func(i, j) bool { return list[i].session < list[j].session })`:
the rows in ascending session count, rows of equal session count in the order the
environment picks. -/
def sortSlice (E : Env) : List podSessionCount → List podSessionCount
  | [] => []
  | x :: rest => insertRow E x (sortSlice E rest)

/-- The inner loop of `findCanBeDeletePod`: the rows of one node, in pod order. -/
def matchPods (node : EMQXNode) : List Pod → List podSessionCount
  | [] => []
  | pod :: rest =>
    if pod.Status.PodIP = hostOf node.Node then
      { pod := pod, edition := node.Edition, session := node.Session } :: matchPods node rest
    else matchPods node rest

/-- The outer loop of `findCanBeDeletePod`: the rows of all nodes, in node order. -/
def joinNodes : List EMQXNode → List Pod → List podSessionCount
  | [], _ => []
  | node :: rest, pods => matchPods node pods ++ joinNodes rest pods

/-- The function `findCanBeDeletePod`: the pod of the old replica set that may be removed
next, if any. Indexing the empty candidate list panics. -/
def findCanBeDeletePod (E : Env) (s : Store) (inst : EMQX) (old : ReplicaSet) :
    Except Panic (Option Pod) :=
  if !E.canBeScaledDown inst E.Ready (E.getEventList s old) then .ok none
  else
    match old.Spec.Selector with
    | none => .error .nilDereference
    | some selector =>
      let list := Store.listPods E s old.ObjectMeta.Namespace selector.MatchLabels
      match inst.Status.ReplicantNodesStatus with
      | none => .error .nilDereference
      | some st =>
        match sortSlice E (joinNodes st.Nodes list) with
        | [] => .error .indexOutOfRange
        | first :: _ =>
          if first.edition = "Enterprise" ∧ first.session > 0 then .ok none
          else .ok (some first.pod)

/-- The function `generateReplicaSet`; it dereferences the replicant template. -/
def generateReplicaSet (E : Env) (inst : EMQX) : Except Panic ReplicaSet :=
  match inst.Spec.ReplicantTemplate with
  | none => .error .nilDereference
  | some tmpl => .ok
    { Kind := "ReplicaSet"
      APIVersion := "apps/v1"
      ObjectMeta :=
        { Namespace := inst.Namespace
          Name := tmpl.Name
          Annotations := tmpl.Annotations
          Labels := tmpl.Labels }
      Spec :=
        { Replicas := tmpl.Spec.Replicas
          Selector := some { MatchLabels := tmpl.Labels }
          Template :=
            { ObjectMeta := { Labels := tmpl.Labels }
              Spec :=
                { ReadinessGates := [E.PodOnServing]
                  ImagePullSecrets := inst.Spec.ImagePullSecrets
                  SecurityContext := tmpl.Spec.PodSecurityContext
                  Affinity := tmpl.Spec.Affinity
                  Tolerations := tmpl.Spec.ToleRations
                  NodeName := tmpl.Spec.NodeName
                  NodeSelector := tmpl.Spec.NodeSelector
                  InitContainers := tmpl.Spec.InitContainers
                  Containers :=
                    [{ Name := E.DefaultContainerName
                       Image := inst.Spec.Image
                       ImagePullPolicy := inst.Spec.ImagePullPolicy
                       Command := tmpl.Spec.Command
                       Args := tmpl.Spec.Args
                       Ports := tmpl.Spec.Ports
                       Env :=
                         [ { Name := "EMQX_NODE__DB_ROLE", Value := "replicant" },
                           { Name := "EMQX_HOST", ValueFrom := some (.FieldRef "status.podIP") },
                           { Name := "EMQX_NODE__COOKIE",
                             ValueFrom := some (.SecretKeyRef (E.NodeCookieName inst) "node_cookie") },
                           { Name := "EMQX_API_KEY__BOOTSTRAP_FILE",
                             Value := "\"/opt/emqx/data/bootstrap_user\"" } ]
                         ++ tmpl.Spec.Env
                       EnvFrom := tmpl.Spec.EnvFrom
                       Resources := tmpl.Spec.Resources
                       SecurityContext := tmpl.Spec.ContainerSecurityContext
                       LivenessProbe := tmpl.Spec.LivenessProbe
                       ReadinessProbe := tmpl.Spec.ReadinessProbe
                       StartupProbe := tmpl.Spec.StartupProbe
                       Lifecycle := tmpl.Spec.Lifecycle
                       VolumeMounts :=
                         [ { Name := "bootstrap-user", MountPath := "/opt/emqx/data/bootstrap_user",
                             SubPath := "bootstrap_user", ReadOnly := true },
                           { Name := "bootstrap-config", MountPath := "/opt/emqx/etc/emqx.conf",
                             SubPath := "emqx.conf", ReadOnly := true },
                           { Name := tmpl.Name ++ "-log", MountPath := "/opt/emqx/log" },
                           { Name := tmpl.Name ++ "-data", MountPath := "/opt/emqx/data" } ]
                         ++ tmpl.Spec.ExtraVolumeMounts }]
                    ++ tmpl.Spec.ExtraContainers
                  Volumes :=
                    [ { Name := "bootstrap-user",
                        VolumeSource := .Secret (E.BootstrapUserName inst) },
                      { Name := "bootstrap-config",
                        VolumeSource := .ConfigMap (E.BootstrapConfigName inst) },
                      { Name := tmpl.Name ++ "-log", VolumeSource := .EmptyDir },
                      { Name := tmpl.Name ++ "-data", VolumeSource := .EmptyDir } ]
                    ++ tmpl.Spec.ExtraVolumes } } } }

/-- The candidate of `getNewReplicaSet` before the stored replica sets are consulted: the
generated replica set named and labelled with the hash of its pod template. -/
def hashedReplicaSet (E : Env) (preRs : ReplicaSet) (collisionCount : Option Int) : ReplicaSet :=
  let podTemplateSpecHash := E.computeHash preRs.Spec.Template collisionCount
  { preRs with
    ObjectMeta := { preRs.ObjectMeta with
      Name := preRs.ObjectMeta.Name ++ "-" ++ podTemplateSpecHash
      Labels := CloneAndAddLabel preRs.ObjectMeta.Labels E.PodTemplateHashLabelKey podTemplateSpecHash }
    Spec := { preRs.Spec with
      Template := { preRs.Spec.Template with
        ObjectMeta := { preRs.Spec.Template.ObjectMeta with
          Labels := CloneAndAddLabel preRs.Spec.Template.ObjectMeta.Labels
            E.PodTemplateHashLabelKey podTemplateSpecHash } }
      Selector := preRs.Spec.Selector.map
        (fun sel => CloneSelectorAndAddLabel sel E.PodTemplateHashLabelKey podTemplateSpecHash) } }

/-- The candidate `getNewReplicaSet` returns when the current replica set carries the
desired pod template: the generated replica set under the metadata, pod-template metadata
and selector of the current one. -/
def adoptedReplicaSet (preRs currentRs : ReplicaSet) : ReplicaSet :=
  { preRs with
    ObjectMeta := currentRs.ObjectMeta
    Spec := { preRs.Spec with
      Template := { preRs.Spec.Template with ObjectMeta := currentRs.Spec.Template.ObjectMeta }
      Selector := currentRs.Spec.Selector } }

/-- The function `getNewReplicaSet`; it dereferences the replicant status. -/
def getNewReplicaSet (E : Env) (s : Store) (inst : EMQX) : Except Panic ReplicaSet :=
  match generateReplicaSet E inst with
  | .error p => .error p
  | .ok generated =>
    match inst.Status.ReplicantNodesStatus with
    | none => .error .nilDereference
    | some st =>
      let preRs := hashedReplicaSet E generated st.CollisionCount
      match (E.getReplicaSetList s inst).1 with
      | none => .ok preRs
      | some currentRs =>
        if E.Calculate currentRs preRs [.justCheckPodTemplate] then
          .ok (adoptedReplicaSet preRs currentRs)
        else .ok preRs

/-- The pod as `sync` submits it: the deletion-cost annotation set on the selected pod. -/
def withDeletionCost (pod : Pod) : Pod :=
  { pod with ObjectMeta := { pod.ObjectMeta with
      Annotations := GoMap.set pod.ObjectMeta.Annotations
        "controller.kubernetes.io/pod-deletion-cost" "-99999" } }

/-- The replica set `sync` submits to scale the oldest superseded revision down:
`oldest.Spec.Replicas = pointer.Int32(oldest.Status.Replicas - 1)`. -/
def scaledDown (oldest : ReplicaSet) : ReplicaSet :=
  { oldest with
    Spec := { oldest.Spec with Replicas := some (wrapInt32 (oldest.Status.Replicas - 1)) } }

/-- The function `sync`: the returned error (or panic) and the store afterwards. The base
given to `client.MergeFrom` is the pod itself, after the annotation was set on it. -/
def sync (E : Env) (s : Store) (inst : EMQX) : Except Panic (Option GoError) × Store :=
  match (E.getReplicaSetList s inst).2 with
  | [] => (.ok none, s)
  | oldest :: _ =>
    match findCanBeDeletePod E s inst oldest with
    | .error p => (.error p, s)
    | .ok none => (.ok none, s)
    | .ok (some pod0) =>
      let pod := withDeletionCost pod0
      match Store.patch E s pod pod with
      | (some err, s1) => (.ok (some (.wrap err "failed patch pod deletion cost")), s1)
      | (none, s1) =>
        match Store.update E s1 (scaledDown oldest) with
        | (some err, s2) => (.ok (some (.wrap err "failed to scale down old replicaSet")), s2)
        | (none, s2) => (.ok none, s2)

/-- The outcome of one pass of a sub-reconciler: the result (or the panic that ended the
pass), the cluster object as mutated in memory, and the store. -/
structure Outcome where
  result : Except Panic subResult
  emqx : EMQX
  store : Store

/-- Where `addRepl.reconcile` stands once the candidate replica set is dealt with: it has
returned, or it goes on to `sync` with this cluster object and store. -/
inductive Step where
  | done (o : Outcome)
  | next (s : Store) (inst : EMQX)

/-- The condition `addRepl.reconcile` records after a create or an update. -/
def progressingCondition (E : Env) : Condition :=
  { CondType := E.ReplicantNodesProgressing
    Status := ConditionTrue
    Reason := "CreateNewReplicaSet"
    Message := "Create new replicaSet" }

/-- The method `addRepl.reconcile` up to the call of `sync`: the guards, then the create
or the in-place update of the candidate replica set. The errors of `Handler.Update`, of
`Client.Get` and of the status updates are discarded, as in the source. -/
def reconcileReplicaSet (E : Env) (s : Store) (inst : EMQX) : Step :=
  if inst.Spec.ReplicantTemplate.isNone then .done { result := .ok {}, emqx := inst, store := s }
  else if !IsConditionTrue inst.Status E.CoreNodesReady then
    .done { result := .ok {}, emqx := inst, store := s }
  else
    match getNewReplicaSet E s inst with
    | .error p => .done { result := .error p, emqx := inst, store := s }
    | .ok preRs =>
      if preRs.ObjectMeta.UID = "" then
        match Handler.Create E s (SetControllerReference inst preRs) with
        | (some err, _, s1) =>
          if IsAlreadyExists (GoError.Cause err) then
            match inst.Status.ReplicantNodesStatus with
            | none => .done { result := .error .nilDereference, emqx := inst, store := s1 }
            | some st =>
              let inst1 := { inst with Status := { inst.Status with
                ReplicantNodesStatus := some { st with
                  CollisionCount := some (wrapInt32 (st.CollisionCount.getD 0 + 1)) } } }
              .done
                { result := .ok { result := { Requeue := true } }
                  emqx := inst1
                  store := (Store.updateStatus E s1 inst1).2 }
          else
            .done
              { result := .ok { err := some (.wrap err "failed to create replicaSet") }
                emqx := inst, store := s1 }
        | (none, created, s1) =>
          match inst.Status.ReplicantNodesStatus with
          | none => .done { result := .error .nilDereference, emqx := inst, store := s1 }
          | some st =>
            let inst1 := { inst with Status :=
              { SetCondition E.now inst.Status (progressingCondition E) with
                ReplicantNodesStatus := some { st with
                  CurrentRevision := GoMap.getD created.ObjectMeta.Labels E.PodTemplateHashLabelKey } } }
            .next (Store.updateStatus E s1 inst1).2 inst1
      else
        let storageRs := (s.getReplicaSet preRs.ObjectMeta.Namespace preRs.ObjectMeta.Name).getD {}
        if !E.Calculate storageRs preRs [.IgnoreStatusFields, .IgnoreVolumeClaimTemplateTypeMetaAndStatus] then
          let s1 := (Handler.Update E s preRs).2
          let inst1 := { inst with Status := SetCondition E.now inst.Status (progressingCondition E) }
          .next (Store.updateStatus E s1 inst1).2 inst1
        else .next s inst

/-- The tail of `addRepl.reconcile`: the call of `sync` and the final result. -/
def reconcileSync (E : Env) (s : Store) (inst : EMQX) : Outcome :=
  match sync E s inst with
  | (.error p, s') => { result := .error p, emqx := inst, store := s' }
  | (.ok (some err), s') =>
    { result := .ok { err := some (.wrap err "failed to sync replicaSet") }, emqx := inst, store := s' }
  | (.ok none, s') => { result := .ok {}, emqx := inst, store := s' }

/-- The method `addRepl.reconcile`. -/
def reconcile (E : Env) (s : Store) (inst : EMQX) : Outcome :=
  match reconcileReplicaSet E s inst with
  | .done o => o
  | .next s1 inst1 => reconcileSync E s1 inst1

/-- The patch maker is reflexive: it reports an empty `justCheckPodTemplate` patch between
replica sets with the same pod spec, and an empty patch between replica sets with the same
metadata and spec. -/
def Env.patchReflexive (E : Env) : Prop :=
  (∀ a b : ReplicaSet, a.Spec.Template.Spec = b.Spec.Template.Spec →
      E.Calculate a b [.justCheckPodTemplate] = true)
  ∧ (∀ a b : ReplicaSet, a.ObjectMeta = b.ObjectMeta → a.Spec = b.Spec →
      E.Calculate a b [.IgnoreStatusFields, .IgnoreVolumeClaimTemplateTypeMetaAndStatus] = true)

/-! ## A reference environment -/

/-- A reference environment to run the definitions on: an API server that accepts every
write, a sort that keeps rows of equal session count in their order, a stand-in hash that
reads the first image and the parity of the collision counter, the current revision found
by its hash label, the scale-down gate open when the cluster is ready and no event is
observed, and patches compared field by field. -/
def refEnv : Env where
  PodTemplateHashLabelKey := "apps.emqx.io/pod-template-hash"
  DefaultContainerName := "emqx"
  PodOnServing := "apps.emqx.io/on-serving"
  Ready := "Ready"
  CoreNodesReady := "CoreNodesReady"
  ReplicantNodesProgressing := "ReplicantNodesProgressing"
  NodeCookieName := fun inst => inst.Name ++ "-node-cookie"
  BootstrapUserName := fun inst => inst.Name ++ "-bootstrap-user"
  BootstrapConfigName := fun inst => inst.Name ++ "-bootstrap-config"
  computeHash := fun template collisionCount =>
    ((template.Spec.Containers.head?).map (fun c => c.Image)).getD ""
      ++ (match collisionCount with
          | none => ""
          | some n => if n % 2 = 0 then ".0" else ".1")
  getReplicaSetList := fun s inst =>
    let revision := (inst.Status.ReplicantNodesStatus.map (fun st => st.CurrentRevision)).getD ""
    let mine := s.ReplicaSets.filter (fun rs => decide (rs.ObjectMeta.Namespace = inst.Namespace))
    (mine.find? (fun rs =>
        decide (GoMap.get rs.ObjectMeta.Labels "apps.emqx.io/pod-template-hash" = some revision)),
     mine.filter (fun rs =>
        decide (GoMap.get rs.ObjectMeta.Labels "apps.emqx.io/pod-template-hash" ≠ some revision)))
  getEventList := fun s _ => s.Events
  canBeScaledDown := fun inst ready events => IsConditionTrue inst.Status ready && events.isEmpty
  Calculate := fun current modified opts =>
    if opts = [.justCheckPodTemplate] then
      decide (current.Spec.Template.Spec = modified.Spec.Template.Spec)
    else
      decide (current.ObjectMeta = modified.ObjectMeta ∧ current.Spec = modified.Spec)
  tieBreak := fun _ _ => true
  now := 100
  rejectCreate := fun _ => none
  rejectUpdate := fun _ => none
  rejectPatch := fun _ => none
  rejectStatusUpdate := fun _ => none
  rejectList := false

/-! ## Sample clusters -/

/-- A status with the `Ready` and `CoreNodesReady` conditions true and a replicant part
holding these nodes, this current revision and this collision counter. -/
def readyStatus (nodes : List EMQXNode) (revision : String) (collisionCount : Option Int) :
    EMQXStatus :=
  { Conditions :=
      [ { CondType := "Ready", Status := "True" },
        { CondType := "CoreNodesReady", Status := "True" } ]
    ReplicantNodesStatus := some
      { Nodes := nodes, Replicas := 3, CurrentRevision := revision, CollisionCount := collisionCount } }

/-- A cluster object with a replicant template of three replicas and image `emqx:5.0`. -/
def sampleEMQX (nodes : List EMQXNode) (revision : String) (collisionCount : Option Int) : EMQX :=
  { Name := "emqx", Namespace := "default", UID := "uid-emqx"
    Spec :=
      { Image := "emqx:5.0"
        ReplicantTemplate := some
          { Name := "emqx-replicant"
            Labels := [("apps.emqx.io/db-role", "replicant")]
            Spec := { Replicas := some 3 } } }
    Status := readyStatus nodes revision collisionCount }

/-- A superseded replica set (revision `old`) with these desired and observed counts. -/
def supersededRs (desired observed : Int) : ReplicaSet :=
  { Kind := "ReplicaSet", APIVersion := "apps/v1"
    ObjectMeta :=
      { Name := "emqx-replicant-old", Namespace := "default", UID := "uid-old"
        Labels := [("apps.emqx.io/db-role", "replicant"), ("apps.emqx.io/pod-template-hash", "old")] }
    Spec :=
      { Replicas := some desired
        Selector := some { MatchLabels :=
          [("apps.emqx.io/db-role", "replicant"), ("apps.emqx.io/pod-template-hash", "old")] }
        Template :=
          { ObjectMeta := { Labels :=
              [("apps.emqx.io/db-role", "replicant"), ("apps.emqx.io/pod-template-hash", "old")] }
            Spec := { Containers := [{ Name := "emqx", Image := "emqx:4.4" }] } } }
    Status := { Replicas := observed, ReadyReplicas := observed } }

/-- A pod of the superseded replica set, with pod IP `10.0.0.1`. -/
def supersededPod : Pod :=
  { ObjectMeta :=
      { Name := "emqx-replicant-old-x7k2p", Namespace := "default", UID := "uid-pod"
        Labels := [("apps.emqx.io/db-role", "replicant"), ("apps.emqx.io/pod-template-hash", "old")] }
    Status := { PodIP := "10.0.0.1" } }

/-- A live enterprise node on `10.0.0.1` with five sessions. -/
def busyEnterpriseNode : EMQXNode :=
  { Node := "emqx@10.0.0.1", Edition := "Enterprise", Session := 5 }

/-- A live enterprise node on `10.0.0.1` without sessions. -/
def idleEnterpriseNode : EMQXNode :=
  { Node := "emqx@10.0.0.1", Edition := "Enterprise", Session := 0 }

/-- A second live node that reports the host `10.0.0.1`, without sessions. -/
def idleNodeSameHost : EMQXNode :=
  { Node := "emqx-standby@10.0.0.1", Edition := "Enterprise", Session := 0 }

/-- A store holding one superseded replica set, its pod and the persisted status. -/
def supersededStore (desired observed : Int) (nodes : List EMQXNode) : Store :=
  { ReplicaSets := [supersededRs desired observed]
    Pods := [supersededPod]
    EMQXStatus := some (readyStatus nodes "new" none) }

/-- The replica set the reference API server stores when the sample cluster's candidate is
created in an empty store; its revision is `emqx:5.0`. -/
def sampleCurrentRs : ReplicaSet :=
  match getNewReplicaSet refEnv {} (sampleEMQX [] "" none) with
  | .ok rs => (Store.create refEnv {} (SetControllerReference (sampleEMQX [] "" none) rs)).2.1
  | .error _ => {}

/-- A store in the middle of a rolling update: the superseded replica set with its pod,
and the current replica set. -/
def rollingStore (desired observed : Int) (nodes : List EMQXNode) : Store :=
  { ReplicaSets := [supersededRs desired observed, sampleCurrentRs]
    Pods := [supersededPod]
    EMQXStatus := some (readyStatus nodes "emqx:5.0" none) }

/-- A cluster object without a replicant template. -/
def coreOnlyEMQX : EMQX :=
  { Name := "emqx", Namespace := "default", UID := "uid-emqx"
    Spec := { Image := "emqx:5.0" }
    Status := readyStatus [] "" none }

/-- A cluster object with a replicant template whose core nodes are not ready yet. -/
def coreNotReadyEMQX : EMQX :=
  { sampleEMQX [] "" none with
    Status := { Conditions := [{ CondType := "CoreNodesReady", Status := "False" }]
                ReplicantNodesStatus := some {} } }

/-- A store whose only replica set already has the name of the sample cluster's candidate
for this collision counter, and is not the current revision. -/
def collidingStore (collisionCount : Option Int) : Store :=
  { ReplicaSets :=
      [{ ObjectMeta :=
          { Name := "emqx-replicant-" ++ refEnv.computeHash
              { Spec := { Containers := [{ Image := "emqx:5.0" }] } } collisionCount
            Namespace := "default", UID := "uid-foreign" }
         Spec := { Replicas := some 1 } }]
    EMQXStatus := some (readyStatus [] "" collisionCount) }

/-- The colliding store with an unschedulable-pod event on record, which shuts the
scale-down gate. -/
def collidingQuietStore : Store :=
  { collidingStore none with
    Events := [{ Reason := "FailedScheduling", Message := "0/3 nodes are available" }] }

/-- A store that holds the current replica set only. -/
def convergedStore : Store :=
  { ReplicaSets := [sampleCurrentRs]
    EMQXStatus := some (readyStatus [] "emqx:5.0" none) }

/-- The sample cluster object after its replicant replica count is raised to four. -/
def scaledUpEMQX : EMQX :=
  { sampleEMQX [] "emqx:5.0" none with
    Spec :=
      { Image := "emqx:5.0"
        ReplicantTemplate := some
          { Name := "emqx-replicant"
            Labels := [("apps.emqx.io/db-role", "replicant")]
            Spec := { Replicas := some 4 } } } }

/-- The reference environment with an API server that rejects every replica set update as
invalid. -/
def rejectingUpdatesEnv : Env :=
  { refEnv with rejectUpdate := fun _ => some .invalid }

/-- The replica set `generateReplicaSet` builds for the sample cluster. -/
def sampleGenerated : ReplicaSet :=
  match generateReplicaSet refEnv (sampleEMQX [] "" none) with
  | .ok rs => rs
  | .error _ => {}

/-- The candidate `addRepl.reconcile` submits for the sample cluster without a collision
counter. -/
def sampleCandidate : ReplicaSet :=
  SetControllerReference (sampleEMQX [] "" none) (hashedReplicaSet refEnv sampleGenerated none)

/-- A store where the replica set of revision `old` is current, before the image changes;
an unschedulable-pod event is on record. -/
def newRevisionStore : Store :=
  { ReplicaSets := [supersededRs 3 3]
    Pods := [supersededPod]
    Events := [{ Reason := "FailedScheduling", Message := "0/3 nodes are available" }]
    EMQXStatus := some (readyStatus [] "old" none) }

/-- The namespace and name of a replica set, its key in the store. -/
def ReplicaSet.key (rs : ReplicaSet) : String × String :=
  (rs.ObjectMeta.Namespace, rs.ObjectMeta.Name)


/-- A second pod of the superseded replica set, with pod IP `10.0.0.2`. -/
def secondSupersededPod : Pod :=
  { ObjectMeta :=
      { Name := "emqx-replicant-old-q9d4m", Namespace := "default", UID := "uid-pod-2"
        Labels := [("apps.emqx.io/db-role", "replicant"), ("apps.emqx.io/pod-template-hash", "old")] }
    Status := { PodIP := "10.0.0.2" } }

/-- A live community node on `10.0.0.1` with five sessions. -/
def busyCommunityNode : EMQXNode :=
  { Node := "emqx@10.0.0.1", Edition := "Opensource", Session := 5 }

/-- A live enterprise node on `10.0.0.2` without sessions. -/
def idleEnterpriseNodeB : EMQXNode :=
  { Node := "emqx@10.0.0.2", Edition := "Enterprise", Session := 0 }

/-- A live enterprise node on `10.0.0.2` with one session. -/
def oneSessionEnterpriseNodeB : EMQXNode :=
  { Node := "emqx@10.0.0.2", Edition := "Enterprise", Session := 1 }

/-- A live node on `10.0.0.1` with seven sessions whose edition is spelled `enterprise`. -/
def lowercaseEnterpriseNode : EMQXNode :=
  { Node := "emqx@10.0.0.1", Edition := "enterprise", Session := 7 }

/-- A store in the middle of a rolling update whose superseded replica set has two pods. -/
def twoPodStore (nodes : List EMQXNode) : Store :=
  { ReplicaSets := [supersededRs 2 2, sampleCurrentRs]
    Pods := [supersededPod, secondSupersededPod]
    EMQXStatus := some (readyStatus nodes "emqx:5.0" none) }


/-- The rolling-update store without any pod. -/
def podlessStore (nodes : List EMQXNode) : Store :=
  { ReplicaSets := [supersededRs 3 3, sampleCurrentRs]
    EMQXStatus := some (readyStatus nodes "emqx:5.0" none) }


/-- The sample cluster object after its replicant replica count is lowered to zero. -/
def scaledToZeroEMQX : EMQX :=
  { sampleEMQX [] "emqx:5.0" none with
    Spec :=
      { Image := "emqx:5.0"
        ReplicantTemplate := some
          { Name := "emqx-replicant"
            Labels := [("apps.emqx.io/db-role", "replicant")]
            Spec := { Replicas := some 0 } } } }

/-- The replica set `generateReplicaSet` builds for the sample cluster with this replica
count. -/
def sampleScaledGenerated (replicas : Option Int) : ReplicaSet :=
  { sampleGenerated with Spec := { sampleGenerated.Spec with Replicas := replicas } }

/-- The candidate for the sample cluster with this replica count once the current replica
set is adopted. -/
def sampleScaledCandidate (replicas : Option Int) : ReplicaSet :=
  adoptedReplicaSet (hashedReplicaSet refEnv (sampleScaledGenerated replicas) none) sampleCurrentRs


/-! ## The broker API -/

/-- An HTTP response (`http.Response`), as far as the controller reads it. -/
structure Response where
  StatusCode : Int := 0
  Status : String := ""
  deriving DecidableEq, Repr

/-- What `RequesterInterface.Request` returns: the response (a pointer), the body read from
it, and the error. -/
structure RequestResult where
  resp : Option Response := none
  body : String := ""
  err : Option GoError := none
  deriving DecidableEq, Repr

/-- A call received by the broker API: method, path and request body (`none` is nil). -/
structure BrokerCall where
  method : String
  path : String
  body : Option String
  deriving DecidableEq, Repr

/-- A requester (`innerReq.RequesterInterface`), given by its answer to each call. -/
structure Requester where
  Request : String → String → Option String → RequestResult

/-- An event handed to `EventRecorder.Event`: type, reason and message. -/
structure RecordedEvent where
  EventType : String
  Reason : String
  Message : String
  deriving DecidableEq, Repr

/-- The event type `corev1.EventTypeWarning`. -/
def EventTypeWarning : String := "Warning"

/-- What the status reconciler uses that is defined outside these sources: the test for a
configured replicant group, the two methods of the API package that write the node lists
and the conditions of the status, and `json.Unmarshal` into a `[]EMQXNode` (`none` is the nil
slice). -/
structure StatusEnv where
  isExistReplicant : EMQX → Bool
  SetNodes : EMQXStatus → Option (List EMQXNode) → EMQXStatus
  NextStatus : EMQX → StatefulSet → ReplicaSet → EMQX
  Unmarshal : String → Except GoError (Option (List EMQXNode))

/-- The call `Client.List` for stateful sets, `client.InNamespace(ns)` and
`client.MatchingLabels(sel)`; the caller discards the error, so a failed list is empty. -/
def Store.listStatefulSets (E : Env) (s : Store) (ns : String) (sel : GoMap) : List StatefulSet :=
  if E.rejectList then []
  else s.StatefulSets.filter
    (fun sts => decide (sts.ObjectMeta.Namespace = ns) && matchesLabels sel sts.ObjectMeta.Labels)

/-- The call `Client.List` for replica sets, `client.InNamespace(ns)` and
`client.MatchingLabels(sel)`; the caller discards the error, so a failed list is empty. -/
def Store.listReplicaSets (E : Env) (s : Store) (ns : String) (sel : GoMap) : List ReplicaSet :=
  if E.rejectList then []
  else s.ReplicaSets.filter
    (fun rs => decide (rs.ObjectMeta.Namespace = ns) && matchesLabels sel rs.ObjectMeta.Labels)

/-! ## `update_emqx_status.go` -/

/-- What `getNodeStatuesByAPI` does: the calls it makes and the pair it returns (a slice,
`none` when nil, and an error), or the panic it ends in. -/
structure Fetch where
  calls : List BrokerCall
  result : Except Panic (Option (List EMQXNode) × Option GoError)

/-- The function `getNodeStatuesByAPI`: one `GET api/v5/nodes`; a transport error and a
status code other than 200 are errors, otherwise the body is decoded by `json.Unmarshal`. A
nil response next to a nil error is dereferenced. -/
def getNodeStatuesByAPI (M : StatusEnv) (r : Requester) : Fetch :=
  let out := r.Request "GET" "api/v5/nodes" none
  { calls := [{ method := "GET", path := "api/v5/nodes", body := none }]
    result :=
      match out.err with
      | some err => .ok (none, some (.wrap err "failed to get API api/v5/nodes"))
      | none =>
        match out.resp with
        | none => .error .nilDereference
        | some resp =>
          if resp.StatusCode ≠ 200 then
            .ok (none, some (.message ("failed to get API api/v5/nodes, status : "
              ++ resp.Status ++ ", body: " ++ out.body)))
          else
            match M.Unmarshal out.body with
            | .error err => .ok (none, some (.wrap err "failed to unmarshal node statuses"))
            | .ok nodeStatuses => .ok (nodeStatuses, none) }

/-- The outcome of one call of `updateStatus.reconcile`: the result (or a panic), the
cluster object as the call leaves it, the store, the events recorded and the calls made to
the broker API. -/
structure StatusOutcome where
  result : Except Panic subResult
  emqx : EMQX
  store : Store
  events : List RecordedEvent
  calls : List BrokerCall

/-- The observed stateful set of `updateStatus.reconcile` (lines 20 to 34): the first one
listed under the core labels and the current core revision, an empty one when none is. -/
def existedStatefulSet (E : Env) (s : Store) (inst : EMQX) : StatefulSet :=
  ((Store.listStatefulSets E s inst.Namespace
    (CloneAndAddLabel inst.Spec.CoreTemplate.Labels E.PodTemplateHashLabelKey
      inst.Status.CoreNodesStatus.CurrentRevision)).head?).getD {}

/-- The cluster object with this core replica count in its status (line 36). -/
def withCoreReplicas (inst : EMQX) (replicas : Int) : EMQX :=
  { inst with Status := { inst.Status with
      CoreNodesStatus := { inst.Status.CoreNodesStatus with Replicas := replicas } } }

/-- The replicant part of `updateStatus.reconcile` (lines 38 to 57): the observed replica
set (or the panic of a nil dereference) and the cluster object as this part leaves it. -/
def replicantStatus (E : Env) (M : StatusEnv) (s : Store) (inst : EMQX) :
    Except Panic ReplicaSet × EMQX :=
  if M.isExistReplicant inst then
    let st := inst.Status.ReplicantNodesStatus.getD {}
    let inst1 := { inst with Status := { inst.Status with ReplicantNodesStatus := some st } }
    match inst.Spec.ReplicantTemplate with
    | none => (.error .nilDereference, inst1)
    | some tmpl =>
      let existedRs := ((Store.listReplicaSets E s inst.Namespace
        (CloneAndAddLabel tmpl.Labels E.PodTemplateHashLabelKey st.CurrentRevision)).head?).getD {}
      match tmpl.Spec.Replicas with
      | none => (.error .nilDereference, inst1)
      | some replicas =>
        (.ok existedRs,
          { inst with Status := { inst.Status with
              ReplicantNodesStatus := some { st with Replicas := replicas } } })
  else (.ok {}, inst)

/-- The fetch of `updateStatus.reconcile` (lines 59 to 65): with a requester, the node
statuses are fetched; a failure is recorded as a warning event, a success is written to the
status by `SetNodes`. -/
def fetchNodes (M : StatusEnv) (inst : EMQX) (r : Option Requester) :
    Except Panic EMQX × List RecordedEvent × List BrokerCall :=
  match r with
  | none => (.ok inst, [], [])
  | some r =>
    match (getNodeStatuesByAPI M r).result with
    | .error p => (.error p, [], (getNodeStatuesByAPI M r).calls)
    | .ok (_, some err) =>
      (.ok inst,
        [{ EventType := EventTypeWarning, Reason := "FailedToGetNodeStatuses",
           Message := GoError.Error err }],
        (getNodeStatuesByAPI M r).calls)
    | .ok (emqxNodes, none) =>
      (.ok { inst with Status := M.SetNodes inst.Status emqxNodes }, [],
        (getNodeStatuesByAPI M r).calls)

/-- The method `updateStatus.reconcile`. -/
def updateStatus.reconcile (E : Env) (M : StatusEnv) (s : Store) (inst : EMQX)
    (r : Option Requester) : StatusOutcome :=
  let existedSts := existedStatefulSet E s inst
  match inst.Spec.CoreTemplate.Spec.Replicas with
  | none => { result := .error .nilDereference, emqx := inst, store := s, events := [], calls := [] }
  | some coreReplicas =>
    match replicantStatus E M s (withCoreReplicas inst coreReplicas) with
    | (.error p, inst2) => { result := .error p, emqx := inst2, store := s, events := [], calls := [] }
    | (.ok existedRs, inst2) =>
      match fetchNodes M inst2 r with
      | (.error p, events, calls) =>
        { result := .error p, emqx := inst2, store := s, events := events, calls := calls }
      | (.ok inst3, events, calls) =>
        match Store.updateStatus E s (M.NextStatus inst3 existedSts existedRs) with
        | (some err, s1) =>
          { result := .ok { err := some (.wrap err "failed to update status") }
            emqx := M.NextStatus inst3 existedSts existedRs
            store := s1, events := events, calls := calls }
        | (none, s1) =>
          { result := .ok {}
            emqx := M.NextStatus inst3 existedSts existedRs
            store := s1, events := events, calls := calls }

/-- The node lists of a status: the core list and the replicant list (empty without a
replicant status). -/
def EMQXStatus.nodeLists (st : EMQXStatus) : List EMQXNode × List EMQXNode :=
  (st.CoreNodesStatus.Nodes, (st.ReplicantNodesStatus.map (fun r => r.Nodes)).getD [])

/-- The replicant replica count of a status, when it has a replicant part. -/
def EMQXStatus.replicantReplicas (st : EMQXStatus) : Option Int :=
  st.ReplicantNodesStatus.map (fun r => r.Replicas)

/-! ## A reference decoder for node statuses -/

/-- A JSON value; a number keeps its literal. -/
inductive Json where
  | null
  | bool (b : Bool)
  | number (literal : String)
  | string (s : String)
  | array (items : List Json)
  | object (members : List (String × Json))

/-- Dropping the white space JSON allows between tokens. -/
def skipSpace : List Char → List Char
  | [] => []
  | c :: cs =>
    if c.toNat = 32 ∨ c.toNat = 9 ∨ c.toNat = 10 ∨ c.toNat = 13 then skipSpace cs else c :: cs

/-- The value of a hexadecimal digit. -/
def hexValue (c : Char) : Option Nat :=
  if 48 ≤ c.toNat ∧ c.toNat ≤ 57 then some (c.toNat - 48)
  else if 97 ≤ c.toNat ∧ c.toNat ≤ 102 then some (c.toNat - 87)
  else if 65 ≤ c.toNat ∧ c.toNat ≤ 70 then some (c.toNat - 55)
  else none

/-- The character a one-letter escape stands for: quote, backslash, slash, b, f, n, r, t. -/
def unescape (e : Char) : Option Char :=
  if e.toNat = 34 ∨ e.toNat = 92 ∨ e.toNat = 47 then some e
  else if e.toNat = 98 then some (Char.ofNat 8)
  else if e.toNat = 102 then some (Char.ofNat 12)
  else if e.toNat = 110 then some (Char.ofNat 10)
  else if e.toNat = 114 then some (Char.ofNat 13)
  else if e.toNat = 116 then some (Char.ofNat 9)
  else none

/-- Scanning a string literal after its opening quote, up to the closing quote; control
characters are refused, a `u` escape gives the character of its four hexadecimal digits
(surrogate pairs are not joined). -/
def scanString : Nat → List Char → List Char → Option (String × List Char)
  | 0, _, _ => none
  | _ + 1, [], _ => none
  | fuel + 1, c :: cs, acc =>
    if c.toNat = 34 then some (String.mk acc.reverse, cs)
    else if c.toNat = 92 then
      match cs with
      | [] => none
      | e :: rest =>
        if e.toNat = 117 then
          match rest with
          | a :: b :: c :: d :: rest4 =>
            match hexValue a, hexValue b, hexValue c, hexValue d with
            | some x, some y, some z, some w =>
              scanString fuel rest4 (Char.ofNat (((x * 16 + y) * 16 + z) * 16 + w) :: acc)
            | _, _, _, _ => none
          | _ => none
        else
          match unescape e with
          | some u => scanString fuel rest (u :: acc)
          | none => none
    else if c.toNat < 32 then none
    else scanString fuel cs (c :: acc)

/-- The test for a decimal digit. -/
def isDigit (c : Char) : Bool :=
  decide (48 ≤ c.toNat ∧ c.toNat ≤ 57)

/-- Splitting off the leading decimal digits. -/
def scanDigits : List Char → List Char × List Char
  | [] => ([], [])
  | c :: cs => if isDigit c then (c :: (scanDigits cs).1, (scanDigits cs).2) else ([], c :: cs)

/-- Splitting off the first character when its code is one of these. -/
def scanOneOf (codes : List Nat) : List Char → List Char × List Char
  | [] => ([], [])
  | c :: cs => if c.toNat ∈ codes then ([c], cs) else ([], c :: cs)

/-- Scanning a number literal: sign, integer part without a leading zero, fraction,
exponent. -/
def scanNumber (cs : List Char) : Option (String × List Char) :=
  let sign := scanOneOf [45] cs
  match sign.2 with
  | [] => none
  | d :: r1 =>
    if isDigit d then
      let intPart := if d.toNat = 48 then ([d], r1) else (d :: (scanDigits r1).1, (scanDigits r1).2)
      let dot := scanOneOf [46] intPart.2
      let fracDigits := if dot.1 = [] then ([], intPart.2) else scanDigits dot.2
      if dot.1 ≠ [] ∧ fracDigits.1 = [] then none
      else
        let e := scanOneOf [101, 69] fracDigits.2
        if e.1 = [] then some (String.mk (sign.1 ++ intPart.1 ++ dot.1 ++ fracDigits.1), fracDigits.2)
        else
          let expSign := scanOneOf [43, 45] e.2
          let expDigits := scanDigits expSign.2
          if expDigits.1 = [] then none
          else some (String.mk (sign.1 ++ intPart.1 ++ dot.1 ++ fracDigits.1 ++ e.1 ++ expSign.1
            ++ expDigits.1), expDigits.2)
    else none

mutual
/-- Parsing one JSON value at the head of the text; the fuel bounds the depth of the
calls. -/
def parseValue : Nat → List Char → Option (Json × List Char)
  | 0, _ => none
  | fuel + 1, cs =>
    match skipSpace cs with
    | [] => none
    | c :: rest =>
      if c.toNat = 110 then
        if "ull".toList.isPrefixOf rest then some (.null, rest.drop 3) else none
      else if c.toNat = 116 then
        if "rue".toList.isPrefixOf rest then some (.bool true, rest.drop 3) else none
      else if c.toNat = 102 then
        if "alse".toList.isPrefixOf rest then some (.bool false, rest.drop 4) else none
      else if c.toNat = 34 then
        match scanString (rest.length + 1) rest [] with
        | some (str, r) => some (.string str, r)
        | none => none
      else if c.toNat = 91 then
        match skipSpace rest with
        | [] => none
        | d :: r => if d.toNat = 93 then some (.array [], r) else parseElements fuel (d :: r) []
      else if c.toNat = 123 then
        match skipSpace rest with
        | [] => none
        | d :: r => if d.toNat = 125 then some (.object [], r) else parseMembers fuel (d :: r) []
      else
        match scanNumber (c :: rest) with
        | some (lit, r) => some (.number lit, r)
        | none => none
/-- Parsing the elements of an array after its opening bracket. -/
def parseElements : Nat → List Char → List Json → Option (Json × List Char)
  | 0, _, _ => none
  | fuel + 1, cs, acc =>
    match parseValue fuel cs with
    | none => none
    | some (v, r) =>
      match skipSpace r with
      | [] => none
      | d :: r1 =>
        if d.toNat = 44 then parseElements fuel r1 (v :: acc)
        else if d.toNat = 93 then some (.array (v :: acc).reverse, r1)
        else none
/-- Parsing the members of an object after its opening brace. -/
def parseMembers : Nat → List Char → List (String × Json) → Option (Json × List Char)
  | 0, _, _ => none
  | fuel + 1, cs, acc =>
    match skipSpace cs with
    | [] => none
    | q :: r0 =>
      if q.toNat = 34 then
        match scanString (r0.length + 1) r0 [] with
        | none => none
        | some (key, r1) =>
          match skipSpace r1 with
          | [] => none
          | colon :: r2 =>
            if colon.toNat = 58 then
              match parseValue fuel r2 with
              | none => none
              | some (v, r3) =>
                match skipSpace r3 with
                | [] => none
                | d :: r4 =>
                  if d.toNat = 44 then parseMembers fuel r4 ((key, v) :: acc)
                  else if d.toNat = 125 then some (.object ((key, v) :: acc).reverse, r4)
                  else none
            else none
      else none
end

/-- Parsing a whole text as one JSON value; the fuel, twice the length of the text, bounds
the depth of the calls. -/
def parseJSON (text : String) : Option Json :=
  match parseValue (2 * text.length + 2) text.toList with
  | none => none
  | some (v, r) => if skipSpace r = [] then some v else none

/-- Reading a number literal as an `int64`, as `strconv.ParseInt` does. -/
def parseInt64 (literal : String) : Option Int :=
  let sign := scanOneOf [45] literal.toList
  if sign.2 = [] ∨ ¬ sign.2.all isDigit then none
  else
    let n : Nat := sign.2.foldl (fun a c => a * 10 + (c.toNat - 48)) 0
    let v : Int := if sign.1 = [] then (n : Int) else - (n : Int)
    if -9223372036854775808 ≤ v ∧ v ≤ 9223372036854775807 then some v else none

/-- The kind of a JSON value, as the type errors of `encoding/json` name it. -/
def Json.kind : Json → String
  | .null => "null"
  | .bool _ => "bool"
  | .number lit => "number " ++ lit
  | .string _ => "string"
  | .array _ => "array"
  | .object _ => "object"

/-- The error `json.UnmarshalTypeError` for a value that does not fit a Go type. -/
def typeError (j : Json) (goType : String) : GoError :=
  .message ("json: cannot unmarshal " ++ Json.kind j ++ " into Go value of type " ++ goType)

/-- Decoding into a `string` field: `null` leaves the field as it is. -/
def decodeString (j : Json) (old : String) : Except GoError String :=
  match j with
  | .null => .ok old
  | .string str => .ok str
  | other => .error (typeError other "string")

/-- Decoding into an `int64` field: `null` leaves the field as it is. -/
def decodeInt64 (j : Json) (old : Int) : Except GoError Int :=
  match j with
  | .null => .ok old
  | .number lit =>
    match parseInt64 lit with
    | some v => .ok v
    | none => .error (typeError (.number lit) "int64")
  | other => .error (typeError other "int64")

/-- A key with its ASCII letters in lower case. -/
def lowerCase (key : String) : String :=
  String.mk (key.toList.map Char.toLower)

/-- Modelled from the spec: the broker API returns records
`node: string, edition: string, session: integer` (section 6), so these are the keys of the
three fields; `encoding/json` matches a key to a field whatever the case of its letters and
skips keys of no field. -/
def decodeMember (node : EMQXNode) (member : String × Json) : Except GoError EMQXNode :=
  if lowerCase member.1 = "node" then
    (decodeString member.2 node.Node).map (fun v => { node with Node := v })
  else if lowerCase member.1 = "edition" then
    (decodeString member.2 node.Edition).map (fun v => { node with Edition := v })
  else if lowerCase member.1 = "session" then
    (decodeInt64 member.2 node.Session).map (fun v => { node with Session := v })
  else .ok node

/-- Decoding the members of an object one after the other, a later key overriding an
earlier one. -/
def decodeMembers : List (String × Json) → EMQXNode → Except GoError EMQXNode
  | [], node => .ok node
  | m :: rest, node =>
    match decodeMember node m with
    | .error e => .error e
    | .ok node1 => decodeMembers rest node1

/-- Decoding one element into an `EMQXNode`: `null` gives the zero value, an object is read
member by member, any other value is a type error. -/
def decodeNode (j : Json) : Except GoError EMQXNode :=
  match j with
  | .null => .ok {}
  | .object members => decodeMembers members {}
  | other => .error (typeError other "v2alpha2.EMQXNode")

/-- Decoding the elements of an array. -/
def decodeNodeList : List Json → Except GoError (List EMQXNode)
  | [] => .ok []
  | j :: rest =>
    match decodeNode j with
    | .error e => .error e
    | .ok node =>
      match decodeNodeList rest with
      | .error e => .error e
      | .ok nodes => .ok (node :: nodes)

/-- Decoding a JSON value into a `[]EMQXNode`, as `encoding/json` does: `null` sets the
slice to nil without an error, an array gives its elements, any other value is a type
error. -/
def decodeNodes (j : Json) : Except GoError (Option (List EMQXNode)) :=
  match j with
  | .null => .ok none
  | .array items =>
    match decodeNodeList items with
    | .error e => .error e
    | .ok nodes => .ok (some nodes)
  | other => .error (typeError other "[]v2alpha2.EMQXNode")

/-- The call `json.Unmarshal(body, &nodeStatuses)` of the reference environment: a text that
is not JSON is a syntax error, a JSON value is decoded by `decodeNodes`. -/
def unmarshalNodes (body : String) : Except GoError (Option (List EMQXNode)) :=
  match parseJSON body with
  | none => .error (.message "invalid character looking for beginning of value")
  | some j => decodeNodes j

/-! ## Sample status passes -/

/-- The `CoreNodesReady` condition of the reference environment: true when the observed
stateful set is a stored one with as many ready replicas as the status asks for. -/
def coreReadyCondition (inst : EMQX) (sts : StatefulSet) : Condition :=
  { CondType := refEnv.CoreNodesReady
    Status :=
      if sts.ObjectMeta.UID ≠ "" ∧ sts.Status.ReadyReplicas = inst.Status.CoreNodesStatus.Replicas
      then "True" else "False" }

/-- A reference environment for the status reconciler: a replicant group is configured when
the template asks for at least one replica, `SetNodes` stores the fetched nodes in the core
list, `NextStatus` sets the `CoreNodesReady` condition from the observed stateful set, and
bodies are decoded by `unmarshalNodes`. -/
def refStatusEnv : StatusEnv where
  isExistReplicant := fun inst =>
    match inst.Spec.ReplicantTemplate with
    | none => false
    | some tmpl =>
      match tmpl.Spec.Replicas with
      | none => false
      | some n => decide (0 < n)
  SetNodes := fun st nodes =>
    { st with CoreNodesStatus := { st.CoreNodesStatus with Nodes := nodes.getD [] } }
  NextStatus := fun inst sts _ =>
    { inst with Status := SetCondition refEnv.now inst.Status (coreReadyCondition inst sts) }
  Unmarshal := unmarshalNodes

/-- A requester whose broker answers `GET api/v5/nodes` with this status and body, and any
other call with a transport error. -/
def respondingRequester (code : Int) (status body : String) : Requester :=
  { Request := fun method path _ =>
      if method = "GET" ∧ path = "api/v5/nodes" then
        { resp := some { StatusCode := code, Status := status }, body := body }
      else { err := some (.message "unexpected request") } }

/-- A requester whose broker cannot be reached. -/
def unreachableRequester : Requester :=
  { Request := fun _ _ _ => { err := some (.message "connection refused") } }

/-- The body the broker returns for one enterprise node with three sessions. -/
def oneNodeBody : String :=
  "[\x7b\"node\":\"emqx@10.0.0.1\",\"edition\":\"Enterprise\",\"session\":3\x7d]"

/-- The sample cluster object with a core template of two replicas; its status still
reports one core replica and these core nodes. -/
def statusEMQX (coreNodes : List EMQXNode) : EMQX :=
  { sampleEMQX [idleEnterpriseNode] "emqx:5.0" none with
    Spec :=
      { Image := "emqx:5.0"
        CoreTemplate :=
          { Name := "emqx-core"
            Labels := [("apps.emqx.io/db-role", "core")]
            Spec := { Replicas := some 2 } }
        ReplicantTemplate := some
          { Name := "emqx-replicant"
            Labels := [("apps.emqx.io/db-role", "replicant")]
            Spec := { Replicas := some 4 } } }
    Status :=
      { Conditions := [{ CondType := "CoreNodesReady", Status := "True" }]
        CoreNodesStatus := { Nodes := coreNodes, Replicas := 1, CurrentRevision := "core-1" }
        ReplicantNodesStatus := none } }

/-- A store for the status pass: the core stateful set with two ready replicas, the current
replica set, and the persisted status. -/
def statusStore : Store :=
  { StatefulSets :=
      [{ ObjectMeta :=
           { Name := "emqx-core", Namespace := "default", UID := "uid-core"
             Labels := [("apps.emqx.io/db-role", "core"), ("apps.emqx.io/pod-template-hash", "core-1")] }
         Spec := { Replicas := some 2 }
         Status := { Replicas := 2, ReadyReplicas := 2 } }]
    ReplicaSets := [sampleCurrentRs]
    EMQXStatus := some {} }

/-- The reference environment with an API server that rejects the status update with a
conflict. -/
def conflictingStatusEnv : Env :=
  { refEnv with rejectStatusUpdate := fun _ => some .conflict }


/-! ## `emqxbroker_webhook.go` -/

mutual
/-- A Go value as `reflect.DeepEqual` walks it: a boolean, an integer, a string, a pointer, a
slice, a map keyed by strings, or a struct with its fields by name in the order of their
declaration; the nil pointer, the nil slice and the nil map are values of their own. -/
inductive GoValue where
  | bool (b : Bool)
  | int (n : Int)
  | string (s : String)
  | nilPointer
  | pointer (target : GoValue)
  | nilSlice
  | slice (elems : GoValues)
  | nilMap
  | map (entries : GoFields)
  | struct (fields : GoFields)
/-- The elements of a slice. -/
inductive GoValues where
  | nil
  | cons (head : GoValue) (tail : GoValues)
/-- The fields of a struct, and the entries of a map, each with its name or key. -/
inductive GoFields where
  | nil
  | cons (name : String) (value : GoValue) (tail : GoFields)
end

/-- The elements of a slice, from a list. -/
def GoValues.ofList : List GoValue → GoValues
  | [] => .nil
  | v :: rest => .cons v (GoValues.ofList rest)

/-- The fields of a struct or the entries of a map, from a list. -/
def GoFields.ofList : List (String × GoValue) → GoFields
  | [] => .nil
  | (k, v) :: rest => .cons k v (GoFields.ofList rest)

/-- The value of a map under a key. -/
def GoFields.lookup (k : String) : GoFields → Option GoValue
  | .nil => none
  | .cons name v rest => if name = k then some v else GoFields.lookup k rest

/-- The number of entries of a map. -/
def GoFields.length : GoFields → Nat
  | .nil => 0
  | .cons _ _ rest => GoFields.length rest + 1

/-- A persistent volume claim (`corev1.PersistentVolumeClaim`, a type of the Kubernetes API
package): the whole Go value, every field of it included. -/
structure PersistentVolumeClaim where
  value : GoValue

/-- The broker object of API version v1beta4 (`EmqxBroker`), as far as the webhook reads and
writes it; `VolumeClaimTemplates` is what `GetVolumeClaimTemplates` returns, a slice that
may be nil. -/
structure EmqxBroker where
  Name : String := ""
  Namespace : String := ""
  Labels : Option GoMap := none
  Annotations : Option GoMap := none
  Replicas : Option Int := none
  Image : String := ""
  EmqxACL : List String := []
  EmqxConfig : Option GoMap := none
  VolumeClaimTemplates : Option (List PersistentVolumeClaim) := none

/-- A `runtime.Object` handed to the webhook: a pointer to a broker object (`none` is the nil
pointer), or an object of another kind. -/
inductive RuntimeObject where
  | emqxBroker (obj : Option EmqxBroker)
  | other (kind : String)

/-- What the validating webhook uses that is defined outside these sources: the function
`reflect.DeepEqual` of the Go library, at the type `[]corev1.PersistentVolumeClaim`. -/
structure ValidatorEnv where
  DeepEqual : Option (List PersistentVolumeClaim) → Option (List PersistentVolumeClaim) → Bool

/-- The function `validateVolumeClaimTemplates`. -/
def validateVolumeClaimTemplates (V : ValidatorEnv) (new old : EmqxBroker) : Option GoError :=
  if ! V.DeepEqual new.VolumeClaimTemplates old.VolumeClaimTemplates then
    some (.message "refuse to update VolumeClaimTemplates ")
  else none

/-- The method `EmqxBroker.ValidateCreate`; it writes a log line and returns nil. -/
def ValidateCreate (_r : EmqxBroker) : Option GoError :=
  none

/-- The method `EmqxBroker.ValidateUpdate`: the old object is asserted to be a broker
object, which panics for another kind, and the volume claim templates are compared. -/
def ValidateUpdate (V : ValidatorEnv) (r : EmqxBroker) (old : RuntimeObject) :
    Except Panic (Option GoError) :=
  match old with
  | .other _ => .error .interfaceConversion
  | .emqxBroker none => .error .nilDereference
  | .emqxBroker (some oldEmqx) =>
    match validateVolumeClaimTemplates V r oldEmqx with
    | some err => .ok (some err)
    | none => .ok none

/-- The method `EmqxBroker.ValidateDelete`; it writes a log line and returns nil. -/
def ValidateDelete (_r : EmqxBroker) : Option GoError :=
  none

/-! ## A reference comparison of Go values -/

mutual
/-- The comparison `reflect.DeepEqual` makes of two values of one type: basic values are
equal when they are the same, pointers when both are nil or their targets are deeply equal,
slices when both are nil or both are not and their elements are deeply equal in order, maps
when both are nil or both are not, they have as many entries, and every key of the first has
a deeply equal value in the second, structs when their fields are deeply equal. -/
def deepValueEqual (a b : GoValue) : Bool :=
  match a with
  | .bool x => match b with
    | .bool y => x == y
    | _ => false
  | .int x => match b with
    | .int y => x == y
    | _ => false
  | .string x => match b with
    | .string y => x == y
    | _ => false
  | .nilPointer => match b with
    | .nilPointer => true
    | _ => false
  | .pointer x => match b with
    | .pointer y => deepValueEqual x y
    | _ => false
  | .nilSlice => match b with
    | .nilSlice => true
    | _ => false
  | .slice xs => match b with
    | .slice ys => deepElemsEqual xs ys
    | _ => false
  | .nilMap => match b with
    | .nilMap => true
    | _ => false
  | .map xs => match b with
    | .map ys => decide (GoFields.length xs = GoFields.length ys) && deepEntriesIn xs ys
    | _ => false
  | .struct xs => match b with
    | .struct ys => deepFieldsEqual xs ys
    | _ => false
termination_by structural a
/-- The comparison of the elements of two slices, in order. -/
def deepElemsEqual (a b : GoValues) : Bool :=
  match a with
  | .nil => match b with
    | .nil => true
    | _ => false
  | .cons x xs => match b with
    | .cons y ys => deepValueEqual x y && deepElemsEqual xs ys
    | _ => false
termination_by structural a
/-- The test that every entry of the first map has a deeply equal value under its key in
the second. -/
def deepEntriesIn (a b : GoFields) : Bool :=
  match a with
  | .nil => true
  | .cons k v rest =>
    (match GoFields.lookup k b with
      | some w => deepValueEqual v w
      | none => false) && deepEntriesIn rest b
termination_by structural a
/-- The comparison of the fields of two structs, in order. -/
def deepFieldsEqual (a b : GoFields) : Bool :=
  match a with
  | .nil => match b with
    | .nil => true
    | _ => false
  | .cons n x xs => match b with
    | .cons m y ys => decide (n = m) && deepValueEqual x y && deepFieldsEqual xs ys
    | _ => false
termination_by structural a
end

/-- The comparison of the claims of two slices, in order. -/
def deepClaimListEqual : List PersistentVolumeClaim → List PersistentVolumeClaim → Bool
  | [], [] => true
  | a :: as, b :: bs => deepValueEqual a.value b.value && deepClaimListEqual as bs
  | _, _ => false

/-- The comparison of two slices of claims: both nil or both not, and deeply equal claims
in order. -/
def deepClaimsEqual (a b : Option (List PersistentVolumeClaim)) : Bool :=
  match a, b with
  | none, none => true
  | some x, some y => deepClaimListEqual x y
  | _, _ => false

/-- A reference environment for the validating webhook: values are compared by
`deepClaimsEqual`. -/
def refValidatorEnv : ValidatorEnv :=
  { DeepEqual := deepClaimsEqual }

/-- A `resource.Quantity` in binary format with this value and no cached text; the
quantities written `1048576Ki` and `1024Mi` both have the value 1073741824. -/
def binaryQuantity (value : Int) : GoValue :=
  .struct (.ofList
    [ ("i", .struct (.ofList [("value", .int value), ("scale", .int 0)])),
      ("d", .struct (.ofList [("Dec", .nilPointer)])),
      ("s", .string ""),
      ("Format", .string "BinarySI") ])

/-- The metadata of the sample volume claim template, with these labels. -/
def claimMeta (labels : GoValue) : GoValue :=
  .struct (.ofList
    [ ("Name", .string "emqx-data"),
      ("GenerateName", .string ""),
      ("Namespace", .string ""),
      ("UID", .string ""),
      ("ResourceVersion", .string ""),
      ("Generation", .int 0),
      ("DeletionTimestamp", .nilPointer),
      ("Labels", labels),
      ("Annotations", .nilMap),
      ("OwnerReferences", .nilSlice),
      ("Finalizers", .nilSlice) ])

/-- The spec of the sample volume claim template, with this storage request and volume
mode. -/
def claimSpec (storage volumeMode : GoValue) : GoValue :=
  .struct (.ofList
    [ ("AccessModes", .slice (.ofList [.string "ReadWriteOnce"])),
      ("Selector", .nilPointer),
      ("Resources", .struct (.ofList
        [ ("Limits", .nilMap),
          ("Requests", .map (.ofList [("storage", storage)])) ])),
      ("VolumeName", .string ""),
      ("StorageClassName", .pointer (.string "standard")),
      ("VolumeMode", volumeMode),
      ("DataSource", .nilPointer) ])

/-- The sample volume claim template `emqx-data`, with these labels, this storage request
and this volume mode. -/
def sampleClaim (labels storage volumeMode : GoValue) : PersistentVolumeClaim :=
  { value := .struct (.ofList
      [ ("TypeMeta", .struct (.ofList [("Kind", .string ""), ("APIVersion", .string "")])),
        ("ObjectMeta", claimMeta labels),
        ("Spec", claimSpec storage volumeMode),
        ("Status", .struct (.ofList
          [ ("Phase", .string ""),
            ("AccessModes", .nilSlice),
            ("Capacity", .nilMap),
            ("Conditions", .nilSlice) ])) ]) }

/-- The labels of the sample volume claim template. -/
def claimLabels : GoValue :=
  .map (.ofList [("app", .string "emqx"), ("tier", .string "broker")])

/-- The same labels, with the entries of the map listed the other way round. -/
def claimLabelsReordered : GoValue :=
  .map (.ofList [("tier", .string "broker"), ("app", .string "emqx")])

/-- A broker object with one volume claim template asking for this much storage, in
bytes. -/
def sampleBroker (storage : Int) : EmqxBroker :=
  { Name := "emqx", Namespace := "default"
    Labels := some [("apps.emqx.io/instance", "emqx")]
    Replicas := some 3
    Image := "emqx/emqx:4.4.8"
    VolumeClaimTemplates := some [sampleClaim claimLabels (binaryQuantity storage) .nilPointer] }


/-- A replicant template spec with a sidecar container, a variable, and a mounted volume of
the user. -/
def sidecarSpec : EMQXReplicantTemplateSpec :=
  { Replicas := some 2
    ExtraContainers := [{ Name := "exporter", Image := "emqx/exporter:0.1" }]
    Env := [{ Name := "EMQX_LOG__LEVEL", Value := "debug" }]
    ExtraVolumeMounts := [{ Name := "plugins", MountPath := "/opt/emqx/plugins" }]
    ExtraVolumes := [{ Name := "plugins", VolumeSource := .EmptyDir }] }

/-- A cluster object whose replicant template carries the sidecar spec. -/
def sidecarEMQX : EMQX :=
  { Name := "emqx", Namespace := "default", UID := "uid-emqx"
    Spec :=
      { Image := "emqx:5.0"
        ReplicantTemplate := some
          { Name := "emqx-replicant"
            Labels := [("apps.emqx.io/db-role", "replicant")]
            Spec := sidecarSpec } }
    Status := readyStatus [] "" none }


/-- The reference environment with an API server that validates the replica count of a
replica set as the real one does: a negative count is rejected as invalid. -/
def validatingEnv : Env :=
  { refEnv with
    rejectUpdate := fun rs =>
      match rs.Spec.Replicas with
      | some n => if n < 0 then some .invalid else none
      | none => none }


/-! ## The defaulting webhook -/

/-- What the defaulting webhook uses that is defined outside these sources: the name of the
headless service (`Names.HeadlessSvc`), and the order in which a `range` loop visits the
entries of a map, which Go leaves open. -/
structure WebhookEnv where
  HeadlessSvc : EmqxBroker → String
  rangeOrder : GoMap → GoMap

/-- The map `clusterConfig` that `defaultEmqxConfig` builds by seven assignments to distinct
keys, as the list of its entries. -/
def clusterConfig (W : WebhookEnv) (r : EmqxBroker) : GoMap :=
  [ ("name", r.Name),
    ("log.to", "console"),
    ("cluster.discovery", "dns"),
    ("cluster.dns.type", "srv"),
    ("cluster.dns.app", r.Name),
    ("cluster.dns.name", W.HeadlessSvc r ++ "." ++ r.Namespace ++ ".svc.cluster.local"),
    ("listener.tcp.internal", "") ]

/-- The keys of `clusterConfig`. -/
def clusterKeys : List String :=
  ["name", "log.to", "cluster.discovery", "cluster.dns.type", "cluster.dns.app",
   "cluster.dns.name", "listener.tcp.internal"]

/-- The body of the loop of `defaultEmqxConfig`: the entry is written when the map has no
value under its key. -/
def setIfAbsent (m : GoMap) (kv : String × String) : GoMap :=
  match GoMap.get m kv.1 with
  | some _ => m
  | none => GoMap.set m kv.1 kv.2

/-- The function `defaultEmqxConfig`: a nil config map is replaced by an empty one, and
every entry of `clusterConfig` is written unless the config has its key. -/
def defaultEmqxConfig (W : WebhookEnv) (r : EmqxBroker) : EmqxBroker :=
  { r with
    EmqxConfig := some
      ((W.rangeOrder (clusterConfig W r)).foldl setIfAbsent (r.EmqxConfig.getD [])) }

/-- A reference environment for the webhook: the headless service is named after the
object, and a map is visited from its last entry to its first. -/
def refWebhookEnv : WebhookEnv :=
  { HeadlessSvc := fun r => r.Name ++ "-headless"
    rangeOrder := List.reverse }

/-- A broker object whose config sets the log target, one cluster key, and a key of its
own. -/
def configuredBroker : EmqxBroker :=
  { sampleBroker 1073741824 with
    EmqxConfig := some
      [("log.to", "file"), ("cluster.discovery", "k8s"), ("zone.external.max_packet_size", "1MB")] }


/-- A second, younger superseded replica set (revision `mid`) with these desired and
observed counts. -/
def youngerSupersededRs (desired observed : Int) : ReplicaSet :=
  { Kind := "ReplicaSet", APIVersion := "apps/v1"
    ObjectMeta :=
      { Name := "emqx-replicant-mid", Namespace := "default", UID := "uid-mid"
        CreationTimestamp := 50
        Labels := [("apps.emqx.io/db-role", "replicant"), ("apps.emqx.io/pod-template-hash", "mid")] }
    Spec :=
      { Replicas := some desired
        Selector := some { MatchLabels :=
          [("apps.emqx.io/db-role", "replicant"), ("apps.emqx.io/pod-template-hash", "mid")] }
        Template :=
          { ObjectMeta := { Labels :=
              [("apps.emqx.io/db-role", "replicant"), ("apps.emqx.io/pod-template-hash", "mid")] }
            Spec := { Containers := [{ Name := "emqx", Image := "emqx:4.4.9" }] } } }
    Status := { Replicas := observed, ReadyReplicas := observed } }

/-- A pod of the younger superseded replica set, with pod IP `10.0.0.3`. -/
def youngerSupersededPod : Pod :=
  { ObjectMeta :=
      { Name := "emqx-replicant-mid-h5w8c", Namespace := "default", UID := "uid-pod-3"
        Labels := [("apps.emqx.io/db-role", "replicant"), ("apps.emqx.io/pod-template-hash", "mid")] }
    Status := { PodIP := "10.0.0.3" } }

/-- A live enterprise node on `10.0.0.3` without sessions. -/
def idleEnterpriseNodeC : EMQXNode :=
  { Node := "emqx@10.0.0.3", Edition := "Enterprise", Session := 0 }

/-- A store with two superseded replica sets, each with one pod, next to the current one. -/
def twoSupersededStore : Store :=
  { ReplicaSets := [supersededRs 3 3, youngerSupersededRs 3 3, sampleCurrentRs]
    Pods := [supersededPod, youngerSupersededPod]
    EMQXStatus := some (readyStatus [idleEnterpriseNode, idleEnterpriseNodeC] "emqx:5.0" none) }

/-! ## Lemmas on the candidate list -/

theorem insertRow_perm (E : Env) (x : podSessionCount) (l : List podSessionCount) :
    (insertRow E x l).Perm (x :: l) := by
  induction l with
  | nil => exact List.Perm.refl _
  | cons y rest ih =>
    unfold insertRow
    split
    · exact List.Perm.refl _
    · exact (List.Perm.cons y ih).trans (List.Perm.swap x y rest)

theorem sortSlice_perm (E : Env) (l : List podSessionCount) : (sortSlice E l).Perm l := by
  induction l with
  | nil => exact List.Perm.refl _
  | cons x rest ih =>
    unfold sortSlice
    exact (insertRow_perm E x _).trans (List.Perm.cons x ih)

theorem mem_matchPods (node : EMQXNode) (pods : List Pod) (c : podSessionCount) :
    c ∈ matchPods node pods ↔
      c.pod ∈ pods ∧ c.pod.Status.PodIP = hostOf node.Node ∧ c.edition = node.Edition
        ∧ c.session = node.Session := by
  induction pods with
  | nil => simp [matchPods]
  | cons p rest ih =>
    unfold matchPods
    split
    · rename_i hip
      rw [List.mem_cons, ih]
      constructor
      · rintro (rfl | ⟨h1, h2, h3, h4⟩)
        · exact ⟨List.mem_cons_self _ _, hip, rfl, rfl⟩
        · exact ⟨List.mem_cons_of_mem _ h1, h2, h3, h4⟩
      · rintro ⟨h1, h2, h3, h4⟩
        rcases List.mem_cons.mp h1 with h | h
        · left
          cases c
          simp_all
        · exact Or.inr ⟨h, h2, h3, h4⟩
    · rename_i hip
      rw [ih]
      constructor
      · rintro ⟨h1, h2, h3, h4⟩
        exact ⟨List.mem_cons_of_mem _ h1, h2, h3, h4⟩
      · rintro ⟨h1, h2, h3, h4⟩
        rcases List.mem_cons.mp h1 with h | h
        · exact absurd (h ▸ h2) hip
        · exact ⟨h, h2, h3, h4⟩

theorem mem_joinNodes (nodes : List EMQXNode) (pods : List Pod) (c : podSessionCount) :
    c ∈ joinNodes nodes pods ↔ ∃ node ∈ nodes, c ∈ matchPods node pods := by
  induction nodes with
  | nil => simp [joinNodes]
  | cons n rest ih =>
    unfold joinNodes
    rw [List.mem_append, ih]
    simp

/-- Whatever `findCanBeDeletePod` returns is the pod of a candidate row that is not an
enterprise row with sessions. -/
theorem findCanBeDeletePod_some (E : Env) (s : Store) (inst : EMQX) (old : ReplicaSet) (pod : Pod)
    (h : findCanBeDeletePod E s inst old = .ok (some pod)) :
    ∃ st selector, inst.Status.ReplicantNodesStatus = some st ∧ old.Spec.Selector = some selector ∧
      ∃ c ∈ joinNodes st.Nodes (Store.listPods E s old.ObjectMeta.Namespace selector.MatchLabels),
        c.pod = pod ∧ ¬ (c.edition = "Enterprise" ∧ c.session > 0) := by
  unfold findCanBeDeletePod at h
  split at h
  · simp at h
  · split at h
    · simp at h
    · rename_i selector hsel
      split at h
      · simp at h
      · rename_i st hst
        dsimp only at h
        split at h
        · simp at h
        · rename_i first rest hsort
          have hmem : first ∈ joinNodes st.Nodes
              (Store.listPods E s old.ObjectMeta.Namespace selector.MatchLabels) := by
            have : first ∈ sortSlice E (joinNodes st.Nodes
                (Store.listPods E s old.ObjectMeta.Namespace selector.MatchLabels)) := by
              rw [hsort]; exact List.mem_cons_self _ _
            exact (sortSlice_perm E _).subset this
          split at h
          · simp at h
          · rename_i hnot
            refine ⟨st, selector, hst, hsel, first, hmem, ?_, hnot⟩
            simpa using h

/-! ## Evacuation safety -/

/-- C1 (as stated, refuted): the pod on `10.0.0.1` is correlated to a live enterprise node
with five sessions, and `findCanBeDeletePod` returns it, because a second live node with the
same host part reports no session and its row sorts first. -/
theorem findCanBeDeletePod_returns_pod_of_busy_enterprise_node :
    busyEnterpriseNode ∈ [busyEnterpriseNode, idleNodeSameHost]
      ∧ supersededPod.Status.PodIP = hostOf busyEnterpriseNode.Node
      ∧ busyEnterpriseNode.Edition = "Enterprise"
      ∧ 0 < busyEnterpriseNode.Session
      ∧ findCanBeDeletePod refEnv
          (supersededStore 3 3 [busyEnterpriseNode, idleNodeSameHost])
          (sampleEMQX [busyEnterpriseNode, idleNodeSameHost] "new" none)
          (supersededRs 3 3) = .ok (some supersededPod) := by
  refine ⟨by decide, by decide, by decide, by decide, ?_⟩
  rfl

/-- C1 (amended): if every live node correlated to a pod (the pod IP equals the host part
of the node name) reports edition `Enterprise` with a positive session count, then
`findCanBeDeletePod` does not return that pod, whatever the store, the old replica set and
the environment are. -/
theorem findCanBeDeletePod_evacuation_safety (E : Env) (s : Store) (inst : EMQX)
    (old : ReplicaSet) (pod : Pod)
    (h : ∀ st, inst.Status.ReplicantNodesStatus = some st → ∀ node ∈ st.Nodes,
      pod.Status.PodIP = hostOf node.Node → node.Edition = "Enterprise" ∧ 0 < node.Session) :
    findCanBeDeletePod E s inst old ≠ .ok (some pod) := by
  intro hret
  obtain ⟨st, selector, hst, -, c, hc, hpod, hnot⟩ := findCanBeDeletePod_some E s inst old pod hret
  obtain ⟨node, hnode, hrow⟩ := (mem_joinNodes _ _ _).mp hc
  obtain ⟨-, hip, hed, hse⟩ := (mem_matchPods _ _ _).mp hrow
  have := h st hst node hnode (by rw [← hpod]; exact hip)
  exact hnot ⟨by rw [hed]; exact this.1, by rw [hse]; exact this.2⟩

/-- C1 (amended), on a cluster: the only node correlated to the pod is an enterprise node
with five sessions, and the pod is not returned. -/
theorem findCanBeDeletePod_evacuation_safety_witness :
    (∀ st, (sampleEMQX [busyEnterpriseNode] "new" none).Status.ReplicantNodesStatus = some st →
      ∀ node ∈ st.Nodes, supersededPod.Status.PodIP = hostOf node.Node →
        node.Edition = "Enterprise" ∧ 0 < node.Session)
    ∧ findCanBeDeletePod refEnv (supersededStore 3 3 [busyEnterpriseNode])
        (sampleEMQX [busyEnterpriseNode] "new" none) (supersededRs 3 3) ≠ .ok (some supersededPod) := by
  have hyp : ∀ st, (sampleEMQX [busyEnterpriseNode] "new" none).Status.ReplicantNodesStatus = some st →
      ∀ node ∈ st.Nodes, supersededPod.Status.PodIP = hostOf node.Node →
        node.Edition = "Enterprise" ∧ 0 < node.Session := by
    intro st hst node hnode _
    have hst' := Option.some.inj hst
    subst hst'
    have : node = busyEnterpriseNode := by simpa using hnode
    subst this
    exact ⟨by decide, by decide⟩
  exact ⟨hyp, findCanBeDeletePod_evacuation_safety refEnv _ _ _ _ hyp⟩

/-! ## Lemmas on the store -/

theorem Store.patch_replicaSets (E : Env) (s : Store) (obj base : Pod) :
    (Store.patch E s obj base).2.ReplicaSets = s.ReplicaSets := by
  unfold Store.patch
  dsimp only
  split
  · rfl
  · split <;> rfl

theorem Store.getReplicaSet_patch (E : Env) (s : Store) (obj base : Pod) (ns name : String) :
    (Store.patch E s obj base).2.getReplicaSet ns name = s.getReplicaSet ns name := by
  unfold Store.getReplicaSet
  rw [Store.patch_replicaSets]

theorem find_replaceReplicaSet_same (rs cur : ReplicaSet) (l : List ReplicaSet)
    (h : l.find? (ReplicaSet.hasKey rs.ObjectMeta.Namespace rs.ObjectMeta.Name) = some cur) :
    (replaceReplicaSet rs l).find? (ReplicaSet.hasKey rs.ObjectMeta.Namespace rs.ObjectMeta.Name)
      = some (updatedReplicaSet rs cur) := by
  induction l with
  | nil => simp at h
  | cons x rest ih =>
    unfold replaceReplicaSet
    by_cases hx : ReplicaSet.hasKey rs.ObjectMeta.Namespace rs.ObjectMeta.Name x = true
    · rw [List.find?_cons_of_pos _ hx] at h
      have hxc : x = cur := Option.some.inj h
      rw [if_pos hx, hxc]
      have hkey : ReplicaSet.hasKey rs.ObjectMeta.Namespace rs.ObjectMeta.Name
          (updatedReplicaSet rs cur) = true := by
        simp [ReplicaSet.hasKey, updatedReplicaSet]
      exact List.find?_cons_of_pos _ hkey
    · rw [List.find?_cons_of_neg _ hx] at h
      rw [if_neg hx, List.find?_cons_of_neg _ hx]
      exact ih h

theorem find_replaceReplicaSet_other (rs : ReplicaSet) (l : List ReplicaSet) (ns name : String)
    (h : ¬ (rs.ObjectMeta.Namespace = ns ∧ rs.ObjectMeta.Name = name)) :
    (replaceReplicaSet rs l).find? (ReplicaSet.hasKey ns name)
      = l.find? (ReplicaSet.hasKey ns name) := by
  induction l with
  | nil => rfl
  | cons x rest ih =>
    unfold replaceReplicaSet
    by_cases hx : ReplicaSet.hasKey rs.ObjectMeta.Namespace rs.ObjectMeta.Name x = true
    · rw [if_pos hx]
      have h1 : ReplicaSet.hasKey ns name x = false := by
        simp only [ReplicaSet.hasKey, Bool.and_eq_true, decide_eq_true_eq] at hx
        simp only [ReplicaSet.hasKey, Bool.and_eq_false_iff, decide_eq_false_iff_not]
        by_contra hcon
        push_neg at hcon
        exact h ⟨by rw [← hx.1]; exact hcon.1, by rw [← hx.2]; exact hcon.2⟩
      have h2 : ReplicaSet.hasKey ns name (updatedReplicaSet rs x) = false := by
        simp only [ReplicaSet.hasKey, updatedReplicaSet, Bool.and_eq_false_iff,
          decide_eq_false_iff_not]
        by_contra hcon
        push_neg at hcon
        exact h hcon
      rw [List.find?_cons_of_neg _ (by rw [h2]; exact Bool.false_ne_true),
        List.find?_cons_of_neg _ (by rw [h1]; exact Bool.false_ne_true)]
    · rw [if_neg hx]
      by_cases hy : ReplicaSet.hasKey ns name x = true
      · rw [List.find?_cons_of_pos _ hy, List.find?_cons_of_pos _ hy]
      · rw [List.find?_cons_of_neg _ hy, List.find?_cons_of_neg _ hy]
        exact ih

theorem map_key_replaceReplicaSet (rs : ReplicaSet) (l : List ReplicaSet) :
    (replaceReplicaSet rs l).map (fun r => (r.ObjectMeta.Namespace, r.ObjectMeta.Name))
      = l.map (fun r => (r.ObjectMeta.Namespace, r.ObjectMeta.Name)) := by
  induction l with
  | nil => rfl
  | cons x rest ih =>
    unfold replaceReplicaSet
    by_cases hx : ReplicaSet.hasKey rs.ObjectMeta.Namespace rs.ObjectMeta.Name x = true
    · rw [if_pos hx]
      simp only [ReplicaSet.hasKey, Bool.and_eq_true, decide_eq_true_eq] at hx
      simp [updatedReplicaSet, hx.1, hx.2]
    · rw [if_neg hx, List.map_cons, List.map_cons, ih]

/-- What `Client.Update` does to the stored replica sets: nothing when it fails; when it
succeeds the replica set of that key existed and is replaced. -/
theorem Store.update_replicaSets (E : Env) (s : Store) (rs : ReplicaSet) :
    ((Store.update E s rs).1 ≠ none ∧ (Store.update E s rs).2.ReplicaSets = s.ReplicaSets)
    ∨ ((Store.update E s rs).1 = none
        ∧ (∃ cur, s.getReplicaSet rs.ObjectMeta.Namespace rs.ObjectMeta.Name = some cur)
        ∧ (Store.update E s rs).2.ReplicaSets = replaceReplicaSet rs s.ReplicaSets) := by
  unfold Store.update
  dsimp only
  split
  · left; exact ⟨by simp, rfl⟩
  · split
    · left; exact ⟨by simp, rfl⟩
    · rename_i cur hcur
      right; exact ⟨rfl, ⟨cur, hcur⟩, rfl⟩

/-- What `sync` does to the stored replica sets: nothing, unless a pod was selected for the
oldest superseded revision and both writes were accepted, when that revision is replaced by
its scaled-down copy. -/
theorem sync_replicaSets (E : Env) (s : Store) (inst : EMQX) :
    (sync E s inst).2.ReplicaSets = s.ReplicaSets
    ∨ ∃ oldest rest pod cur,
        (E.getReplicaSetList s inst).2 = oldest :: rest
        ∧ findCanBeDeletePod E s inst oldest = .ok (some pod)
        ∧ s.getReplicaSet oldest.ObjectMeta.Namespace oldest.ObjectMeta.Name = some cur
        ∧ (sync E s inst).1 = .ok none
        ∧ (sync E s inst).2.ReplicaSets = replaceReplicaSet (scaledDown oldest) s.ReplicaSets := by
  unfold sync
  split
  · left; rfl
  · rename_i oldest rest hold
    split
    · left; rfl
    · left; rfl
    · rename_i pod hpod
      dsimp only
      split
      · rename_i err s1 hpatch
        left
        have := Store.patch_replicaSets E s (withDeletionCost pod) (withDeletionCost pod)
        rw [hpatch] at this
        exact this
      · rename_i s1 hpatch
        have hrs := Store.patch_replicaSets E s (withDeletionCost pod) (withDeletionCost pod)
        rw [hpatch] at hrs
        dsimp only at hrs
        rcases Store.update_replicaSets E s1 (scaledDown oldest) with ⟨hne, hsame⟩ | ⟨hnone, ⟨cur, hcur⟩, hrep⟩
        · left
          split
          · rename_i err s2 hupd
            rw [hupd] at hsame
            exact hsame.trans hrs
          · rename_i s2 hupd
            rw [hupd] at hne
            exact absurd rfl hne
        · right
          refine ⟨oldest, rest, pod, cur, hold, hpod, ?_, ?_⟩
          · unfold Store.getReplicaSet at hcur ⊢
            rw [hrs] at hcur
            exact hcur
          · split
            · rename_i err s2 hupd
              rw [hupd] at hnone
              simp at hnone
            · rename_i s2 hupd
              rw [hupd] at hrep
              refine ⟨rfl, ?_⟩
              rw [← hrs]
              exact hrep

/-- With a pod selected for the oldest superseded revision, `sync` either returns an error
and leaves the stored replica sets alone, or returns no error and has replaced that revision
by its scaled-down copy. -/
theorem sync_selected (E : Env) (s : Store) (inst : EMQX) (oldest : ReplicaSet)
    (rest : List ReplicaSet) (pod : Pod)
    (hold : (E.getReplicaSetList s inst).2 = oldest :: rest)
    (hpod : findCanBeDeletePod E s inst oldest = .ok (some pod)) :
    (∃ err, (sync E s inst).1 = .ok (some err) ∧ (sync E s inst).2.ReplicaSets = s.ReplicaSets)
    ∨ ((sync E s inst).1 = .ok none
        ∧ (∃ cur, s.getReplicaSet oldest.ObjectMeta.Namespace oldest.ObjectMeta.Name = some cur)
        ∧ (sync E s inst).2.ReplicaSets = replaceReplicaSet (scaledDown oldest) s.ReplicaSets) := by
  unfold sync
  rw [hold]
  simp only [hpod]
  split
  · rename_i err s1 hpatch
    left
    have := Store.patch_replicaSets E s (withDeletionCost pod) (withDeletionCost pod)
    rw [hpatch] at this
    exact ⟨_, rfl, this⟩
  · rename_i s1 hpatch
    have hrs := Store.patch_replicaSets E s (withDeletionCost pod) (withDeletionCost pod)
    rw [hpatch] at hrs
    dsimp only at hrs
    rcases Store.update_replicaSets E s1 (scaledDown oldest) with
      ⟨hne, hsame⟩ | ⟨hnone, ⟨cur, hcur⟩, hrep⟩
    · left
      split
      · rename_i err s2 hupd
        rw [hupd] at hsame
        exact ⟨_, rfl, hsame.trans hrs⟩
      · rename_i s2 hupd
        rw [hupd] at hne
        exact absurd rfl hne
    · right
      split
      · rename_i err s2 hupd
        rw [hupd] at hnone
        simp at hnone
      · rename_i s2 hupd
        rw [hupd] at hrep
        refine ⟨rfl, ⟨cur, ?_⟩, ?_⟩
        · unfold Store.getReplicaSet at hcur ⊢
          rw [hrs] at hcur
          exact hcur
        · rw [← hrs]
          exact hrep

theorem reconcileSync_store (E : Env) (s : Store) (inst : EMQX) :
    (reconcileSync E s inst).store = (sync E s inst).2 := by
  unfold reconcileSync
  split <;> simp_all

theorem reconcileSync_emqx (E : Env) (s : Store) (inst : EMQX) :
    (reconcileSync E s inst).emqx = inst := by
  unfold reconcileSync
  split <;> rfl

theorem reconcileSync_ok (E : Env) (s : Store) (inst : EMQX)
    (h : (reconcileSync E s inst).result = .ok {}) : (sync E s inst).1 = .ok none := by
  unfold reconcileSync at h
  split at h
  · simp at h
  · rename_i err s' hs
    have : (subResult.mk (some (GoError.wrap err "failed to sync replicaSet")) {}) = {} :=
      Except.ok.inj h
    simp at this
  · rename_i s' hs
    rw [hs]

theorem wrapInt32_of_int32 (x : Int) (h1 : -2147483648 ≤ x) (h2 : x ≤ 2147483647) :
    wrapInt32 x = x := by
  unfold wrapInt32
  omega

/-! ## Attrition -/

/-- C2 (as stated, refuted): the oldest superseded replica set desires five replicas and
two are observed; one call of `sync` returns no error and leaves its desired count at one,
which is less than five minus one. -/
theorem sync_drops_desired_count_below_bound :
    (refEnv.getReplicaSetList (rollingStore 5 2 [idleEnterpriseNode])
        (sampleEMQX [idleEnterpriseNode] "emqx:5.0" none)).2 = [supersededRs 5 2]
      ∧ ((rollingStore 5 2 [idleEnterpriseNode]).getReplicaSet "default" "emqx-replicant-old").map
          (fun rs => rs.Spec.Replicas) = some (some 5)
      ∧ (sync refEnv (rollingStore 5 2 [idleEnterpriseNode])
          (sampleEMQX [idleEnterpriseNode] "emqx:5.0" none)).1 = .ok none
      ∧ ((sync refEnv (rollingStore 5 2 [idleEnterpriseNode])
          (sampleEMQX [idleEnterpriseNode] "emqx:5.0" none)).2.getReplicaSet
            "default" "emqx-replicant-old").map (fun rs => rs.Spec.Replicas) = some (some 1)
      ∧ ¬ ((5 : Int) - 1 ≤ 1) := by
  refine ⟨rfl, rfl, rfl, rfl, by decide⟩

/-- C2 (amended): one call of `sync` leaves the desired count of the oldest superseded replica
set either unchanged or set to its observed count minus one (in `int32` arithmetic),
whatever the two counts are; so when the observed count (an `int32`) is at least the desired
count, the desired count after the call is no less than the previous desired count minus
one. -/
theorem sync_attrition_bound (E : Env) (s : Store) (inst : EMQX) (oldest : ReplicaSet)
    (rest : List ReplicaSet) (n : Int)
    (hold : (E.getReplicaSetList s inst).2 = oldest :: rest)
    (hstored : s.getReplicaSet oldest.ObjectMeta.Namespace oldest.ObjectMeta.Name = some oldest)
    (hdesired : oldest.Spec.Replicas = some n) :
    ∃ rs m, (sync E s inst).2.getReplicaSet oldest.ObjectMeta.Namespace oldest.ObjectMeta.Name
        = some rs
      ∧ rs.Spec.Replicas = some m
      ∧ (m = n ∨ m = wrapInt32 (oldest.Status.Replicas - 1))
      ∧ (-2147483648 ≤ oldest.Status.Replicas → oldest.Status.Replicas ≤ 2147483647 →
          n ≤ oldest.Status.Replicas → n - 1 ≤ m) := by
  rcases sync_replicaSets E s inst with hsame | ⟨oldest', rest', pod, cur, hold', -, hcur, -, hrep⟩
  · refine ⟨oldest, n, ?_, hdesired, Or.inl rfl, fun _ _ _ => by omega⟩
    unfold Store.getReplicaSet at hstored ⊢
    rw [hsame]
    exact hstored
  · have heq : oldest' = oldest := by
      rw [hold] at hold'
      exact (List.cons.inj hold').1.symm
    subst heq
    have hfind := find_replaceReplicaSet_same (scaledDown oldest') oldest' s.ReplicaSets hstored
    refine ⟨updatedReplicaSet (scaledDown oldest') oldest', wrapInt32 (oldest'.Status.Replicas - 1),
      ?_, rfl, Or.inr rfl, ?_⟩
    · unfold Store.getReplicaSet
      rw [hrep]
      exact hfind
    · intro h1 h2 hobs
      unfold wrapInt32
      omega

/-- C2 (amended), on two clusters. With five replicas desired and two observed, the stored
desired count after `sync` is the one it was or the observed count minus one (it is one).
With three replicas desired and observed, it is at least two. -/
theorem sync_attrition_bound_witness :
    (∃ rs m, (sync refEnv (rollingStore 5 2 [idleEnterpriseNode])
        (sampleEMQX [idleEnterpriseNode] "emqx:5.0" none)).2.getReplicaSet
          (supersededRs 5 2).ObjectMeta.Namespace (supersededRs 5 2).ObjectMeta.Name = some rs
      ∧ rs.Spec.Replicas = some m
      ∧ (m = 5 ∨ m = wrapInt32 ((supersededRs 5 2).Status.Replicas - 1)))
    ∧ ((sync refEnv (rollingStore 5 2 [idleEnterpriseNode])
        (sampleEMQX [idleEnterpriseNode] "emqx:5.0" none)).2.getReplicaSet
          "default" "emqx-replicant-old").map (fun rs => rs.Spec.Replicas) = some (some 1)
    ∧ ∃ rs m, (sync refEnv (rollingStore 3 3 [idleEnterpriseNode])
        (sampleEMQX [idleEnterpriseNode] "emqx:5.0" none)).2.getReplicaSet
          (supersededRs 3 3).ObjectMeta.Namespace (supersededRs 3 3).ObjectMeta.Name = some rs
      ∧ rs.Spec.Replicas = some m
      ∧ (m = 3 ∨ m = wrapInt32 ((supersededRs 3 3).Status.Replicas - 1))
      ∧ (3 : Int) - 1 ≤ m := by
  obtain ⟨rs, m, h1, h2, h3, -⟩ :=
    sync_attrition_bound refEnv (rollingStore 5 2 [idleEnterpriseNode])
      (sampleEMQX [idleEnterpriseNode] "emqx:5.0" none) (supersededRs 5 2) [] 5 rfl rfl rfl
  obtain ⟨rs', m', k1, k2, k3, k4⟩ :=
    sync_attrition_bound refEnv (rollingStore 3 3 [idleEnterpriseNode])
      (sampleEMQX [idleEnterpriseNode] "emqx:5.0" none) (supersededRs 3 3) [] 3 rfl rfl rfl
  exact ⟨⟨rs, m, h1, h2, h3⟩, rfl,
    ⟨rs', m', k1, k2, k3, k4 (by decide) (by decide) (by decide)⟩⟩

/-- C3 (as stated, refuted): two superseded replica sets each desire and report three
replicas, and the evacuation policy returns a pod for each. `sync` consults the first of
the list only: a pass that returns the empty `subResult` leaves the younger one at three
desired replicas, while the oldest goes to two. -/
theorem reconcile_leaves_younger_superseded_untouched :
    (refEnv.getReplicaSetList twoSupersededStore
        (sampleEMQX [idleEnterpriseNode, idleEnterpriseNodeC] "emqx:5.0" none)).2
        = [supersededRs 3 3, youngerSupersededRs 3 3]
      ∧ (youngerSupersededRs 3 3).Spec.Replicas = some 3
      ∧ (youngerSupersededRs 3 3).Status.Replicas = 3
      ∧ findCanBeDeletePod refEnv twoSupersededStore
          (sampleEMQX [idleEnterpriseNode, idleEnterpriseNodeC] "emqx:5.0" none)
          (youngerSupersededRs 3 3) = .ok (some youngerSupersededPod)
      ∧ (reconcile refEnv twoSupersededStore
          (sampleEMQX [idleEnterpriseNode, idleEnterpriseNodeC] "emqx:5.0" none)).result = .ok {}
      ∧ ((reconcile refEnv twoSupersededStore
          (sampleEMQX [idleEnterpriseNode, idleEnterpriseNodeC] "emqx:5.0" none)).store.getReplicaSet
            "default" "emqx-replicant-mid").map (fun rs => rs.Spec.Replicas) = some (some 3)
      ∧ ((reconcile refEnv twoSupersededStore
          (sampleEMQX [idleEnterpriseNode, idleEnterpriseNodeC] "emqx:5.0" none)).store.getReplicaSet
            "default" "emqx-replicant-old").map (fun rs => rs.Spec.Replicas) = some (some 2)
      ∧ ¬ ((3 : Int) = 3 - 1) := by
  refine ⟨rfl, rfl, rfl, rfl, rfl, rfl, rfl, by decide⟩

/-- C3 (amended): when `addRepl.reconcile` reaches `sync` and the oldest superseded replica
set (the first of the superseded list) has its observed replica count equal to its desired
count `n > 0`, the evacuation policy returns a pod for it, and the pass succeeds (the empty
`subResult`), then after the pass the store holds that replica set with desired count
exactly `n - 1`. -/
theorem reconcile_scales_oldest_down_by_one (E : Env) (s : Store) (inst : EMQX) (s1 : Store)
    (inst1 : EMQX) (oldest : ReplicaSet) (rest : List ReplicaSet) (pod : Pod) (n : Int)
    (hstep : reconcileReplicaSet E s inst = .next s1 inst1)
    (hold : (E.getReplicaSetList s1 inst1).2 = oldest :: rest)
    (hdesired : oldest.Spec.Replicas = some n)
    (hobs : oldest.Status.Replicas = n)
    (hpos : 0 < n) (hint32 : n ≤ 2147483647)
    (hpod : findCanBeDeletePod E s1 inst1 oldest = .ok (some pod))
    (hok : (reconcile E s inst).result = .ok {}) :
    ∃ rs, (reconcile E s inst).store.getReplicaSet
        oldest.ObjectMeta.Namespace oldest.ObjectMeta.Name = some rs
      ∧ rs.Spec.Replicas = some (n - 1) := by
  have hrec : reconcile E s inst = reconcileSync E s1 inst1 := by
    unfold reconcile
    rw [hstep]
  rw [hrec] at hok ⊢
  have hsync := reconcileSync_ok E s1 inst1 hok
  rw [reconcileSync_store]
  rcases sync_selected E s1 inst1 oldest rest pod hold hpod with
    ⟨err, herr, -⟩ | ⟨-, ⟨cur, hcur⟩, hrep⟩
  · rw [hsync] at herr
    simp at herr
  · have hfind := find_replaceReplicaSet_same (scaledDown oldest) cur s1.ReplicaSets hcur
    refine ⟨updatedReplicaSet (scaledDown oldest) cur, ?_, ?_⟩
    · unfold Store.getReplicaSet
      rw [hrep]
      exact hfind
    · have _ := hdesired
      show some (wrapInt32 (oldest.Status.Replicas - 1)) = some (n - 1)
      rw [hobs, wrapInt32_of_int32 (n - 1) (by omega) (by omega)]

/-- C3, on a cluster: three replicas desired and observed on the superseded replica set, an
idle node on its pod; a successful pass leaves it with two desired replicas. -/
theorem reconcile_scales_oldest_down_by_one_witness :
    ∃ rs, (reconcile refEnv (rollingStore 3 3 [idleEnterpriseNode])
        (sampleEMQX [idleEnterpriseNode] "emqx:5.0" none)).store.getReplicaSet
          (supersededRs 3 3).ObjectMeta.Namespace (supersededRs 3 3).ObjectMeta.Name = some rs
      ∧ rs.Spec.Replicas = some (3 - 1) :=
  reconcile_scales_oldest_down_by_one refEnv (rollingStore 3 3 [idleEnterpriseNode])
    (sampleEMQX [idleEnterpriseNode] "emqx:5.0" none) (rollingStore 3 3 [idleEnterpriseNode])
    (sampleEMQX [idleEnterpriseNode] "emqx:5.0" none) (supersededRs 3 3) [] supersededPod 3
    rfl rfl rfl rfl (by decide) (by decide) rfl rfl

/-! ## Guards -/

theorem reconcile_guards_store (E : Env) (s : Store) (inst : EMQX)
    (h : inst.Spec.ReplicantTemplate = none ∨ IsConditionTrue inst.Status E.CoreNodesReady = false) :
    (reconcile E s inst).store = s := by
  unfold reconcile reconcileReplicaSet
  rcases h with h | h
  · simp [h]
  · by_cases ht : inst.Spec.ReplicantTemplate.isNone = true
    · simp [ht]
    · simp [ht, h]

/-- C4: when the replicant template is absent or the `CoreNodesReady` condition is not true,
`addRepl.reconcile` returns the empty `subResult` and leaves the store (stored objects,
persisted status and the log of write requests) and the cluster object unchanged. -/
theorem reconcile_guards (E : Env) (s : Store) (inst : EMQX)
    (h : inst.Spec.ReplicantTemplate = none ∨ IsConditionTrue inst.Status E.CoreNodesReady = false) :
    (reconcile E s inst).result = .ok {}
      ∧ (reconcile E s inst).store = s
      ∧ (reconcile E s inst).emqx = inst := by
  unfold reconcile reconcileReplicaSet
  rcases h with h | h
  · simp [h]
  · by_cases ht : inst.Spec.ReplicantTemplate.isNone = true
    · simp [ht]
    · simp [ht, h]

/-- C4, on two clusters: one without a replicant template, one whose core nodes are not
ready. -/
theorem reconcile_guards_witness :
    ((reconcile refEnv (collidingStore none) coreOnlyEMQX).result = .ok {}
      ∧ (reconcile refEnv (collidingStore none) coreOnlyEMQX).store = collidingStore none
      ∧ (reconcile refEnv (collidingStore none) coreOnlyEMQX).emqx = coreOnlyEMQX)
    ∧ ((reconcile refEnv (collidingStore none) coreNotReadyEMQX).result = .ok {}
      ∧ (reconcile refEnv (collidingStore none) coreNotReadyEMQX).store = collidingStore none
      ∧ (reconcile refEnv (collidingStore none) coreNotReadyEMQX).emqx = coreNotReadyEMQX) :=
  ⟨reconcile_guards refEnv (collidingStore none) coreOnlyEMQX (Or.inl rfl),
   reconcile_guards refEnv (collidingStore none) coreNotReadyEMQX (Or.inr rfl)⟩

/-! ## Lemmas on `addRepl.reconcile` -/

theorem Store.updateStatus_replicaSets (E : Env) (s : Store) (inst : EMQX) :
    (Store.updateStatus E s inst).2.ReplicaSets = s.ReplicaSets := by
  unfold Store.updateStatus
  dsimp only
  split
  · rfl
  · split <;> rfl

/-- The replica set an accepted create of `rs` leaves in the store. -/
theorem Store.create_replicaSets (E : Env) (s : Store) (rs : ReplicaSet) :
    ((Store.create E s rs).1 ≠ none ∧ (Store.create E s rs).2.2.ReplicaSets = s.ReplicaSets)
    ∨ ((Store.create E s rs).1 = none
        ∧ s.getReplicaSet rs.ObjectMeta.Namespace rs.ObjectMeta.Name = none
        ∧ (Store.create E s rs).2.2.ReplicaSets = s.ReplicaSets ++ [(Store.create E s rs).2.1]
        ∧ (Store.create E s rs).2.1.ObjectMeta.Labels = rs.ObjectMeta.Labels
        ∧ (Store.create E s rs).2.1.ObjectMeta.Name = rs.ObjectMeta.Name
        ∧ (Store.create E s rs).2.1.ObjectMeta.Namespace = rs.ObjectMeta.Namespace) := by
  unfold Store.create
  dsimp only
  split
  · left; exact ⟨by simp, rfl⟩
  · split
    · left; exact ⟨by simp, rfl⟩
    · rename_i hfree
      right; exact ⟨rfl, hfree, rfl, rfl, rfl, rfl⟩

theorem uid_ne_empty (a b : String) : "uid:" ++ a ++ "/" ++ b ≠ "" := by
  intro h
  have := congrArg String.length h
  simp only [String.length_append] at this
  have h4 : "uid:".length = 4 := by decide
  have h0 : "".length = 0 := by decide
  omega

/-- What an accepted create stores. -/
theorem Store.create_ok (E : Env) (s : Store) (rs : ReplicaSet)
    (h : (Store.create E s rs).1 = none) :
    s.getReplicaSet rs.ObjectMeta.Namespace rs.ObjectMeta.Name = none
      ∧ (Store.create E s rs).2.2.ReplicaSets = s.ReplicaSets ++ [(Store.create E s rs).2.1]
      ∧ (Store.create E s rs).2.1.ObjectMeta.UID ≠ ""
      ∧ (Store.create E s rs).2.1.ObjectMeta.Labels = rs.ObjectMeta.Labels
      ∧ (Store.create E s rs).2.1.ObjectMeta.Name = rs.ObjectMeta.Name
      ∧ (Store.create E s rs).2.1.ObjectMeta.Namespace = rs.ObjectMeta.Namespace
      ∧ (Store.create E s rs).2.1.Spec = rs.Spec := by
  unfold Store.create at h ⊢
  dsimp only at h ⊢
  split
  · rename_i r hr
    rw [hr] at h
    simp at h
  · rename_i hr
    rw [hr] at h
    dsimp only at h
    split
    · rename_i x hx
      rw [hx] at h
      simp at h
    · rename_i hfree
      exact ⟨hfree, rfl, uid_ne_empty _ _, rfl, rfl, rfl, rfl⟩

theorem Handler.Create_fst (E : Env) (s : Store) (rs : ReplicaSet) :
    (Handler.Create E s rs).1 = (Store.create E s rs).1.map (fun e => GoError.wrap e "failed to create ReplicaSet") := by
  unfold Handler.Create
  split <;> rename_i h <;> rw [h] <;> rfl

theorem Handler.Create_snd (E : Env) (s : Store) (rs : ReplicaSet) :
    (Handler.Create E s rs).2 = (Store.create E s rs).2 := by
  unfold Handler.Create
  split <;> rename_i h <;> rw [h]

theorem getNewReplicaSet_ok_template (E : Env) (s : Store) (inst : EMQX) (rs : ReplicaSet)
    (h : getNewReplicaSet E s inst = .ok rs) : inst.Spec.ReplicantTemplate.isNone = false := by
  unfold getNewReplicaSet generateReplicaSet at h
  cases ht : inst.Spec.ReplicantTemplate with
  | none => rw [ht] at h; simp at h
  | some t => rfl

/-! ## Collisions -/

/-- C5 (as stated, refuted): the collision counter is 2147483647 and creating the candidate
fails because its name is taken; `addRepl.reconcile` asks for a requeue and leaves the
counter at -2147483648, which is not an increase. -/
theorem reconcile_collision_counter_wraps :
    (getNewReplicaSet refEnv (collidingStore (some 2147483647))
        (sampleEMQX [] "" (some 2147483647))).toOption.map (fun rs => rs.ObjectMeta.Name)
      = some "emqx-replicant-emqx:5.0.1"
    ∧ ((collidingStore (some 2147483647)).getReplicaSet "default" "emqx-replicant-emqx:5.0.1").isSome
        = true
    ∧ (reconcile refEnv (collidingStore (some 2147483647))
        (sampleEMQX [] "" (some 2147483647))).result = .ok { result := { Requeue := true } }
    ∧ (reconcile refEnv (collidingStore (some 2147483647))
        (sampleEMQX [] "" (some 2147483647))).emqx.Status.ReplicantNodesStatus.bind
          (fun st => st.CollisionCount) = some (-2147483648)
    ∧ ¬ ((2147483647 : Int) < -2147483648) := by
  refine ⟨rfl, rfl, rfl, rfl, by decide⟩

/-- C5 (amended): when creating the candidate replica set fails with an already-exists error
and the collision counter (0 when absent) is below 2147483647, `addRepl.reconcile` sets the
counter to its value plus one, returns `Requeue = true` without an error, changes nothing
else of the cluster object (conditions and current revision included), and stores no
replica set. -/
theorem reconcile_collision (E : Env) (s : Store) (inst : EMQX) (preRs : ReplicaSet)
    (err : GoError) (st : EMQXNodesStatus)
    (hready : IsConditionTrue inst.Status E.CoreNodesReady = true)
    (hpre : getNewReplicaSet E s inst = .ok preRs)
    (huid : preRs.ObjectMeta.UID = "")
    (hcreate : (Handler.Create E s (SetControllerReference inst preRs)).1 = some err)
    (hexists : IsAlreadyExists (GoError.Cause err) = true)
    (hst : inst.Status.ReplicantNodesStatus = some st)
    (hint32 : -2147483648 ≤ st.CollisionCount.getD 0)
    (hmax : st.CollisionCount.getD 0 < 2147483647) :
    (reconcile E s inst).result = .ok { result := { Requeue := true } }
      ∧ (reconcile E s inst).emqx = { inst with Status := { inst.Status with
          ReplicantNodesStatus := some { st with
            CollisionCount := some (st.CollisionCount.getD 0 + 1) } } }
      ∧ (reconcile E s inst).emqx.Status.Conditions = inst.Status.Conditions
      ∧ (reconcile E s inst).emqx.Status.ReplicantNodesStatus.map (fun x => x.CurrentRevision)
          = some st.CurrentRevision
      ∧ (reconcile E s inst).store.ReplicaSets = s.ReplicaSets := by
  have htmpl := getNewReplicaSet_ok_template E s inst preRs hpre
  have hwrap : wrapInt32 (st.CollisionCount.getD 0 + 1) = st.CollisionCount.getD 0 + 1 :=
    wrapInt32_of_int32 _ (by omega) (by omega)
  have hrs : (Handler.Create E s (SetControllerReference inst preRs)).2.2.ReplicaSets
      = s.ReplicaSets := by
    rw [Handler.Create_snd]
    rcases Store.create_replicaSets E s (SetControllerReference inst preRs) with h | h
    · exact h.2
    · rw [Handler.Create_fst, h.1] at hcreate
      simp at hcreate
  unfold reconcile reconcileReplicaSet
  rcases hc : Handler.Create E s (SetControllerReference inst preRs) with ⟨oerr, created, s1⟩
  rw [hc] at hcreate hrs
  dsimp only at hcreate hrs
  subst hcreate
  simp only [htmpl, hready, hpre, huid, hc, hexists, hst, hwrap, Bool.false_eq_true, if_false,
    Bool.not_true, if_true]
  refine ⟨?_, ?_, ?_, ?_, ?_⟩
  any_goals trivial
  rw [Store.updateStatus_replicaSets]
  exact hrs

/-- C5 (amended), on a cluster: no collision counter yet, the candidate's name is taken;
the counter becomes 1 and a requeue is asked for. -/
theorem reconcile_collision_witness :
    (reconcile refEnv (collidingStore none) (sampleEMQX [] "" none)).result
        = .ok { result := { Requeue := true } }
      ∧ (reconcile refEnv (collidingStore none) (sampleEMQX [] "" none)).emqx
          = { sampleEMQX [] "" none with Status := { (sampleEMQX [] "" none).Status with
              ReplicantNodesStatus := some
                { Nodes := [], Replicas := 3, CurrentRevision := "", CollisionCount := some (0 + 1) } } }
      ∧ (reconcile refEnv (collidingStore none) (sampleEMQX [] "" none)).emqx.Status.Conditions
          = (sampleEMQX [] "" none).Status.Conditions
      ∧ (reconcile refEnv (collidingStore none)
          (sampleEMQX [] "" none)).emqx.Status.ReplicantNodesStatus.map (fun x => x.CurrentRevision)
          = some ""
      ∧ (reconcile refEnv (collidingStore none) (sampleEMQX [] "" none)).store.ReplicaSets
          = (collidingStore none).ReplicaSets :=
  reconcile_collision refEnv (collidingStore none) (sampleEMQX [] "" none)
    (match getNewReplicaSet refEnv (collidingStore none) (sampleEMQX [] "" none) with
      | .ok rs => rs
      | .error _ => {})
    (.wrap (.status .alreadyExists) "failed to create ReplicaSet")
    { Nodes := [], Replicas := 3, CurrentRevision := "", CollisionCount := none }
    rfl rfl rfl rfl rfl rfl (by decide) (by decide)

/-! ## Errors of the resource store -/

/-- C6 (code defect): the current replica set has three replicas, the cluster object asks
for four, and the API server rejects the update as invalid. `addRepl.reconcile` submits the
update, discards the error `Handler.Update` returns, and returns the empty `subResult`; the
stored replica set keeps three replicas. -/
theorem reconcile_discards_rejected_update :
    (getNewReplicaSet rejectingUpdatesEnv convergedStore scaledUpEMQX).toOption.bind
        (fun rs => (Handler.Update rejectingUpdatesEnv convergedStore rs).1)
      = some (.wrap (.status .invalid) "failed to update ReplicaSet")
    ∧ (reconcile rejectingUpdatesEnv convergedStore scaledUpEMQX).store.Requests.map Request.verb
      = ["update", "update status"]
    ∧ (reconcile rejectingUpdatesEnv convergedStore scaledUpEMQX).result = .ok {}
    ∧ (reconcile rejectingUpdatesEnv convergedStore scaledUpEMQX).store.ReplicaSets.map
        (fun rs => rs.Spec.Replicas) = [some 3] := by
  refine ⟨rfl, rfl, rfl, rfl⟩

/-! ## Lemmas on the candidate replica set -/

theorem GoMap.get_set_same (m : GoMap) (k v : String) : GoMap.get (GoMap.set m k v) k = some v := by
  induction m with
  | nil => simp [GoMap.set, GoMap.get, List.lookup]
  | cons kv rest ih =>
    obtain ⟨k', v'⟩ := kv
    unfold GoMap.set
    by_cases h : k' = k
    · rw [if_pos h]
      simp [GoMap.get, List.lookup]
    · rw [if_neg h]
      have hne : (k == k') = false := by
        rw [beq_eq_false_iff_ne]
        exact fun hk => h hk.symm
      unfold GoMap.get at ih ⊢
      rw [List.lookup, hne]
      exact ih

theorem IsConditionTrue_SetCondition (now : Nat) (st : EMQXStatus) (c : Condition)
    (h : c.Status = ConditionTrue) : IsConditionTrue (SetCondition now st c) c.CondType = true := by
  unfold IsConditionTrue SetCondition
  dsimp only
  have hnone : (st.Conditions.filter (fun c' => decide (c'.CondType ≠ c.CondType))).find?
      (fun c' => decide (c'.CondType = c.CondType)) = none := by
    rw [List.find?_eq_none]
    intro x hx
    have := (List.mem_filter.mp hx).2
    simpa using this
  rw [List.find?_append, hnone]
  simp [h]

theorem generateReplicaSet_ok (E : Env) (inst : EMQX) (generated : ReplicaSet)
    (h : generateReplicaSet E inst = .ok generated) :
    ∃ tmpl, inst.Spec.ReplicantTemplate = some tmpl
      ∧ generated.ObjectMeta.UID = ""
      ∧ generated.ObjectMeta.Name = tmpl.Name
      ∧ generated.ObjectMeta.Namespace = inst.Namespace
      ∧ generated.ObjectMeta.Labels = tmpl.Labels
      ∧ generated.Spec.Template.ObjectMeta.Labels = tmpl.Labels
      ∧ generated.Spec.Selector = some { MatchLabels := tmpl.Labels }
      ∧ generated.Spec.Replicas = tmpl.Spec.Replicas
      ∧ (generated.Spec.Template.Spec.Containers.head?).map (fun c => c.Image)
          = some inst.Spec.Image := by
  unfold generateReplicaSet at h
  cases ht : inst.Spec.ReplicantTemplate with
  | none => rw [ht] at h; simp at h
  | some tmpl =>
    rw [ht] at h
    have hg := Except.ok.inj h
    subst hg
    exact ⟨tmpl, rfl, rfl, rfl, rfl, rfl, rfl, rfl, rfl, rfl⟩

theorem getNewReplicaSet_no_match (E : Env) (s : Store) (inst : EMQX) (generated : ReplicaSet)
    (st : EMQXNodesStatus)
    (hgen : generateReplicaSet E inst = .ok generated)
    (hst : inst.Status.ReplicantNodesStatus = some st)
    (hnomatch : ∀ cur, (E.getReplicaSetList s inst).1 = some cur →
      E.Calculate cur (hashedReplicaSet E generated st.CollisionCount) [.justCheckPodTemplate] = false) :
    getNewReplicaSet E s inst = .ok (hashedReplicaSet E generated st.CollisionCount) := by
  unfold getNewReplicaSet
  rw [hgen]
  simp only [hst]
  cases hcur : (E.getReplicaSetList s inst).1 with
  | none => rfl
  | some cur => simp [hnomatch cur hcur]

theorem getNewReplicaSet_match (E : Env) (s : Store) (inst : EMQX) (generated : ReplicaSet)
    (st : EMQXNodesStatus) (cur : ReplicaSet)
    (hgen : generateReplicaSet E inst = .ok generated)
    (hst : inst.Status.ReplicantNodesStatus = some st)
    (hcur : (E.getReplicaSetList s inst).1 = some cur)
    (hsame : E.Calculate cur (hashedReplicaSet E generated st.CollisionCount)
      [.justCheckPodTemplate] = true) :
    getNewReplicaSet E s inst
      = .ok (adoptedReplicaSet (hashedReplicaSet E generated st.CollisionCount) cur) := by
  unfold getNewReplicaSet
  rw [hgen]
  simp only [hst, hcur, hsame, if_true]

theorem Store.create_requests (E : Env) (s : Store) (rs : ReplicaSet) :
    (Store.create E s rs).2.2.Requests = s.Requests ++ [.createReplicaSet rs] := by
  unfold Store.create
  dsimp only
  split
  · rfl
  · split <;> rfl

theorem Store.update_requests (E : Env) (s : Store) (rs : ReplicaSet) :
    (Store.update E s rs).2.Requests = s.Requests ++ [.updateReplicaSet rs] := by
  unfold Store.update
  dsimp only
  split
  · rfl
  · split <;> rfl

theorem Store.updateStatus_requests (E : Env) (s : Store) (inst : EMQX) :
    (Store.updateStatus E s inst).2.Requests = s.Requests ++ [.updateStatus inst.Status] := by
  unfold Store.updateStatus
  dsimp only
  split
  · rfl
  · split <;> rfl

theorem Store.patch_requests (E : Env) (s : Store) (obj base : Pod) :
    (Store.patch E s obj base).2.Requests = s.Requests
      ++ [.patchPod obj.ObjectMeta.Namespace obj.ObjectMeta.Name (mergeFrom base obj)] := by
  unfold Store.patch
  dsimp only
  split
  · rfl
  · split <;> rfl

theorem Handler.Update_snd (E : Env) (s : Store) (rs : ReplicaSet) :
    (Handler.Update E s rs).2 = (Store.update E s rs).2 := by
  unfold Handler.Update
  split <;> rename_i h <;> rw [h]

/-- The write requests `sync` issues are a pod patch and a replica set update, never a create. -/
theorem sync_requests (E : Env) (s : Store) (inst : EMQX) :
    ∃ l, (sync E s inst).2.Requests = s.Requests ++ l ∧ ∀ r ∈ l, Request.isCreate r = false := by
  unfold sync
  split
  · exact ⟨[], by simp, by simp⟩
  · rename_i oldest rest hold
    split
    · exact ⟨[], by simp, by simp⟩
    · exact ⟨[], by simp, by simp⟩
    · rename_i pod hpod
      dsimp only
      have hp := Store.patch_requests E s (withDeletionCost pod) (withDeletionCost pod)
      split
      · rename_i err s1 hpatch
        rw [hpatch] at hp
        exact ⟨_, hp, by simp [Request.isCreate]⟩
      · rename_i s1 hpatch
        rw [hpatch] at hp
        dsimp only at hp
        have hu := Store.update_requests E s1 (scaledDown oldest)
        split
        · rename_i err s2 hupd
          rw [hupd] at hu
          dsimp only at hu ⊢
          rw [hu, hp, List.append_assoc]
          exact ⟨_, rfl, by simp [Request.isCreate]⟩
        · rename_i s2 hupd
          rw [hupd] at hu
          dsimp only at hu ⊢
          rw [hu, hp, List.append_assoc]
          exact ⟨_, rfl, by simp [Request.isCreate]⟩

theorem sync_requests_isCreate (E : Env) (s : Store) (inst : EMQX) :
    (sync E s inst).2.Requests.filter Request.isCreate = s.Requests.filter Request.isCreate := by
  obtain ⟨l, hl, hno⟩ := sync_requests E s inst
  rw [hl, List.filter_append]
  have : l.filter Request.isCreate = [] := by
    rw [List.filter_eq_nil_iff]
    intro r hr
    rw [hno r hr]
    exact Bool.false_ne_true
  rw [this, List.append_nil]

theorem sync_keys (E : Env) (s : Store) (inst : EMQX) :
    (sync E s inst).2.ReplicaSets.map ReplicaSet.key = s.ReplicaSets.map ReplicaSet.key := by
  rcases sync_replicaSets E s inst with h | ⟨oldest, _, _, _, _, _, _, _, hrep⟩
  · rw [h]
  · rw [hrep]
    exact map_key_replaceReplicaSet _ _

/-! ## New revisions -/

/-- C7: when the core nodes are ready, no existing replica set carries the desired pod
template (there is no current replica set, or the `justCheckPodTemplate` patch against it is
not empty) and creating the candidate succeeds, `addRepl.reconcile` issues exactly one create
request, for the candidate, whose first container image is the image of the cluster spec,
and the server stores it with the candidate's spec; the stored replica sets afterwards are those stored before, in place, followed by one with
the candidate's name; the `ReplicantNodesProgressing` condition is true; and `CurrentRevision`
is the candidate's pod-template-hash label, the hash of the generated pod template. -/
theorem reconcile_creates_new_revision (E : Env) (s : Store) (inst : EMQX)
    (generated cand : ReplicaSet) (st : EMQXNodesStatus)
    (hready : IsConditionTrue inst.Status E.CoreNodesReady = true)
    (hgen : generateReplicaSet E inst = .ok generated)
    (hst : inst.Status.ReplicantNodesStatus = some st)
    (hcand : cand = SetControllerReference inst (hashedReplicaSet E generated st.CollisionCount))
    (hnomatch : ∀ cur, (E.getReplicaSetList s inst).1 = some cur →
      E.Calculate cur (hashedReplicaSet E generated st.CollisionCount) [.justCheckPodTemplate] = false)
    (hcreate : (Handler.Create E s cand).1 = none) :
    (reconcile E s inst).store.Requests.filter Request.isCreate
        = s.Requests.filter Request.isCreate ++ [.createReplicaSet cand]
      ∧ (cand.Spec.Template.Spec.Containers.head?).map (fun c => c.Image) = some inst.Spec.Image
      ∧ (Handler.Create E s cand).2.1.Spec = cand.Spec
      ∧ (reconcile E s inst).store.ReplicaSets.map ReplicaSet.key
          = s.ReplicaSets.map ReplicaSet.key ++ [cand.key]
      ∧ IsConditionTrue (reconcile E s inst).emqx.Status E.ReplicantNodesProgressing = true
      ∧ (reconcile E s inst).emqx.Status.ReplicantNodesStatus.map (fun x => x.CurrentRevision)
          = some (GoMap.getD cand.ObjectMeta.Labels E.PodTemplateHashLabelKey)
      ∧ GoMap.getD cand.ObjectMeta.Labels E.PodTemplateHashLabelKey
          = E.computeHash generated.Spec.Template st.CollisionCount := by
  obtain ⟨tmpl, htmpl, huid, -, -, -, -, -, -, himage⟩ := generateReplicaSet_ok E inst generated hgen
  have hpre := getNewReplicaSet_no_match E s inst generated st hgen hst hnomatch
  have hpuid : (hashedReplicaSet E generated st.CollisionCount).ObjectMeta.UID = "" := huid
  have hlabel : GoMap.getD cand.ObjectMeta.Labels E.PodTemplateHashLabelKey
      = E.computeHash generated.Spec.Template st.CollisionCount := by
    subst hcand
    show ((GoMap.get (GoMap.set generated.ObjectMeta.Labels E.PodTemplateHashLabelKey
      (E.computeHash generated.Spec.Template st.CollisionCount)) E.PodTemplateHashLabelKey).getD "") = _
    rw [GoMap.get_set_same]
    rfl
  have hfst := Handler.Create_fst E s cand
  rw [hcreate] at hfst
  have hsnd := Handler.Create_snd E s cand
  have hstore : (Store.create E s cand).1 = none := by
    cases hx : (Store.create E s cand).1 with
    | none => rfl
    | some e => rw [hx] at hfst; simp at hfst
  have hspec : (Handler.Create E s cand).2.1.Spec = cand.Spec := by
    rw [hsnd]
    exact (Store.create_ok E s cand hstore).2.2.2.2.2.2
  rcases Store.create_replicaSets E s cand with ⟨hne, -⟩ | ⟨-, -, hrs, hlab, hname, hns⟩
  · exact absurd hstore hne
  · have hreq := Store.create_requests E s cand
    rw [← hsnd] at hrs hlab hname hns hreq
    have htn : inst.Spec.ReplicantTemplate.isNone = false := by rw [htmpl]; rfl
    rcases hc : Handler.Create E s cand with ⟨oerr, created, s1⟩
    rw [hc] at hcreate hrs hlab hname hns hreq hspec
    dsimp only at hcreate hrs hlab hname hns hreq hspec
    subst hcreate
    have hrec : reconcile E s inst = reconcileSync E
        (Store.updateStatus E s1
          { inst with Status :=
            { SetCondition E.now inst.Status (progressingCondition E) with
              ReplicantNodesStatus := some { st with
                CurrentRevision := GoMap.getD created.ObjectMeta.Labels E.PodTemplateHashLabelKey } } }).2
        { inst with Status :=
            { SetCondition E.now inst.Status (progressingCondition E) with
              ReplicantNodesStatus := some { st with
                CurrentRevision := GoMap.getD created.ObjectMeta.Labels E.PodTemplateHashLabelKey } } } := by
      unfold reconcile reconcileReplicaSet
      simp only [htn, hready, hpre, hpuid, ← hcand, hc, hst, Bool.false_eq_true, if_false,
        Bool.not_true, if_true]
    rw [hrec, reconcileSync_store, reconcileSync_emqx]
    refine ⟨?_, ?_, hspec, ?_, ?_, ?_, hlabel⟩
    · rw [sync_requests_isCreate, Store.updateStatus_requests, hreq]
      simp [List.filter_append, Request.isCreate]
    · subst hcand
      exact himage
    · rw [sync_keys, Store.updateStatus_replicaSets, hrs]
      simp [ReplicaSet.key, hname, hns]
    · exact IsConditionTrue_SetCondition E.now inst.Status (progressingCondition E) rfl
    · show some (GoMap.getD created.ObjectMeta.Labels E.PodTemplateHashLabelKey) = _
      rw [hlab]

/-- C7, on a cluster: the store holds one superseded replica set and the scale-down gate is
shut by an event; the pass creates the replica set of revision `emqx:5.0`. -/
theorem reconcile_creates_new_revision_witness :
    (reconcile refEnv newRevisionStore (sampleEMQX [] "old" none)).store.Requests.filter
        Request.isCreate
        = newRevisionStore.Requests.filter Request.isCreate ++ [.createReplicaSet sampleCandidate]
      ∧ (sampleCandidate.Spec.Template.Spec.Containers.head?).map (fun c => c.Image)
          = some (sampleEMQX [] "old" none).Spec.Image
      ∧ (Handler.Create refEnv newRevisionStore sampleCandidate).2.1.Spec = sampleCandidate.Spec
      ∧ (reconcile refEnv newRevisionStore (sampleEMQX [] "old" none)).store.ReplicaSets.map
          ReplicaSet.key
          = newRevisionStore.ReplicaSets.map ReplicaSet.key ++ [sampleCandidate.key]
      ∧ IsConditionTrue (reconcile refEnv newRevisionStore (sampleEMQX [] "old" none)).emqx.Status
          refEnv.ReplicantNodesProgressing = true
      ∧ (reconcile refEnv newRevisionStore
          (sampleEMQX [] "old" none)).emqx.Status.ReplicantNodesStatus.map
            (fun x => x.CurrentRevision)
          = some (GoMap.getD sampleCandidate.ObjectMeta.Labels refEnv.PodTemplateHashLabelKey)
      ∧ GoMap.getD sampleCandidate.ObjectMeta.Labels refEnv.PodTemplateHashLabelKey
          = refEnv.computeHash sampleGenerated.Spec.Template none :=
  reconcile_creates_new_revision refEnv newRevisionStore (sampleEMQX [] "old" none)
    sampleGenerated sampleCandidate
    { Nodes := [], Replicas := 3, CurrentRevision := "old", CollisionCount := none }
    rfl rfl rfl rfl (fun cur hcur => by
      have hc : cur = supersededRs 3 3 := (Option.some.inj hcur).symm
      subst hc
      rfl) rfl

/-! ## The branches of `addRepl.reconcile` -/

/-- With a stored current replica set that differs from the candidate, `addRepl.reconcile`
submits the update, records the progressing condition and goes on to `sync`. -/
theorem reconcileReplicaSet_update (E : Env) (s : Store) (inst : EMQX) (preRs : ReplicaSet)
    (hready : IsConditionTrue inst.Status E.CoreNodesReady = true)
    (hpre : getNewReplicaSet E s inst = .ok preRs)
    (huid : preRs.ObjectMeta.UID ≠ "")
    (hcalc : E.Calculate
      ((s.getReplicaSet preRs.ObjectMeta.Namespace preRs.ObjectMeta.Name).getD {}) preRs
      [.IgnoreStatusFields, .IgnoreVolumeClaimTemplateTypeMetaAndStatus] = false) :
    reconcileReplicaSet E s inst
      = .next
          (Store.updateStatus E (Handler.Update E s preRs).2
            { inst with Status := SetCondition E.now inst.Status (progressingCondition E) }).2
          { inst with Status := SetCondition E.now inst.Status (progressingCondition E) } := by
  have htn := getNewReplicaSet_ok_template E s inst preRs hpre
  unfold reconcileReplicaSet
  simp only [htn, hready, hpre, huid, hcalc, Bool.false_eq_true, if_false, Bool.not_true,
    Bool.not_false, if_true]

theorem reconcileReplicaSet_unchanged (E : Env) (s : Store) (inst : EMQX) (preRs : ReplicaSet)
    (hready : IsConditionTrue inst.Status E.CoreNodesReady = true)
    (hpre : getNewReplicaSet E s inst = .ok preRs)
    (huid : preRs.ObjectMeta.UID ≠ "")
    (hcalc : E.Calculate
      ((s.getReplicaSet preRs.ObjectMeta.Namespace preRs.ObjectMeta.Name).getD {}) preRs
      [.IgnoreStatusFields, .IgnoreVolumeClaimTemplateTypeMetaAndStatus] = true) :
    reconcileReplicaSet E s inst = .next s inst := by
  have htn := getNewReplicaSet_ok_template E s inst preRs hpre
  unfold reconcileReplicaSet
  simp only [htn, hready, hpre, huid, hcalc, Bool.false_eq_true, if_false, Bool.not_true]

/-! ## The candidate replica set -/

/-- C8: for a cluster object with a replicant template and a replicant status, when no
existing replica set matches (there is no current replica set, or the `justCheckPodTemplate`
patch against it is not empty), `getNewReplicaSet` returns a candidate named
`<replicant template name>-<hash>` with `hash = computeHash(generated pod template,
collision counter)`; that hash is the value of the pod-template-hash label on the candidate,
on its pod template and in its selector; and any cluster object with the same generated
replica set and the same collision counter, in any store without a match, gets the same
name. -/
theorem getNewReplicaSet_name_and_labels (E : Env) (s : Store) (inst : EMQX)
    (tmpl : EMQXReplicantTemplate) (generated : ReplicaSet) (st : EMQXNodesStatus)
    (htmpl : inst.Spec.ReplicantTemplate = some tmpl)
    (hgen : generateReplicaSet E inst = .ok generated)
    (hst : inst.Status.ReplicantNodesStatus = some st)
    (hnomatch : ∀ cur, (E.getReplicaSetList s inst).1 = some cur →
      E.Calculate cur (hashedReplicaSet E generated st.CollisionCount) [.justCheckPodTemplate] = false) :
    ∃ rs, getNewReplicaSet E s inst = .ok rs
      ∧ rs.ObjectMeta.Name
          = tmpl.Name ++ "-" ++ E.computeHash generated.Spec.Template st.CollisionCount
      ∧ GoMap.get rs.ObjectMeta.Labels E.PodTemplateHashLabelKey
          = some (E.computeHash generated.Spec.Template st.CollisionCount)
      ∧ GoMap.get rs.Spec.Template.ObjectMeta.Labels E.PodTemplateHashLabelKey
          = some (E.computeHash generated.Spec.Template st.CollisionCount)
      ∧ rs.Spec.Selector.map (fun sel => GoMap.get sel.MatchLabels E.PodTemplateHashLabelKey)
          = some (some (E.computeHash generated.Spec.Template st.CollisionCount))
      ∧ ∀ (s2 : Store) (inst2 : EMQX) (st2 : EMQXNodesStatus),
          generateReplicaSet E inst2 = .ok generated →
          inst2.Status.ReplicantNodesStatus = some st2 →
          st2.CollisionCount = st.CollisionCount →
          (∀ cur, (E.getReplicaSetList s2 inst2).1 = some cur →
            E.Calculate cur (hashedReplicaSet E generated st2.CollisionCount)
              [.justCheckPodTemplate] = false) →
          ∃ rs2, getNewReplicaSet E s2 inst2 = .ok rs2 ∧ rs2.ObjectMeta.Name = rs.ObjectMeta.Name := by
  obtain ⟨tmpl', htmpl', -, hname, -, -, -, hsel, -, -⟩ :=
    generateReplicaSet_ok E inst generated hgen
  have htt : tmpl' = tmpl := by
    rw [htmpl] at htmpl'
    exact (Option.some.inj htmpl').symm
  subst htt
  refine ⟨hashedReplicaSet E generated st.CollisionCount,
    getNewReplicaSet_no_match E s inst generated st hgen hst hnomatch, ?_, ?_, ?_, ?_, ?_⟩
  · show generated.ObjectMeta.Name ++ "-" ++ _ = _
    rw [hname]
  · exact GoMap.get_set_same _ _ _
  · exact GoMap.get_set_same _ _ _
  · show (generated.Spec.Selector.map _).map _ = _
    rw [hsel]
    show some (GoMap.get (GoMap.set _ _ _) _) = _
    rw [GoMap.get_set_same]
  · intro s2 inst2 st2 hgen2 hst2 hcc hnomatch2
    refine ⟨hashedReplicaSet E generated st2.CollisionCount,
      getNewReplicaSet_no_match E s2 inst2 generated st2 hgen2 hst2 hnomatch2, ?_⟩
    rw [hcc]

/-- C8, on a cluster: the candidate of the sample cluster in an empty store is named
`emqx-replicant-emqx:5.0` under the reference hash. -/
theorem getNewReplicaSet_name_and_labels_witness :
    ∃ rs, getNewReplicaSet refEnv {} (sampleEMQX [] "" none) = .ok rs
      ∧ rs.ObjectMeta.Name
          = "emqx-replicant" ++ "-" ++ refEnv.computeHash sampleGenerated.Spec.Template none
      ∧ GoMap.get rs.ObjectMeta.Labels refEnv.PodTemplateHashLabelKey
          = some (refEnv.computeHash sampleGenerated.Spec.Template none)
      ∧ GoMap.get rs.Spec.Template.ObjectMeta.Labels refEnv.PodTemplateHashLabelKey
          = some (refEnv.computeHash sampleGenerated.Spec.Template none)
      ∧ rs.Spec.Selector.map (fun sel => GoMap.get sel.MatchLabels refEnv.PodTemplateHashLabelKey)
          = some (some (refEnv.computeHash sampleGenerated.Spec.Template none))
      ∧ ∀ (s2 : Store) (inst2 : EMQX) (st2 : EMQXNodesStatus),
          generateReplicaSet refEnv inst2 = .ok sampleGenerated →
          inst2.Status.ReplicantNodesStatus = some st2 →
          st2.CollisionCount = none →
          (∀ cur, (refEnv.getReplicaSetList s2 inst2).1 = some cur →
            refEnv.Calculate cur (hashedReplicaSet refEnv sampleGenerated st2.CollisionCount)
              [.justCheckPodTemplate] = false) →
          ∃ rs2, getNewReplicaSet refEnv s2 inst2 = .ok rs2
            ∧ rs2.ObjectMeta.Name = rs.ObjectMeta.Name :=
  getNewReplicaSet_name_and_labels refEnv {} (sampleEMQX [] "" none)
    { Name := "emqx-replicant"
      Labels := [("apps.emqx.io/db-role", "replicant")]
      Spec := { Replicas := some 3 } }
    sampleGenerated
    { Nodes := [], Replicas := 3, CurrentRevision := "", CollisionCount := none }
    rfl rfl rfl (fun cur hcur => by
      have : (none : Option ReplicaSet) = some cur := hcur
      cases this)

/-- C9: when the current replica set (a stored object, so with a UID) carries the desired
pod template (the `justCheckPodTemplate` patch is empty), `getNewReplicaSet` returns a replica
set whose object metadata, pod-template metadata and selector are those of the current one
and whose remaining fields are the generated ones; `addRepl.reconcile` then issues no create
request. -/
theorem getNewReplicaSet_adopts_current (E : Env) (s : Store) (inst : EMQX)
    (generated cur : ReplicaSet) (st : EMQXNodesStatus)
    (hgen : generateReplicaSet E inst = .ok generated)
    (hst : inst.Status.ReplicantNodesStatus = some st)
    (hcur : (E.getReplicaSetList s inst).1 = some cur)
    (huid : cur.ObjectMeta.UID ≠ "")
    (hsame : E.Calculate cur (hashedReplicaSet E generated st.CollisionCount)
      [.justCheckPodTemplate] = true) :
    ∃ rs, getNewReplicaSet E s inst = .ok rs
      ∧ rs.ObjectMeta = cur.ObjectMeta
      ∧ rs.Spec.Template.ObjectMeta = cur.Spec.Template.ObjectMeta
      ∧ rs.Spec.Selector = cur.Spec.Selector
      ∧ rs.Spec.Replicas = generated.Spec.Replicas
      ∧ rs.Spec.Template.Spec = generated.Spec.Template.Spec
      ∧ rs.Kind = generated.Kind ∧ rs.APIVersion = generated.APIVersion
      ∧ rs.Status = generated.Status
      ∧ (reconcile E s inst).store.Requests.filter Request.isCreate
          = s.Requests.filter Request.isCreate := by
  have hpre := getNewReplicaSet_match E s inst generated st cur hgen hst hcur hsame
  refine ⟨_, hpre, rfl, rfl, rfl, rfl, rfl, rfl, rfl, rfl, ?_⟩
  have huid' : (adoptedReplicaSet (hashedReplicaSet E generated st.CollisionCount)
      cur).ObjectMeta.UID ≠ "" := huid
  by_cases hready : IsConditionTrue inst.Status E.CoreNodesReady = true
  · unfold reconcile
    cases hcalc : E.Calculate
      ((s.getReplicaSet
          (adoptedReplicaSet (hashedReplicaSet E generated st.CollisionCount) cur).ObjectMeta.Namespace
          (adoptedReplicaSet (hashedReplicaSet E generated st.CollisionCount) cur).ObjectMeta.Name).getD
        {})
      (adoptedReplicaSet (hashedReplicaSet E generated st.CollisionCount) cur)
      [.IgnoreStatusFields, .IgnoreVolumeClaimTemplateTypeMetaAndStatus]
    · rw [reconcileReplicaSet_update E s inst _ hready hpre huid' hcalc]
      dsimp only
      rw [reconcileSync_store, sync_requests_isCreate, Store.updateStatus_requests,
        Handler.Update_snd, Store.update_requests]
      simp [List.filter_append, Request.isCreate]
    · rw [reconcileReplicaSet_unchanged E s inst _ hready hpre huid' hcalc]
      dsimp only
      rw [reconcileSync_store, sync_requests_isCreate]
  · have := (reconcile_guards_store E s inst (Or.inr (by simpa using hready)))
    rw [this]

/-- C9, on a cluster: the store holds the current replica set of the sample cluster; the
candidate carries its metadata and the pass issues no create request. -/
theorem getNewReplicaSet_adopts_current_witness :
    ∃ rs, getNewReplicaSet refEnv convergedStore (sampleEMQX [] "emqx:5.0" none) = .ok rs
      ∧ rs.ObjectMeta = sampleCurrentRs.ObjectMeta
      ∧ rs.Spec.Template.ObjectMeta = sampleCurrentRs.Spec.Template.ObjectMeta
      ∧ rs.Spec.Selector = sampleCurrentRs.Spec.Selector
      ∧ rs.Spec.Replicas = sampleGenerated.Spec.Replicas
      ∧ rs.Spec.Template.Spec = sampleGenerated.Spec.Template.Spec
      ∧ rs.Kind = sampleGenerated.Kind ∧ rs.APIVersion = sampleGenerated.APIVersion
      ∧ rs.Status = sampleGenerated.Status
      ∧ (reconcile refEnv convergedStore (sampleEMQX [] "emqx:5.0" none)).store.Requests.filter
          Request.isCreate = convergedStore.Requests.filter Request.isCreate :=
  getNewReplicaSet_adopts_current refEnv convergedStore (sampleEMQX [] "emqx:5.0" none)
    sampleGenerated sampleCurrentRs
    { Nodes := [], Replicas := 3, CurrentRevision := "emqx:5.0", CollisionCount := none }
    rfl rfl rfl (by decide) rfl

/-! ## Lemmas for two passes in a row -/

theorem find_filter_of_imp {α : Type} (p q : α → Bool) (l : List α)
    (h : ∀ a, p a = true → q a = true) : (l.filter q).find? p = l.find? p := by
  induction l with
  | nil => rfl
  | cons x rest ih =>
    by_cases hq : q x = true
    · rw [List.filter_cons_of_pos hq]
      by_cases hp : p x = true
      · rw [List.find?_cons_of_pos _ hp, List.find?_cons_of_pos _ hp]
      · rw [List.find?_cons_of_neg _ hp, List.find?_cons_of_neg _ hp, ih]
    · rw [List.filter_cons_of_neg hq]
      have hp : ¬ p x = true := fun hp => hq (h x hp)
      rw [List.find?_cons_of_neg _ hp, ih]

theorem IsConditionTrue_SetCondition_of_true (now : Nat) (st : EMQXStatus) (c : Condition)
    (t : String) (hc : c.Status = ConditionTrue) (h : IsConditionTrue st t = true) :
    IsConditionTrue (SetCondition now st c) t = true := by
  by_cases ht : c.CondType = t
  · rw [← ht]
    exact IsConditionTrue_SetCondition now st c hc
  · unfold IsConditionTrue SetCondition at *
    dsimp only
    have hfind : (st.Conditions.filter (fun c' => decide (c'.CondType ≠ c.CondType))).find?
        (fun a => decide (a.CondType = t))
        = st.Conditions.find? (fun a => decide (a.CondType = t)) := by
      apply find_filter_of_imp
      intro a ha
      have hat : a.CondType = t := by simpa using ha
      have : a.CondType ≠ c.CondType := fun hh => ht (hh ▸ hat)
      simpa using this
    rw [List.find?_append, hfind]
    cases hf : st.Conditions.find? (fun a => decide (a.CondType = t)) with
    | none => rw [hf] at h; simp at h
    | some x => rw [hf] at h; simpa using h

theorem find_append_new (l : List ReplicaSet) (x : ReplicaSet) (ns name : String)
    (hfree : l.find? (ReplicaSet.hasKey ns name) = none)
    (hx : ReplicaSet.hasKey ns name x = true) :
    (l ++ [x]).find? (ReplicaSet.hasKey ns name) = some x := by
  rw [List.find?_append, hfree]
  simp [hx]

/-- The ways `addRepl.reconcile` reaches `sync`: after an accepted create, after an in-place
update, or with nothing to write. -/
theorem reconcileReplicaSet_next (E : Env) (s : Store) (inst : EMQX) (s1 : Store) (inst1 : EMQX)
    (h : reconcileReplicaSet E s inst = .next s1 inst1) :
    ∃ preRs st, IsConditionTrue inst.Status E.CoreNodesReady = true
      ∧ getNewReplicaSet E s inst = .ok preRs
      ∧ inst.Status.ReplicantNodesStatus = some st
      ∧ ((preRs.ObjectMeta.UID = ""
            ∧ (Handler.Create E s (SetControllerReference inst preRs)).1 = none
            ∧ inst1 = { inst with Status :=
                { SetCondition E.now inst.Status (progressingCondition E) with
                  ReplicantNodesStatus := some { st with
                    CurrentRevision := GoMap.getD
                      (Handler.Create E s (SetControllerReference inst preRs)).2.1.ObjectMeta.Labels
                      E.PodTemplateHashLabelKey } } }
            ∧ s1 = (Store.updateStatus E
                (Handler.Create E s (SetControllerReference inst preRs)).2.2 inst1).2)
        ∨ (preRs.ObjectMeta.UID ≠ ""
            ∧ E.Calculate
                ((s.getReplicaSet preRs.ObjectMeta.Namespace preRs.ObjectMeta.Name).getD {}) preRs
                [.IgnoreStatusFields, .IgnoreVolumeClaimTemplateTypeMetaAndStatus] = false
            ∧ inst1 = { inst with Status := SetCondition E.now inst.Status (progressingCondition E) }
            ∧ s1 = (Store.updateStatus E (Handler.Update E s preRs).2 inst1).2)
        ∨ (preRs.ObjectMeta.UID ≠ ""
            ∧ E.Calculate
                ((s.getReplicaSet preRs.ObjectMeta.Namespace preRs.ObjectMeta.Name).getD {}) preRs
                [.IgnoreStatusFields, .IgnoreVolumeClaimTemplateTypeMetaAndStatus] = true
            ∧ inst1 = inst ∧ s1 = s)) := by
  unfold reconcileReplicaSet at h
  split at h
  · simp at h
  · split at h
    · simp at h
    · rename_i hready
      split at h
      · simp at h
      · rename_i preRs hpre
        have hready' : IsConditionTrue inst.Status E.CoreNodesReady = true := by
          simpa using hready
        have hst : ∃ st, inst.Status.ReplicantNodesStatus = some st := by
          unfold getNewReplicaSet at hpre
          split at hpre
          · simp at hpre
          · split at hpre
            · simp at hpre
            · rename_i st hst
              exact ⟨st, hst⟩
        obtain ⟨st, hst⟩ := hst
        refine ⟨preRs, st, hready', hpre, hst, ?_⟩
        split at h
        · rename_i huid
          left
          split at h
          · split at h
            · split at h <;> simp at h
            · simp at h
          · rename_i created sc hc
            rw [hst] at h
            dsimp only at h
            have hinj := Step.next.inj h
            rw [hc]
            exact ⟨huid, rfl, hinj.2.symm, by rw [← hinj.2]; exact hinj.1.symm⟩
        · rename_i huid
          right
          dsimp only at h
          split at h
          · rename_i hcalc
            left
            have hinj := Step.next.inj h
            refine ⟨huid, by simpa using hcalc, hinj.2.symm, ?_⟩
            rw [← hinj.2]
            exact hinj.1.symm
          · rename_i hcalc
            right
            have hinj := Step.next.inj h
            exact ⟨huid, by simpa using hcalc, hinj.2.symm, hinj.1.symm⟩

/-- A pass that returns the empty result before `sync` has returned at a guard. -/
theorem reconcileReplicaSet_done_ok (E : Env) (s : Store) (inst : EMQX) (o : Outcome)
    (h : reconcileReplicaSet E s inst = .done o) (hok : o.result = .ok {}) :
    o.store = s ∧ o.emqx = inst := by
  unfold reconcileReplicaSet at h
  split at h
  · have := Step.done.inj h
    subst this
    exact ⟨rfl, rfl⟩
  · split at h
    · have := Step.done.inj h
      subst this
      exact ⟨rfl, rfl⟩
    · split at h
      · have := Step.done.inj h
        subst this
        simp at hok
      · split at h
        · split at h
          · split at h
            · split at h
              · have := Step.done.inj h
                subst this
                simp at hok
              · have := Step.done.inj h
                subst this
                have := Except.ok.inj hok
                simp at this
            · have := Step.done.inj h
              subst this
              have := Except.ok.inj hok
              simp at this
          · split at h
            · have := Step.done.inj h
              subst this
              simp at hok
            · simp at h
        · dsimp only at h
          split at h <;> simp at h

theorem Handler.Update_fst (E : Env) (s : Store) (rs : ReplicaSet) :
    (Handler.Update E s rs).1
      = (Store.update E s rs).1.map (fun e => GoError.wrap e "failed to update ReplicaSet") := by
  unfold Handler.Update
  split <;> rename_i h <;> rw [h] <;> rfl

/-- The fields of the candidate that `getNewReplicaSet` takes from the generated replica set
whatever the stored replica sets are. -/
theorem getNewReplicaSet_shape (E : Env) (s : Store) (inst : EMQX) (preRs : ReplicaSet)
    (h : getNewReplicaSet E s inst = .ok preRs) :
    ∃ generated st, generateReplicaSet E inst = .ok generated
      ∧ inst.Status.ReplicantNodesStatus = some st
      ∧ preRs.Spec.Replicas = (hashedReplicaSet E generated st.CollisionCount).Spec.Replicas
      ∧ preRs.Spec.Template.Spec
          = (hashedReplicaSet E generated st.CollisionCount).Spec.Template.Spec := by
  unfold getNewReplicaSet at h
  split at h
  · simp at h
  · rename_i generated hgen
    split at h
    · simp at h
    · rename_i st hst
      refine ⟨generated, st, hgen, hst, ?_⟩
      dsimp only at h
      split at h
      · have := Except.ok.inj h
        subst this
        exact ⟨rfl, rfl⟩
      · split at h
        · have := Except.ok.inj h
          subst this
          exact ⟨rfl, rfl⟩
        · have := Except.ok.inj h
          subst this
          exact ⟨rfl, rfl⟩

theorem adoptedReplicaSet_spec (pre x : ReplicaSet)
    (h1 : x.Spec.Replicas = pre.Spec.Replicas)
    (h2 : x.Spec.Template.Spec = pre.Spec.Template.Spec) :
    (adoptedReplicaSet pre x).Spec = x.Spec := by
  obtain ⟨k, a, m, ⟨r, sel, ⟨tm, ts⟩⟩, stt⟩ := x
  simp only at h1 h2
  simp [adoptedReplicaSet, h1, h2]

/-- A second pass over a state in which the current replica set is stored under the
candidate's metadata and spec writes nothing before `sync`. -/
theorem reconcileReplicaSet_converged (E : Env) (s1 : Store) (inst1 : EMQX)
    (generated stored : ReplicaSet) (st1 : EMQXNodesStatus)
    (hlaws : E.patchReflexive)
    (hready : IsConditionTrue inst1.Status E.CoreNodesReady = true)
    (hgen : generateReplicaSet E inst1 = .ok generated)
    (hst : inst1.Status.ReplicantNodesStatus = some st1)
    (hcur : (E.getReplicaSetList s1 inst1).1 = some stored)
    (hstored : s1.getReplicaSet stored.ObjectMeta.Namespace stored.ObjectMeta.Name = some stored)
    (huid : stored.ObjectMeta.UID ≠ "")
    (hrep : stored.Spec.Replicas = (hashedReplicaSet E generated st1.CollisionCount).Spec.Replicas)
    (hspec : stored.Spec.Template.Spec
      = (hashedReplicaSet E generated st1.CollisionCount).Spec.Template.Spec) :
    reconcileReplicaSet E s1 inst1 = .next s1 inst1 := by
  have hpre := getNewReplicaSet_match E s1 inst1 generated st1 stored hgen hst hcur
    (hlaws.1 _ _ hspec)
  refine reconcileReplicaSet_unchanged E s1 inst1 _ hready hpre huid ?_
  have hkey : s1.getReplicaSet
      (adoptedReplicaSet (hashedReplicaSet E generated st1.CollisionCount) stored).ObjectMeta.Namespace
      (adoptedReplicaSet (hashedReplicaSet E generated st1.CollisionCount) stored).ObjectMeta.Name
      = some stored := hstored
  rw [hkey]
  exact hlaws.2 _ _ rfl (adoptedReplicaSet_spec _ _ hrep hspec).symm

/-! ## Idempotence -/

theorem refEnv_patchReflexive : refEnv.patchReflexive := by
  constructor
  · intro a b h
    simp [refEnv, h]
  · intro a b h1 h2
    simp [refEnv, h1, h2]

/-- C10 (as stated, refuted): the candidate's name is taken by a foreign replica set and the
scale-down gate is shut. The first pass fails to create, counts the collision and asks for a
requeue; the second pass, with the same spec, creates a replica set under the next name. -/
theorem reconcile_second_pass_creates :
    (reconcile refEnv collidingQuietStore (sampleEMQX [] "" none)).emqx.Spec
        = (sampleEMQX [] "" none).Spec
    ∧ (reconcile refEnv collidingQuietStore (sampleEMQX [] "" none)).store.ReplicaSets.map
        (fun rs => rs.ObjectMeta.Name) = ["emqx-replicant-emqx:5.0"]
    ∧ (reconcile refEnv collidingQuietStore (sampleEMQX [] "" none)).store.Requests.map
        Request.verb = ["create", "update status"]
    ∧ (reconcile refEnv
        (reconcile refEnv collidingQuietStore (sampleEMQX [] "" none)).store
        (reconcile refEnv collidingQuietStore (sampleEMQX [] "" none)).emqx).store.ReplicaSets.map
        (fun rs => rs.ObjectMeta.Name) = ["emqx-replicant-emqx:5.0", "emqx-replicant-emqx:5.0.1"]
    ∧ (reconcile refEnv
        (reconcile refEnv collidingQuietStore (sampleEMQX [] "" none)).store
        (reconcile refEnv collidingQuietStore (sampleEMQX [] "" none)).emqx).store.Requests.map
        Request.verb = ["create", "update status", "create", "update status"] := by
  refine ⟨rfl, rfl, rfl, rfl, rfl⟩

/-- C10 (amended): let a first pass of `addRepl.reconcile` return the empty `subResult`, with
its `sync` writing nothing (no superseded revision is eligible for scale-down) and its
in-place update, if it issues one, accepted. Assume the stored replica sets carry UIDs, the
patch maker is reflexive, the generated replica set does not depend on the status the pass
wrote, and after the pass `getReplicaSetList` finds as current revision the stored replica
set with the candidate's name. Then the second pass leaves the store, its log of write
requests included, and the cluster object as the first pass left them, and returns the empty
`subResult`. -/
theorem reconcile_twice (E : Env) (s : Store) (inst : EMQX)
    (hlaws : E.patchReflexive)
    (hok : (reconcile E s inst).result = .ok {})
    (hquiet : ∀ s1 inst1, reconcileReplicaSet E s inst = .next s1 inst1 →
      (sync E s1 inst1).2 = s1)
    (hacc : ∀ preRs, getNewReplicaSet E s inst = .ok preRs → preRs.ObjectMeta.UID ≠ "" →
      E.Calculate ((s.getReplicaSet preRs.ObjectMeta.Namespace preRs.ObjectMeta.Name).getD {})
        preRs [.IgnoreStatusFields, .IgnoreVolumeClaimTemplateTypeMetaAndStatus] = false →
      (Handler.Update E s preRs).1 = none)
    (hwf : ∀ rs ∈ s.ReplicaSets, rs.ObjectMeta.UID ≠ "")
    (hgen : generateReplicaSet E (reconcile E s inst).emqx = generateReplicaSet E inst)
    (hcur : ∀ preRs, getNewReplicaSet E s inst = .ok preRs →
      (E.getReplicaSetList (reconcile E s inst).store (reconcile E s inst).emqx).1
        = (reconcile E s inst).store.getReplicaSet
            preRs.ObjectMeta.Namespace preRs.ObjectMeta.Name) :
    (reconcile E (reconcile E s inst).store (reconcile E s inst).emqx).store
        = (reconcile E s inst).store
      ∧ (reconcile E (reconcile E s inst).store (reconcile E s inst).emqx).emqx
        = (reconcile E s inst).emqx
      ∧ (reconcile E (reconcile E s inst).store (reconcile E s inst).emqx).result = .ok {} := by
  cases hstep : reconcileReplicaSet E s inst with
  | done o =>
    have hrec : reconcile E s inst = o := by
      unfold reconcile
      rw [hstep]
    rw [hrec] at hok ⊢
    obtain ⟨hs, hi⟩ := reconcileReplicaSet_done_ok E s inst o hstep hok
    rw [hs, hi, hrec]
    exact ⟨hs, hi, hok⟩
  | next s1 inst1 =>
    have hrec : reconcile E s inst = reconcileSync E s1 inst1 := by
      unfold reconcile
      rw [hstep]
    have hq := hquiet s1 inst1 hstep
    have hstore : (reconcileSync E s1 inst1).store = s1 := by
      rw [reconcileSync_store, hq]
    have hemqx := reconcileSync_emqx E s1 inst1
    rw [hrec] at hok hgen hcur ⊢
    rw [hemqx] at hgen
    simp only [hstore, hemqx] at hcur ⊢
    suffices h2 : reconcileReplicaSet E s1 inst1 = .next s1 inst1 by
      have h3 : reconcile E s1 inst1 = reconcileSync E s1 inst1 := by
        unfold reconcile
        rw [h2]
      rw [h3]
      exact ⟨hstore, hemqx, hok⟩
    obtain ⟨preRs, st, hready, hpre, hst, hcase⟩ :=
      reconcileReplicaSet_next E s inst s1 inst1 hstep
    obtain ⟨generated, st', hg, hst', hrep, hspec⟩ := getNewReplicaSet_shape E s inst preRs hpre
    have hstt : st = st' := by
      rw [hst] at hst'
      exact Option.some.inj hst'
    subst hstt
    rcases hcase with ⟨-, hcreate, hinst1, hs1⟩ | ⟨huid, hcalc, hinst1, hs1⟩
      | ⟨-, -, hinst1, hs1⟩
    · have hcs : (Store.create E s (SetControllerReference inst preRs)).1 = none := by
        have hf := Handler.Create_fst E s (SetControllerReference inst preRs)
        rw [hcreate] at hf
        cases hx : (Store.create E s (SetControllerReference inst preRs)).1 with
        | none => rfl
        | some e => rw [hx] at hf; simp at hf
      obtain ⟨hfree, hrs, hcuid, -, hname, hns, hcspec⟩ :=
        Store.create_ok E s (SetControllerReference inst preRs) hcs
      rw [← Handler.Create_snd] at hrs hcuid hname hns hcspec
      have hs1rs : s1.ReplicaSets = s.ReplicaSets
          ++ [(Handler.Create E s (SetControllerReference inst preRs)).2.1] := by
        rw [hs1, Store.updateStatus_replicaSets, hrs]
      have hlookup : s1.getReplicaSet preRs.ObjectMeta.Namespace preRs.ObjectMeta.Name
          = some (Handler.Create E s (SetControllerReference inst preRs)).2.1 := by
        unfold Store.getReplicaSet
        rw [hs1rs]
        apply find_append_new
        · exact hfree
        · have hn : (SetControllerReference inst preRs).ObjectMeta.Name = preRs.ObjectMeta.Name :=
            rfl
          have hm : (SetControllerReference inst preRs).ObjectMeta.Namespace
              = preRs.ObjectMeta.Namespace := rfl
          simp [ReplicaSet.hasKey, hname, hns, hn, hm]
      have hcspec' : (Handler.Create E s (SetControllerReference inst preRs)).2.1.Spec
          = preRs.Spec := hcspec
      refine reconcileReplicaSet_converged E s1 inst1 generated
        (Handler.Create E s (SetControllerReference inst preRs)).2.1
        (EMQXNodesStatus.mk st.Nodes st.Replicas st.ReadyReplicas
          (GoMap.getD (Handler.Create E s (SetControllerReference inst preRs)).2.1.ObjectMeta.Labels
            E.PodTemplateHashLabelKey)
          st.CollisionCount)
        hlaws ?_ ?_ ?_ ?_ ?_ hcuid ?_ ?_
      · rw [hinst1]
        exact IsConditionTrue_SetCondition_of_true E.now inst.Status (progressingCondition E)
          E.CoreNodesReady rfl hready
      · rw [hgen]
        exact hg
      · rw [hinst1]
      · rw [hcur preRs hpre]
        exact hlookup
      · have hn : (SetControllerReference inst preRs).ObjectMeta.Name = preRs.ObjectMeta.Name :=
          rfl
        have hm : (SetControllerReference inst preRs).ObjectMeta.Namespace
            = preRs.ObjectMeta.Namespace := rfl
        rw [hname, hns, hn, hm]
        exact hlookup
      · rw [hcspec']
        exact hrep
      · rw [hcspec']
        exact hspec
    · have hupd := hacc preRs hpre huid hcalc
      have hus : (Store.update E s preRs).1 = none := by
        have hf := Handler.Update_fst E s preRs
        rw [hupd] at hf
        cases hx : (Store.update E s preRs).1 with
        | none => rfl
        | some e => rw [hx] at hf; simp at hf
      rcases Store.update_replicaSets E s preRs with ⟨hne, -⟩ | ⟨-, ⟨cur0, hcur0⟩, hrepl⟩
      · exact absurd hus hne
      · have hs1rs : s1.ReplicaSets = replaceReplicaSet preRs s.ReplicaSets := by
          rw [hs1, Store.updateStatus_replicaSets, Handler.Update_snd, hrepl]
        have hlookup : s1.getReplicaSet preRs.ObjectMeta.Namespace preRs.ObjectMeta.Name
            = some (updatedReplicaSet preRs cur0) := by
          unfold Store.getReplicaSet
          rw [hs1rs]
          exact find_replaceReplicaSet_same preRs cur0 _ hcur0
        have hmem : cur0 ∈ s.ReplicaSets := List.mem_of_find?_eq_some hcur0
        refine reconcileReplicaSet_converged E s1 inst1 generated (updatedReplicaSet preRs cur0) st
          hlaws ?_ ?_ ?_ ?_ hlookup (hwf cur0 hmem) hrep hspec
        · rw [hinst1]
          exact IsConditionTrue_SetCondition_of_true E.now inst.Status (progressingCondition E)
            E.CoreNodesReady rfl hready
        · rw [hgen]
          exact hg
        · rw [hinst1]
          exact hst
        · rw [hcur preRs hpre]
          exact hlookup
    · rw [hinst1, hs1]
      rw [hinst1, hs1] at hstep
      exact hstep

/-- C10 (amended), on a cluster: the first pass creates the replica set of revision
`emqx:5.0` next to the superseded one while the scale-down gate is shut; the second pass
writes nothing. -/
theorem reconcile_twice_witness :
    (reconcile refEnv (reconcile refEnv newRevisionStore (sampleEMQX [] "old" none)).store
        (reconcile refEnv newRevisionStore (sampleEMQX [] "old" none)).emqx).store
        = (reconcile refEnv newRevisionStore (sampleEMQX [] "old" none)).store
      ∧ (reconcile refEnv (reconcile refEnv newRevisionStore (sampleEMQX [] "old" none)).store
        (reconcile refEnv newRevisionStore (sampleEMQX [] "old" none)).emqx).emqx
        = (reconcile refEnv newRevisionStore (sampleEMQX [] "old" none)).emqx
      ∧ (reconcile refEnv (reconcile refEnv newRevisionStore (sampleEMQX [] "old" none)).store
        (reconcile refEnv newRevisionStore (sampleEMQX [] "old" none)).emqx).result = .ok {} :=
  reconcile_twice refEnv newRevisionStore (sampleEMQX [] "old" none)
    refEnv_patchReflexive rfl
    (fun s1 inst1 h => by
      have hs : (reconcile refEnv newRevisionStore (sampleEMQX [] "old" none)).store = s1 :=
        congrArg (fun st => match st with
          | .next s _ => s
          | .done o => o.store) h
      have hi : (reconcile refEnv newRevisionStore (sampleEMQX [] "old" none)).emqx = inst1 :=
        congrArg (fun st => match st with
          | .next _ i => i
          | .done o => o.emqx) h
      subst hs
      subst hi
      rfl)
    (fun preRs h huid => by
      have hp : hashedReplicaSet refEnv sampleGenerated none = preRs := Except.ok.inj h
      subst hp
      exact absurd rfl huid)
    (fun rs hrs => by
      have : rs = supersededRs 3 3 := by simpa [newRevisionStore] using hrs
      subst this
      decide)
    rfl
    (fun preRs h => by
      have hp : hashedReplicaSet refEnv sampleGenerated none = preRs := Except.ok.inj h
      subst hp
      rfl)


/-! ## The order of the candidates -/

theorem insertRow_sorted (E : Env) (x : podSessionCount) (l : List podSessionCount)
    (h : l.Pairwise (fun a b => a.session ≤ b.session)) :
    (insertRow E x l).Pairwise (fun a b => a.session ≤ b.session) := by
  induction l with
  | nil => simp [insertRow]
  | cons y rest ih =>
    unfold insertRow
    rw [List.pairwise_cons] at h
    split
    · rename_i hlt
      refine List.pairwise_cons.mpr ⟨?_, List.pairwise_cons.mpr h⟩
      intro b hb
      rcases List.mem_cons.mp hb with rfl | hb
      · omega
      · have := h.1 b hb
        omega
    · rename_i hge
      refine List.pairwise_cons.mpr ⟨?_, ih h.2⟩
      intro b hb
      rcases List.mem_cons.mp ((insertRow_perm E x rest).subset hb) with rfl | hb
      · omega
      · exact h.1 b hb

theorem sortSlice_sorted (E : Env) (l : List podSessionCount) :
    (sortSlice E l).Pairwise (fun a b => a.session ≤ b.session) := by
  induction l with
  | nil => simp [sortSlice]
  | cons x rest ih =>
    unfold sortSlice
    exact insertRow_sorted E x _ ih

/-- The first row after sorting has the fewest sessions of all rows. -/
theorem sortSlice_head_le (E : Env) (l : List podSessionCount) (first : podSessionCount)
    (rest : List podSessionCount) (h : sortSlice E l = first :: rest) :
    ∀ c ∈ l, first.session ≤ c.session := by
  intro c hc
  have hmem : c ∈ sortSlice E l := (sortSlice_perm E l).symm.subset hc
  have hs := sortSlice_sorted E l
  rw [h] at hmem hs
  rcases List.mem_cons.mp hmem with rfl | hr
  · exact le_refl _
  · exact (List.pairwise_cons.mp hs).1 c hr

/-- What `findCanBeDeletePod` returns, when it returns normally with the gate open: the
verdict on the first row of the sorted candidate list. -/
theorem findCanBeDeletePod_of_sorted (E : Env) (s : Store) (inst : EMQX) (old : ReplicaSet)
    (st : EMQXNodesStatus) (selector : LabelSelector) (first : podSessionCount)
    (rest : List podSessionCount)
    (hgate : E.canBeScaledDown inst E.Ready (E.getEventList s old) = true)
    (hsel : old.Spec.Selector = some selector)
    (hst : inst.Status.ReplicantNodesStatus = some st)
    (hsort : sortSlice E (joinNodes st.Nodes
      (Store.listPods E s old.ObjectMeta.Namespace selector.MatchLabels)) = first :: rest) :
    findCanBeDeletePod E s inst old
      = .ok (if first.edition = "Enterprise" ∧ first.session > 0 then none else some first.pod) := by
  unfold findCanBeDeletePod
  simp only [hgate, hsel, hst, hsort, Bool.not_true, Bool.false_eq_true, if_false]
  split <;> rfl

/-- Whatever pod `findCanBeDeletePod` returns is the pod of the first row of the sorted
candidate list. -/
theorem findCanBeDeletePod_some_first (E : Env) (s : Store) (inst : EMQX) (old : ReplicaSet)
    (pod : Pod) (h : findCanBeDeletePod E s inst old = .ok (some pod)) :
    ∃ st selector first rest, inst.Status.ReplicantNodesStatus = some st
      ∧ old.Spec.Selector = some selector
      ∧ sortSlice E (joinNodes st.Nodes
          (Store.listPods E s old.ObjectMeta.Namespace selector.MatchLabels)) = first :: rest
      ∧ first.pod = pod := by
  unfold findCanBeDeletePod at h
  split at h
  · simp at h
  · split at h
    · simp at h
    · rename_i selector hsel
      split at h
      · simp at h
      · rename_i st hst
        dsimp only at h
        split at h
        · simp at h
        · rename_i first rest hsort
          split at h
          · simp at h
          · refine ⟨st, selector, first, rest, hst, hsel, hsort, ?_⟩
            simpa using h

/-- C11: whenever `findCanBeDeletePod` returns a pod, that pod is the pod of a candidate row
(a pod of the old replica set joined to a live node by its IP) whose session count is less
than or equal to the session count of every candidate row. -/
theorem findCanBeDeletePod_fewest_sessions (E : Env) (s : Store) (inst : EMQX)
    (old : ReplicaSet) (pod : Pod)
    (h : findCanBeDeletePod E s inst old = .ok (some pod)) :
    ∃ st selector, inst.Status.ReplicantNodesStatus = some st
      ∧ old.Spec.Selector = some selector
      ∧ ∃ c ∈ joinNodes st.Nodes
            (Store.listPods E s old.ObjectMeta.Namespace selector.MatchLabels),
          c.pod = pod
          ∧ ∀ c' ∈ joinNodes st.Nodes
              (Store.listPods E s old.ObjectMeta.Namespace selector.MatchLabels),
            c.session ≤ c'.session := by
  obtain ⟨st, selector, first, rest, hst, hsel, hsort, hpod⟩ :=
    findCanBeDeletePod_some_first E s inst old pod h
  refine ⟨st, selector, hst, hsel, first, ?_, hpod, sortSlice_head_le E _ first rest hsort⟩
  have : first ∈ sortSlice E (joinNodes st.Nodes
      (Store.listPods E s old.ObjectMeta.Namespace selector.MatchLabels)) := by
    rw [hsort]
    exact List.mem_cons_self _ _
  exact (sortSlice_perm E _).subset this

/-- C11, on the cluster of scenario C: one pod is correlated to a community node with five
sessions, the other to an enterprise node without sessions; the second pod is returned and
its row has the fewest sessions. -/
theorem findCanBeDeletePod_fewest_sessions_witness :
    findCanBeDeletePod refEnv (twoPodStore [busyCommunityNode, idleEnterpriseNodeB])
        (sampleEMQX [busyCommunityNode, idleEnterpriseNodeB] "emqx:5.0" none) (supersededRs 2 2)
      = .ok (some secondSupersededPod)
    ∧ ∃ st selector,
        (sampleEMQX [busyCommunityNode, idleEnterpriseNodeB] "emqx:5.0"
          none).Status.ReplicantNodesStatus = some st
      ∧ (supersededRs 2 2).Spec.Selector = some selector
      ∧ ∃ c ∈ joinNodes st.Nodes
            (Store.listPods refEnv (twoPodStore [busyCommunityNode, idleEnterpriseNodeB])
              (supersededRs 2 2).ObjectMeta.Namespace selector.MatchLabels),
          c.pod = secondSupersededPod
          ∧ ∀ c' ∈ joinNodes st.Nodes
              (Store.listPods refEnv (twoPodStore [busyCommunityNode, idleEnterpriseNodeB])
                (supersededRs 2 2).ObjectMeta.Namespace selector.MatchLabels),
            c.session ≤ c'.session :=
  ⟨rfl, findCanBeDeletePod_fewest_sessions refEnv
    (twoPodStore [busyCommunityNode, idleEnterpriseNodeB])
    (sampleEMQX [busyCommunityNode, idleEnterpriseNodeB] "emqx:5.0" none) (supersededRs 2 2)
    secondSupersededPod rfl⟩


/-! ## Missing correlation -/

/-- With the gate open and no candidate row, `findCanBeDeletePod` indexes the empty list. -/
theorem findCanBeDeletePod_no_candidate (E : Env) (s : Store) (inst : EMQX) (old : ReplicaSet)
    (st : EMQXNodesStatus) (selector : LabelSelector)
    (hgate : E.canBeScaledDown inst E.Ready (E.getEventList s old) = true)
    (hsel : old.Spec.Selector = some selector)
    (hst : inst.Status.ReplicantNodesStatus = some st)
    (hnone : joinNodes st.Nodes
      (Store.listPods E s old.ObjectMeta.Namespace selector.MatchLabels) = []) :
    findCanBeDeletePod E s inst old = .error .indexOutOfRange := by
  unfold findCanBeDeletePod
  simp only [hgate, hsel, hst, hnone, Bool.not_true, Bool.false_eq_true, if_false]
  rfl

/-- C12 (code defect): with scale-down allowed, `findCanBeDeletePod` ends in an
index-out-of-range panic, not in `none`, when the live-node list is empty, when the pod
list is empty, and when no pod IP matches the host part of a live node. -/
theorem findCanBeDeletePod_panics_without_candidate :
    findCanBeDeletePod refEnv (rollingStore 3 3 []) (sampleEMQX [] "emqx:5.0" none)
        (supersededRs 3 3) = .error .indexOutOfRange
    ∧ findCanBeDeletePod refEnv (podlessStore [idleEnterpriseNode])
        (sampleEMQX [idleEnterpriseNode] "emqx:5.0" none) (supersededRs 3 3)
        = .error .indexOutOfRange
    ∧ findCanBeDeletePod refEnv (rollingStore 3 3 [idleEnterpriseNodeB])
        (sampleEMQX [idleEnterpriseNodeB] "emqx:5.0" none) (supersededRs 3 3)
        = .error .indexOutOfRange := by
  refine ⟨rfl, rfl, rfl⟩

/-! ## The deletion-cost marker -/

/-- C13 (code defect): the evacuation policy returns the pod on `10.0.0.1` and `sync`
returns no error, but the merge patch it submits for the pod is empty, because the base
given to `client.MergeFrom` is the pod on which the annotation was already set; the stored
pod carries no deletion-cost annotation afterwards. -/
theorem sync_submits_empty_patch :
    findCanBeDeletePod refEnv (rollingStore 3 3 [idleEnterpriseNode])
        (sampleEMQX [idleEnterpriseNode] "emqx:5.0" none) (supersededRs 3 3)
      = .ok (some supersededPod)
    ∧ (sync refEnv (rollingStore 3 3 [idleEnterpriseNode])
        (sampleEMQX [idleEnterpriseNode] "emqx:5.0" none)).1 = .ok none
    ∧ (sync refEnv (rollingStore 3 3 [idleEnterpriseNode])
        (sampleEMQX [idleEnterpriseNode] "emqx:5.0" none)).2.Requests.head?
      = some (.patchPod "default" "emqx-replicant-old-x7k2p" [])
    ∧ (sync refEnv (rollingStore 3 3 [idleEnterpriseNode])
        (sampleEMQX [idleEnterpriseNode] "emqx:5.0" none)).2.Pods.map
          (fun p => GoMap.get p.ObjectMeta.Annotations "controller.kubernetes.io/pod-deletion-cost")
      = [none]
    ∧ GoMap.get (withDeletionCost supersededPod).ObjectMeta.Annotations
        "controller.kubernetes.io/pod-deletion-cost" = some "-99999" := by
  refine ⟨rfl, rfl, rfl, rfl, rfl⟩

/-! ## Oldest first -/

/-- C14: `sync` leaves the stored replica sets as they are or replaces the one stored under
the key of the first element of the superseded-revision list by its scaled-down copy; every
replica set stored under another key (every other superseded revision, the current
revision) is unchanged; and with an empty superseded-revision list `sync` changes nothing
and returns no error. -/
theorem sync_touches_only_oldest (E : Env) (s : Store) (inst : EMQX) :
    ((E.getReplicaSetList s inst).2 = [] → sync E s inst = (.ok none, s))
    ∧ ((sync E s inst).2.ReplicaSets = s.ReplicaSets
        ∨ ∃ oldest rest, (E.getReplicaSetList s inst).2 = oldest :: rest
            ∧ (sync E s inst).2.ReplicaSets = replaceReplicaSet (scaledDown oldest) s.ReplicaSets)
    ∧ (∀ oldest rest, (E.getReplicaSetList s inst).2 = oldest :: rest →
        ∀ ns name, ¬ (oldest.ObjectMeta.Namespace = ns ∧ oldest.ObjectMeta.Name = name) →
          (sync E s inst).2.getReplicaSet ns name = s.getReplicaSet ns name)
    ∧ (sync E s inst).2.ReplicaSets.map ReplicaSet.key = s.ReplicaSets.map ReplicaSet.key := by
  refine ⟨?_, ?_, ?_, sync_keys E s inst⟩
  · intro h
    unfold sync
    rw [h]
  · rcases sync_replicaSets E s inst with h | ⟨oldest, rest, _, _, hold, _, _, _, hrep⟩
    · exact Or.inl h
    · exact Or.inr ⟨oldest, rest, hold, hrep⟩
  · intro oldest rest hold ns name hne
    rcases sync_replicaSets E s inst with h | ⟨oldest', rest', _, _, hold', _, _, _, hrep⟩
    · unfold Store.getReplicaSet
      rw [h]
    · have heq : oldest' = oldest := by
        rw [hold] at hold'
        exact (List.cons.inj hold').1.symm
      subst heq
      unfold Store.getReplicaSet
      rw [hrep]
      exact find_replaceReplicaSet_other (scaledDown oldest') s.ReplicaSets ns name hne

/-- C14, on a cluster in a rolling update: `sync` brings the superseded replica set from
three to two desired replicas and the current replica set keeps its three. -/
theorem sync_touches_only_oldest_witness :
    (((refEnv.getReplicaSetList (rollingStore 3 3 [idleEnterpriseNode])
          (sampleEMQX [idleEnterpriseNode] "emqx:5.0" none)).2 = [] →
        sync refEnv (rollingStore 3 3 [idleEnterpriseNode])
          (sampleEMQX [idleEnterpriseNode] "emqx:5.0" none)
          = (.ok none, rollingStore 3 3 [idleEnterpriseNode]))
      ∧ ((sync refEnv (rollingStore 3 3 [idleEnterpriseNode])
            (sampleEMQX [idleEnterpriseNode] "emqx:5.0" none)).2.ReplicaSets
            = (rollingStore 3 3 [idleEnterpriseNode]).ReplicaSets
          ∨ ∃ oldest rest, (refEnv.getReplicaSetList (rollingStore 3 3 [idleEnterpriseNode])
                (sampleEMQX [idleEnterpriseNode] "emqx:5.0" none)).2 = oldest :: rest
              ∧ (sync refEnv (rollingStore 3 3 [idleEnterpriseNode])
                  (sampleEMQX [idleEnterpriseNode] "emqx:5.0" none)).2.ReplicaSets
                = replaceReplicaSet (scaledDown oldest)
                    (rollingStore 3 3 [idleEnterpriseNode]).ReplicaSets)
      ∧ (∀ oldest rest, (refEnv.getReplicaSetList (rollingStore 3 3 [idleEnterpriseNode])
            (sampleEMQX [idleEnterpriseNode] "emqx:5.0" none)).2 = oldest :: rest →
          ∀ ns name, ¬ (oldest.ObjectMeta.Namespace = ns ∧ oldest.ObjectMeta.Name = name) →
            (sync refEnv (rollingStore 3 3 [idleEnterpriseNode])
              (sampleEMQX [idleEnterpriseNode] "emqx:5.0" none)).2.getReplicaSet ns name
              = (rollingStore 3 3 [idleEnterpriseNode]).getReplicaSet ns name)
      ∧ (sync refEnv (rollingStore 3 3 [idleEnterpriseNode])
          (sampleEMQX [idleEnterpriseNode] "emqx:5.0" none)).2.ReplicaSets.map ReplicaSet.key
          = (rollingStore 3 3 [idleEnterpriseNode]).ReplicaSets.map ReplicaSet.key)
    ∧ (sync refEnv (rollingStore 3 3 [idleEnterpriseNode])
        (sampleEMQX [idleEnterpriseNode] "emqx:5.0" none)).2.ReplicaSets.map
          (fun rs => rs.Spec.Replicas) = [some 2, some 3] :=
  ⟨sync_touches_only_oldest refEnv (rollingStore 3 3 [idleEnterpriseNode])
    (sampleEMQX [idleEnterpriseNode] "emqx:5.0" none), rfl⟩

/-! ## The selection rule -/

/-- C20: when scale-down is allowed and the candidate list is not empty,
`findCanBeDeletePod` returns none exactly when the first candidate in ascending session
order has edition `Enterprise` (compared as is) and a positive session count, and otherwise
returns the pod of that first candidate; in particular a first candidate with any other
edition string is returned whatever its session count. -/
theorem findCanBeDeletePod_rule (E : Env) (s : Store) (inst : EMQX) (old : ReplicaSet)
    (st : EMQXNodesStatus) (selector : LabelSelector) (first : podSessionCount)
    (rest : List podSessionCount)
    (hgate : E.canBeScaledDown inst E.Ready (E.getEventList s old) = true)
    (hsel : old.Spec.Selector = some selector)
    (hst : inst.Status.ReplicantNodesStatus = some st)
    (hsort : sortSlice E (joinNodes st.Nodes
      (Store.listPods E s old.ObjectMeta.Namespace selector.MatchLabels)) = first :: rest) :
    (findCanBeDeletePod E s inst old = .ok none
        ↔ (first.edition = "Enterprise" ∧ first.session > 0))
    ∧ (¬ (first.edition = "Enterprise" ∧ first.session > 0) →
        findCanBeDeletePod E s inst old = .ok (some first.pod))
    ∧ (first.edition ≠ "Enterprise" → findCanBeDeletePod E s inst old = .ok (some first.pod)) := by
  have h := findCanBeDeletePod_of_sorted E s inst old st selector first rest hgate hsel hst hsort
  by_cases hc : first.edition = "Enterprise" ∧ first.session > 0
  · rw [h, if_pos hc]
    refine ⟨⟨fun _ => hc, fun _ => rfl⟩, fun hn => absurd hc hn, fun hn => absurd hc.1 hn⟩
  · rw [h, if_neg hc]
    refine ⟨⟨fun hh => ?_, fun hh => absurd hh hc⟩, fun _ => rfl, fun _ => rfl⟩
    have := Except.ok.inj hh
    simp at this

/-- C20, on two clusters: an enterprise node with one session sorts before a community node
with five sessions and nothing is returned; a single node whose edition is spelled
`enterprise` has seven sessions and its pod is returned. -/
theorem findCanBeDeletePod_rule_witness :
    ((findCanBeDeletePod refEnv (twoPodStore [busyCommunityNode, oneSessionEnterpriseNodeB])
          (sampleEMQX [busyCommunityNode, oneSessionEnterpriseNodeB] "emqx:5.0" none)
          (supersededRs 2 2) = .ok none
        ↔ (("Enterprise" : String) = "Enterprise" ∧ (1 : Int) > 0))
      ∧ (¬ (("Enterprise" : String) = "Enterprise" ∧ (1 : Int) > 0) →
          findCanBeDeletePod refEnv (twoPodStore [busyCommunityNode, oneSessionEnterpriseNodeB])
            (sampleEMQX [busyCommunityNode, oneSessionEnterpriseNodeB] "emqx:5.0" none)
            (supersededRs 2 2) = .ok (some secondSupersededPod))
      ∧ (("Enterprise" : String) ≠ "Enterprise" →
          findCanBeDeletePod refEnv (twoPodStore [busyCommunityNode, oneSessionEnterpriseNodeB])
            (sampleEMQX [busyCommunityNode, oneSessionEnterpriseNodeB] "emqx:5.0" none)
            (supersededRs 2 2) = .ok (some secondSupersededPod)))
    ∧ findCanBeDeletePod refEnv (twoPodStore [busyCommunityNode, oneSessionEnterpriseNodeB])
        (sampleEMQX [busyCommunityNode, oneSessionEnterpriseNodeB] "emqx:5.0" none)
        (supersededRs 2 2) = .ok none
    ∧ findCanBeDeletePod refEnv (rollingStore 3 3 [lowercaseEnterpriseNode])
        (sampleEMQX [lowercaseEnterpriseNode] "emqx:5.0" none) (supersededRs 3 3)
        = .ok (some supersededPod) :=
  ⟨findCanBeDeletePod_rule refEnv (twoPodStore [busyCommunityNode, oneSessionEnterpriseNodeB])
    (sampleEMQX [busyCommunityNode, oneSessionEnterpriseNodeB] "emqx:5.0" none)
    (supersededRs 2 2)
    { Nodes := [busyCommunityNode, oneSessionEnterpriseNodeB], Replicas := 3
      CurrentRevision := "emqx:5.0", CollisionCount := none }
    { MatchLabels :=
        [("apps.emqx.io/db-role", "replicant"), ("apps.emqx.io/pod-template-hash", "old")] }
    { pod := secondSupersededPod, edition := "Enterprise", session := 1 }
    [{ pod := supersededPod, edition := "Opensource", session := 5 }]
    rfl rfl rfl rfl, rfl, rfl⟩


/-! ## In-place updates -/

/-- C15: when the core nodes are ready, the current replica set (a stored object) carries
the desired pod template, and the patch maker reports a difference between the stored
replica set and the candidate (its desired replica count differs from the count of the
replicant spec), `addRepl.reconcile` submits, as its first write, an update of that replica
set under its own metadata with `Spec.Replicas` equal to the count of the spec; it issues no
create request and the keys of the stored replica sets are unchanged; the
`ReplicantNodesProgressing` condition is true afterwards. When the server accepts the
update, the stored replica set has the count of the spec when `sync` starts, and still has
it after the pass unless `sync` scales that very replica set down. -/
theorem reconcile_updates_in_place (E : Env) (s : Store) (inst : EMQX)
    (tmpl : EMQXReplicantTemplate) (generated cur cand : ReplicaSet) (st : EMQXNodesStatus)
    (hready : IsConditionTrue inst.Status E.CoreNodesReady = true)
    (htmpl : inst.Spec.ReplicantTemplate = some tmpl)
    (hgen : generateReplicaSet E inst = .ok generated)
    (hst : inst.Status.ReplicantNodesStatus = some st)
    (hcur : (E.getReplicaSetList s inst).1 = some cur)
    (huid : cur.ObjectMeta.UID ≠ "")
    (hsame : E.Calculate cur (hashedReplicaSet E generated st.CollisionCount)
      [.justCheckPodTemplate] = true)
    (hcand : cand = adoptedReplicaSet (hashedReplicaSet E generated st.CollisionCount) cur)
    (hdiff : E.Calculate
      ((s.getReplicaSet cur.ObjectMeta.Namespace cur.ObjectMeta.Name).getD {}) cand
      [.IgnoreStatusFields, .IgnoreVolumeClaimTemplateTypeMetaAndStatus] = false) :
    cand.ObjectMeta = cur.ObjectMeta
      ∧ cand.Spec.Replicas = tmpl.Spec.Replicas
      ∧ (∃ l, (reconcile E s inst).store.Requests = s.Requests ++ .updateReplicaSet cand :: l)
      ∧ (reconcile E s inst).store.Requests.filter Request.isCreate
          = s.Requests.filter Request.isCreate
      ∧ (reconcile E s inst).store.ReplicaSets.map ReplicaSet.key
          = s.ReplicaSets.map ReplicaSet.key
      ∧ IsConditionTrue (reconcile E s inst).emqx.Status E.ReplicantNodesProgressing = true
      ∧ ((Handler.Update E s cand).1 = none →
          ∀ s1 inst1, reconcileReplicaSet E s inst = .next s1 inst1 →
            (∃ rs, s1.getReplicaSet cur.ObjectMeta.Namespace cur.ObjectMeta.Name = some rs
              ∧ rs.Spec.Replicas = tmpl.Spec.Replicas)
            ∧ ((∀ oldest rest, (E.getReplicaSetList s1 inst1).2 = oldest :: rest →
                  ¬ (oldest.ObjectMeta.Namespace = cur.ObjectMeta.Namespace
                    ∧ oldest.ObjectMeta.Name = cur.ObjectMeta.Name)) →
                ∃ rs, (reconcile E s inst).store.getReplicaSet
                    cur.ObjectMeta.Namespace cur.ObjectMeta.Name = some rs
                  ∧ rs.Spec.Replicas = tmpl.Spec.Replicas)) := by
  obtain ⟨tmpl', htmpl', -, -, -, -, -, -, hrepl, -⟩ := generateReplicaSet_ok E inst generated hgen
  have htt : tmpl' = tmpl := by
    rw [htmpl] at htmpl'
    exact (Option.some.inj htmpl').symm
  subst htt
  subst hcand
  have hpre := getNewReplicaSet_match E s inst generated st cur hgen hst hcur hsame
  have huid' : (adoptedReplicaSet (hashedReplicaSet E generated st.CollisionCount)
      cur).ObjectMeta.UID ≠ "" := huid
  have hstep := reconcileReplicaSet_update E s inst _ hready hpre huid' hdiff
  have hrec : reconcile E s inst = reconcileSync E
      (Store.updateStatus E
        (Handler.Update E s
          (adoptedReplicaSet (hashedReplicaSet E generated st.CollisionCount) cur)).2
        { inst with Status := SetCondition E.now inst.Status (progressingCondition E) }).2
      { inst with Status := SetCondition E.now inst.Status (progressingCondition E) } := by
    unfold reconcile
    rw [hstep]
  have hcrep : (adoptedReplicaSet (hashedReplicaSet E generated st.CollisionCount)
      cur).Spec.Replicas = tmpl'.Spec.Replicas := hrepl
  refine ⟨rfl, hcrep, ?_, ?_, ?_, ?_, ?_⟩
  · obtain ⟨l, hl, -⟩ := sync_requests E
      (Store.updateStatus E
        (Handler.Update E s
          (adoptedReplicaSet (hashedReplicaSet E generated st.CollisionCount) cur)).2
        { inst with Status := SetCondition E.now inst.Status (progressingCondition E) }).2
      { inst with Status := SetCondition E.now inst.Status (progressingCondition E) }
    rw [hrec, reconcileSync_store, hl, Store.updateStatus_requests, Handler.Update_snd,
      Store.update_requests]
    exact ⟨.updateStatus (SetCondition E.now inst.Status (progressingCondition E)) :: l,
      by simp⟩
  · rw [hrec, reconcileSync_store, sync_requests_isCreate, Store.updateStatus_requests,
      Handler.Update_snd, Store.update_requests]
    simp [List.filter_append, Request.isCreate]
  · rw [hrec, reconcileSync_store, sync_keys, Store.updateStatus_replicaSets, Handler.Update_snd]
    rcases Store.update_replicaSets E s
      (adoptedReplicaSet (hashedReplicaSet E generated st.CollisionCount) cur) with h | h
    · rw [h.2]
    · rw [h.2.2]
      exact map_key_replaceReplicaSet _ _
  · rw [hrec, reconcileSync_emqx]
    exact IsConditionTrue_SetCondition E.now inst.Status (progressingCondition E) rfl
  · intro hacc s1 inst1 hnext
    rw [hstep] at hnext
    obtain ⟨hs1, hi1⟩ := Step.next.inj hnext
    have hus : (Store.update E s
        (adoptedReplicaSet (hashedReplicaSet E generated st.CollisionCount) cur)).1 = none := by
      have hf := Handler.Update_fst E s
        (adoptedReplicaSet (hashedReplicaSet E generated st.CollisionCount) cur)
      rw [hacc] at hf
      cases hx : (Store.update E s
          (adoptedReplicaSet (hashedReplicaSet E generated st.CollisionCount) cur)).1 with
      | none => rfl
      | some e => rw [hx] at hf; simp at hf
    rcases Store.update_replicaSets E s
      (adoptedReplicaSet (hashedReplicaSet E generated st.CollisionCount) cur) with
      ⟨hne, -⟩ | ⟨-, ⟨cur0, hcur0⟩, hrs⟩
    · exact absurd hus hne
    · have hs1rs : s1.ReplicaSets = replaceReplicaSet
          (adoptedReplicaSet (hashedReplicaSet E generated st.CollisionCount) cur)
          s.ReplicaSets := by
        rw [← hs1, Store.updateStatus_replicaSets, Handler.Update_snd, hrs]
      have hlookup : s1.getReplicaSet cur.ObjectMeta.Namespace cur.ObjectMeta.Name
          = some (updatedReplicaSet
              (adoptedReplicaSet (hashedReplicaSet E generated st.CollisionCount) cur) cur0) := by
        unfold Store.getReplicaSet
        rw [hs1rs]
        exact find_replaceReplicaSet_same
          (adoptedReplicaSet (hashedReplicaSet E generated st.CollisionCount) cur) cur0 _ hcur0
      have hfin : (updatedReplicaSet
        (adoptedReplicaSet (hashedReplicaSet E generated st.CollisionCount) cur) cur0).Spec.Replicas
          = tmpl'.Spec.Replicas := hcrep
      refine ⟨⟨_, hlookup, hfin⟩, ?_⟩
      intro hother
      refine ⟨_, ?_, hfin⟩
      rw [hrec, reconcileSync_store, hs1, hi1]
      rcases sync_replicaSets E s1 inst1 with h | ⟨oldest, rest, _, _, hold, _, _, _, hrep⟩
      · unfold Store.getReplicaSet at hlookup ⊢
        rw [h]
        exact hlookup
      · unfold Store.getReplicaSet at hlookup ⊢
        rw [hrep, find_replaceReplicaSet_other (scaledDown oldest) s1.ReplicaSets _ _
          (hother oldest rest hold)]
        exact hlookup

/-- C15, on a cluster: the current replica set has three replicas and the replicant spec
asks for four; the pass updates it in place to four replicas, and scaling to zero works the
same way. -/
theorem reconcile_updates_in_place_witness :
    (sampleScaledCandidate (some 4)).ObjectMeta = sampleCurrentRs.ObjectMeta
      ∧ (sampleScaledCandidate (some 4)).Spec.Replicas = some 4
      ∧ (∃ l, (reconcile refEnv convergedStore scaledUpEMQX).store.Requests
          = convergedStore.Requests ++ .updateReplicaSet (sampleScaledCandidate (some 4)) :: l)
      ∧ (reconcile refEnv convergedStore scaledUpEMQX).store.Requests.filter Request.isCreate
          = convergedStore.Requests.filter Request.isCreate
      ∧ (reconcile refEnv convergedStore scaledUpEMQX).store.ReplicaSets.map ReplicaSet.key
          = convergedStore.ReplicaSets.map ReplicaSet.key
      ∧ IsConditionTrue (reconcile refEnv convergedStore scaledUpEMQX).emqx.Status
          refEnv.ReplicantNodesProgressing = true
      ∧ (reconcile refEnv convergedStore scaledUpEMQX).store.ReplicaSets.map
          (fun rs => rs.Spec.Replicas) = [some 4]
      ∧ (reconcile refEnv convergedStore scaledToZeroEMQX).store.ReplicaSets.map
          (fun rs => rs.Spec.Replicas) = [some 0] := by
  have h := reconcile_updates_in_place refEnv convergedStore scaledUpEMQX
    { Name := "emqx-replicant"
      Labels := [("apps.emqx.io/db-role", "replicant")]
      Spec := { Replicas := some 4 } }
    (sampleScaledGenerated (some 4)) sampleCurrentRs (sampleScaledCandidate (some 4))
    { Nodes := [], Replicas := 3, CurrentRevision := "emqx:5.0", CollisionCount := none }
    rfl rfl rfl rfl rfl (by decide) rfl rfl rfl
  exact ⟨h.1, h.2.1, h.2.2.1, h.2.2.2.1, h.2.2.2.2.1, h.2.2.2.2.2.1, rfl, rfl⟩


/-! ## Lemmas on the status reconciler -/

theorem getNodeStatuesByAPI_calls (M : StatusEnv) (r : Requester) :
    (getNodeStatuesByAPI M r).calls = [{ method := "GET", path := "api/v5/nodes", body := none }] :=
  rfl

theorem getNodeStatuesByAPI_total (M : StatusEnv) (r : Requester)
    (hresp : (r.Request "GET" "api/v5/nodes" none).err = none →
      (r.Request "GET" "api/v5/nodes" none).resp ≠ none) :
    ∃ nodes err, (getNodeStatuesByAPI M r).result = .ok (nodes, err) := by
  unfold getNodeStatuesByAPI
  dsimp only
  cases herr : (r.Request "GET" "api/v5/nodes" none).err with
  | some e => exact ⟨_, _, rfl⟩
  | none =>
    cases hr : (r.Request "GET" "api/v5/nodes" none).resp with
    | none => exact absurd hr (hresp herr)
    | some resp =>
      dsimp only
      split
      · exact ⟨_, _, rfl⟩
      · cases hu : M.Unmarshal (r.Request "GET" "api/v5/nodes" none).body with
        | error e => exact ⟨_, _, rfl⟩
        | ok nodes => exact ⟨_, _, rfl⟩

theorem getNodeStatuesByAPI_failure (M : StatusEnv) (r : Requester)
    (hfail : (r.Request "GET" "api/v5/nodes" none).err ≠ none
      ∨ ∃ resp, (r.Request "GET" "api/v5/nodes" none).resp = some resp
          ∧ (resp.StatusCode ≠ 200
            ∨ ∃ e, M.Unmarshal (r.Request "GET" "api/v5/nodes" none).body = .error e)) :
    ∃ err, (getNodeStatuesByAPI M r).result = .ok (none, some err) := by
  unfold getNodeStatuesByAPI
  dsimp only
  cases herr : (r.Request "GET" "api/v5/nodes" none).err with
  | some e => exact ⟨_, rfl⟩
  | none =>
    rcases hfail with h | ⟨resp, hr, h⟩
    · exact absurd herr h
    · rw [hr]
      dsimp only
      by_cases hc : resp.StatusCode ≠ 200
      · rw [if_pos hc]
        exact ⟨_, rfl⟩
      · rw [if_neg hc]
        rcases h with h | ⟨e, he⟩
        · exact absurd h hc
        · rw [he]
          exact ⟨_, rfl⟩

theorem fetchNodes_failure (M : StatusEnv) (inst : EMQX) (q : Requester)
    (nodes : Option (List EMQXNode)) (err : GoError)
    (h : (getNodeStatuesByAPI M q).result = .ok (nodes, some err)) :
    fetchNodes M inst (some q)
      = (.ok inst,
          [{ EventType := EventTypeWarning, Reason := "FailedToGetNodeStatuses",
             Message := GoError.Error err }],
          [{ method := "GET", path := "api/v5/nodes", body := none }]) := by
  unfold fetchNodes
  dsimp only
  rw [h]
  rfl

theorem fetchNodes_shape (M : StatusEnv) (inst : EMQX) (r : Option Requester)
    (hresp : ∀ q, r = some q → (q.Request "GET" "api/v5/nodes" none).err = none →
      (q.Request "GET" "api/v5/nodes" none).resp ≠ none) :
    ∃ inst3 events calls, fetchNodes M inst r = (.ok inst3, events, calls)
      ∧ (inst3 = inst ∨ ∃ nodes, inst3 = { inst with Status := M.SetNodes inst.Status nodes }) := by
  cases r with
  | none => exact ⟨inst, [], [], rfl, Or.inl rfl⟩
  | some q =>
    obtain ⟨nodes, err, h⟩ := getNodeStatuesByAPI_total M q (hresp q rfl)
    unfold fetchNodes
    dsimp only
    rw [h]
    cases err with
    | some e => exact ⟨_, _, _, rfl, Or.inl rfl⟩
    | none => exact ⟨_, _, _, rfl, Or.inr ⟨nodes, rfl⟩⟩

theorem replicantStatus_ok (E : Env) (M : StatusEnv) (s : Store) (i : EMQX)
    (hrepl : M.isExistReplicant i = true →
      ∃ tmpl m, i.Spec.ReplicantTemplate = some tmpl ∧ tmpl.Spec.Replicas = some m) :
    (∃ rs, (replicantStatus E M s i).1 = .ok rs)
      ∧ (replicantStatus E M s i).2.Status.CoreNodesStatus = i.Status.CoreNodesStatus
      ∧ (replicantStatus E M s i).2.Status.nodeLists = i.Status.nodeLists
      ∧ (M.isExistReplicant i = true → ∀ tmpl m, i.Spec.ReplicantTemplate = some tmpl →
          tmpl.Spec.Replicas = some m →
          (replicantStatus E M s i).2.Status.ReplicantNodesStatus
            = some { i.Status.ReplicantNodesStatus.getD {} with Replicas := m })
      ∧ (M.isExistReplicant i = false → (replicantStatus E M s i).2 = i) := by
  unfold replicantStatus
  by_cases h : M.isExistReplicant i = true
  · obtain ⟨tmpl, m, ht, hm⟩ := hrepl h
    rw [if_pos h]
    dsimp only
    rw [ht]
    dsimp only
    rw [hm]
    dsimp only
    refine ⟨⟨_, rfl⟩, rfl, ?_, ?_, ?_⟩
    · unfold EMQXStatus.nodeLists
      cases i.Status.ReplicantNodesStatus <;> rfl
    · intro _ tmpl1 m1 ht1 hm1
      have := Option.some.inj ht1
      subst this
      rw [hm] at hm1
      have := Option.some.inj hm1
      subst this
      rfl
    · intro hf
      rw [h] at hf
      exact absurd hf (by decide)
  · rw [if_neg h]
    refine ⟨⟨_, rfl⟩, rfl, rfl, fun hh => absurd hh h, fun _ => rfl⟩

theorem updateStatus_reconcile_ok (E : Env) (M : StatusEnv) (s : Store) (inst : EMQX)
    (r : Option Requester) (n : Int) (rs : ReplicaSet) (inst3 : EMQX)
    (events : List RecordedEvent) (calls : List BrokerCall)
    (hcore : inst.Spec.CoreTemplate.Spec.Replicas = some n)
    (hrs : (replicantStatus E M s (withCoreReplicas inst n)).1 = .ok rs)
    (hfetch : fetchNodes M (replicantStatus E M s (withCoreReplicas inst n)).2 r
      = (.ok inst3, events, calls)) :
    (updateStatus.reconcile E M s inst r).emqx
        = M.NextStatus inst3 (existedStatefulSet E s inst) rs
      ∧ (updateStatus.reconcile E M s inst r).events = events
      ∧ (updateStatus.reconcile E M s inst r).calls = calls
      ∧ (updateStatus.reconcile E M s inst r).store
          = (Store.updateStatus E s (M.NextStatus inst3 (existedStatefulSet E s inst) rs)).2
      ∧ (updateStatus.reconcile E M s inst r).result
          = .ok (subResult.mk
              ((Store.updateStatus E s
                (M.NextStatus inst3 (existedStatefulSet E s inst) rs)).1.map
                  (fun e => GoError.wrap e "failed to update status")) {}) := by
  have hpair : replicantStatus E M s (withCoreReplicas inst n)
      = (.ok rs, (replicantStatus E M s (withCoreReplicas inst n)).2) := by
    rw [← hrs]
  unfold updateStatus.reconcile
  dsimp only
  rw [hcore]
  dsimp only
  rw [hpair]
  dsimp only
  rw [hfetch]
  dsimp only
  cases hw : Store.updateStatus E s (M.NextStatus inst3 (existedStatefulSet E s inst) rs) with
  | mk e s1 =>
    cases e with
    | none => exact ⟨rfl, rfl, rfl, rfl, rfl⟩
    | some e => exact ⟨rfl, rfl, rfl, rfl, rfl⟩


theorem Store.updateStatus_accepted (E : Env) (s : Store) (inst : EMQX)
    (h : (Store.updateStatus E s inst).1 = none) :
    (Store.updateStatus E s inst).2.EMQXStatus = some inst.Status := by
  unfold Store.updateStatus at h ⊢
  dsimp only at h ⊢
  split at h
  · simp at h
  · split at h
    · simp at h
    · rfl

/-! ## Replica counts in the status -/

/-- C16: when the core template has a replica count, a configured replicant group has a
template with a replica count, the requester returns a response whenever it returns no
error, and neither `SetNodes` nor `NextStatus` writes a replica count, then
`updateStatus.reconcile` returns, whatever the broker API answered (and without a
requester), and leaves the core replica count of the status equal to the count of the core
template; with a replicant group configured, a missing replicant status is first set to
the empty one, and the replicant replica count ends equal to the count of the replicant
template. This status is the one submitted to the status write. -/
theorem updateStatus_replica_counts (E : Env) (M : StatusEnv) (s : Store) (inst : EMQX)
    (r : Option Requester) (n : Int)
    (hcore : inst.Spec.CoreTemplate.Spec.Replicas = some n)
    (hrepl : M.isExistReplicant (withCoreReplicas inst n) = true →
      ∃ tmpl m, inst.Spec.ReplicantTemplate = some tmpl ∧ tmpl.Spec.Replicas = some m)
    (hresp : ∀ q, r = some q → (q.Request "GET" "api/v5/nodes" none).err = none →
      (q.Request "GET" "api/v5/nodes" none).resp ≠ none)
    (hset : ∀ st nodes,
      (M.SetNodes st nodes).CoreNodesStatus.Replicas = st.CoreNodesStatus.Replicas
        ∧ (M.SetNodes st nodes).replicantReplicas = st.replicantReplicas)
    (hnext : ∀ i sts rs,
      (M.NextStatus i sts rs).Status.CoreNodesStatus.Replicas = i.Status.CoreNodesStatus.Replicas
        ∧ (M.NextStatus i sts rs).Status.replicantReplicas = i.Status.replicantReplicas) :
    (∃ res, (updateStatus.reconcile E M s inst r).result = .ok res)
      ∧ (updateStatus.reconcile E M s inst r).emqx.Status.CoreNodesStatus.Replicas = n
      ∧ (M.isExistReplicant (withCoreReplicas inst n) = true →
          ∀ tmpl m, inst.Spec.ReplicantTemplate = some tmpl → tmpl.Spec.Replicas = some m →
            (replicantStatus E M s (withCoreReplicas inst n)).2.Status.ReplicantNodesStatus
                = some { inst.Status.ReplicantNodesStatus.getD {} with Replicas := m }
              ∧ (updateStatus.reconcile E M s inst r).emqx.Status.replicantReplicas = some m)
      ∧ (updateStatus.reconcile E M s inst r).store.Requests
          = s.Requests ++ [.updateStatus (updateStatus.reconcile E M s inst r).emqx.Status] := by
  obtain ⟨⟨rs, hrs⟩, hcoreSt, -, hconf, -⟩ :=
    replicantStatus_ok E M s (withCoreReplicas inst n) hrepl
  obtain ⟨inst3, events, calls, hfetch, hshape⟩ :=
    fetchNodes_shape M (replicantStatus E M s (withCoreReplicas inst n)).2 r hresp
  obtain ⟨hemqx, -, -, hstore, hres⟩ :=
    updateStatus_reconcile_ok E M s inst r n rs inst3 events calls hcore hrs hfetch
  have h3core : inst3.Status.CoreNodesStatus.Replicas = n := by
    rcases hshape with h | ⟨nodes, h⟩
    · rw [h, hcoreSt]
      rfl
    · rw [h]
      show (M.SetNodes _ nodes).CoreNodesStatus.Replicas = n
      rw [(hset _ nodes).1, hcoreSt]
      rfl
  have h3repl : inst3.Status.replicantReplicas
      = (replicantStatus E M s (withCoreReplicas inst n)).2.Status.replicantReplicas := by
    rcases hshape with h | ⟨nodes, h⟩
    · rw [h]
    · rw [h]
      exact (hset _ nodes).2
  refine ⟨⟨_, hres⟩, ?_, ?_, ?_⟩
  · rw [hemqx, (hnext _ _ _).1]
    exact h3core
  · intro hc tmpl m ht hm
    have hst := hconf hc tmpl m ht hm
    refine ⟨hst, ?_⟩
    rw [hemqx, (hnext _ _ _).2, h3repl]
    unfold EMQXStatus.replicantReplicas
    rw [hst]
    rfl
  · rw [hstore, Store.updateStatus_requests, hemqx]

/-- C16, on a cluster: the core template asks for two replicas and the replicant template
for four, the status reports one core replica and has no replicant part; the broker API
answers 500. The pass returns; the status ends with two core replicas and a replicant part
with four. It ends the same way when the broker API answers with a node list, and without a
requester. -/
theorem updateStatus_replica_counts_witness :
    (∃ res, (updateStatus.reconcile refEnv refStatusEnv statusStore (statusEMQX [])
        (some (respondingRequester 500 "500 Internal Server Error" "oops"))).result = .ok res)
      ∧ (updateStatus.reconcile refEnv refStatusEnv statusStore (statusEMQX [])
          (some (respondingRequester 500 "500 Internal Server Error"
            "oops"))).emqx.Status.CoreNodesStatus.Replicas = 2
      ∧ (updateStatus.reconcile refEnv refStatusEnv statusStore (statusEMQX [])
          (some (respondingRequester 500 "500 Internal Server Error"
            "oops"))).emqx.Status.ReplicantNodesStatus = some { Replicas := 4 }
      ∧ (updateStatus.reconcile refEnv refStatusEnv statusStore (statusEMQX [])
          (some (respondingRequester 200 "200 OK" oneNodeBody))).emqx.Status.CoreNodesStatus
          = { Nodes := [{ Node := "emqx@10.0.0.1", Edition := "Enterprise", Session := 3 }]
              Replicas := 2, CurrentRevision := "core-1" }
      ∧ (updateStatus.reconcile refEnv refStatusEnv statusStore (statusEMQX [])
          (some (respondingRequester 200 "200 OK" oneNodeBody))).emqx.Status.ReplicantNodesStatus
          = some { Replicas := 4 }
      ∧ (updateStatus.reconcile refEnv refStatusEnv statusStore (statusEMQX [])
          none).emqx.Status.CoreNodesStatus.Replicas = 2 := by
  have h := updateStatus_replica_counts refEnv refStatusEnv statusStore (statusEMQX [])
    (some (respondingRequester 500 "500 Internal Server Error" "oops")) 2 rfl
    (fun _ => ⟨_, 4, rfl, rfl⟩)
    (fun q hq _ => by cases hq; decide)
    (fun _ _ => ⟨rfl, rfl⟩) (fun _ _ _ => ⟨rfl, rfl⟩)
  exact ⟨h.1, h.2.1, rfl, rfl, rfl, rfl⟩


/-! ## A failed fetch -/

/-- C17: when the requester is nil, or the fetch fails (the requester returns a transport
error, or a response with a status code other than 200, or a body `json.Unmarshal`
rejects), and `NextStatus` does not write the node lists, `updateStatus.reconcile` leaves
the node lists of the status as they were. Without a requester it calls nothing and records
nothing; after a failed fetch it has made the one call and recorded exactly one event, a
warning with reason `FailedToGetNodeStatuses` and the text of the error. Either way the
state machine runs on the observed resources, the status is submitted in one status write
and stored when the server accepts it, and the returned error is the error of that write,
wrapped, and absent when the write succeeds. -/
theorem updateStatus_fetch_failure (E : Env) (M : StatusEnv) (s : Store) (inst : EMQX)
    (r : Option Requester) (n : Int)
    (hcore : inst.Spec.CoreTemplate.Spec.Replicas = some n)
    (hrepl : M.isExistReplicant (withCoreReplicas inst n) = true →
      ∃ tmpl m, inst.Spec.ReplicantTemplate = some tmpl ∧ tmpl.Spec.Replicas = some m)
    (hfail : ∀ q, r = some q →
      (q.Request "GET" "api/v5/nodes" none).err ≠ none
        ∨ ∃ resp, (q.Request "GET" "api/v5/nodes" none).resp = some resp
            ∧ (resp.StatusCode ≠ 200
              ∨ ∃ e, M.Unmarshal (q.Request "GET" "api/v5/nodes" none).body = .error e))
    (hnext : ∀ i sts rs, (M.NextStatus i sts rs).Status.nodeLists = i.Status.nodeLists) :
    (updateStatus.reconcile E M s inst r).emqx.Status.nodeLists = inst.Status.nodeLists
      ∧ (r = none → (updateStatus.reconcile E M s inst r).calls = []
          ∧ (updateStatus.reconcile E M s inst r).events = [])
      ∧ (∀ q, r = some q →
          (updateStatus.reconcile E M s inst r).calls
              = [{ method := "GET", path := "api/v5/nodes", body := none }]
            ∧ ∃ err, (getNodeStatuesByAPI M q).result = .ok (none, some err)
              ∧ (updateStatus.reconcile E M s inst r).events
                  = [{ EventType := "Warning", Reason := "FailedToGetNodeStatuses",
                       Message := GoError.Error err }])
      ∧ (∃ rs, (replicantStatus E M s (withCoreReplicas inst n)).1 = .ok rs
          ∧ (updateStatus.reconcile E M s inst r).emqx
              = M.NextStatus (replicantStatus E M s (withCoreReplicas inst n)).2
                  (existedStatefulSet E s inst) rs)
      ∧ (updateStatus.reconcile E M s inst r).store.Requests
          = s.Requests ++ [.updateStatus (updateStatus.reconcile E M s inst r).emqx.Status]
      ∧ (updateStatus.reconcile E M s inst r).result
          = .ok (subResult.mk
              ((Store.updateStatus E s (updateStatus.reconcile E M s inst r).emqx).1.map
                (fun e => GoError.wrap e "failed to update status")) {})
      ∧ ((Store.updateStatus E s (updateStatus.reconcile E M s inst r).emqx).1 = none →
          (updateStatus.reconcile E M s inst r).store.EMQXStatus
            = some (updateStatus.reconcile E M s inst r).emqx.Status) := by
  obtain ⟨⟨rs, hrs⟩, -, hlists, -, -⟩ :=
    replicantStatus_ok E M s (withCoreReplicas inst n) hrepl
  have hfetch : ∃ events calls,
      fetchNodes M (replicantStatus E M s (withCoreReplicas inst n)).2 r
          = (.ok (replicantStatus E M s (withCoreReplicas inst n)).2, events, calls)
        ∧ (r = none → calls = [] ∧ events = [])
        ∧ (∀ q, r = some q →
            calls = [{ method := "GET", path := "api/v5/nodes", body := none }]
              ∧ ∃ err, (getNodeStatuesByAPI M q).result = .ok (none, some err)
                ∧ events = [{ EventType := "Warning", Reason := "FailedToGetNodeStatuses",
                              Message := GoError.Error err }]) := by
    cases r with
    | none =>
      exact ⟨[], [], rfl, fun _ => ⟨rfl, rfl⟩, fun q hq => by cases hq⟩
    | some q0 =>
      obtain ⟨err, herr⟩ := getNodeStatuesByAPI_failure M q0 (hfail q0 rfl)
      refine ⟨_, _, fetchNodes_failure M _ q0 none err herr, ?_, ?_⟩
      · intro h
        cases h
      · intro q hq
        cases hq
        exact ⟨rfl, err, herr, rfl⟩
  obtain ⟨events, calls, hf, hnone, hsome⟩ := hfetch
  obtain ⟨hemqx, hevents, hcalls, hstore, hres⟩ :=
    updateStatus_reconcile_ok E M s inst r n rs _ events calls hcore hrs hf
  refine ⟨?_, ?_, ?_, ⟨rs, hrs, hemqx⟩, ?_, ?_, ?_⟩
  · rw [hemqx, hnext, hlists]
    rfl
  · intro h
    rw [hcalls, hevents]
    exact hnone h
  · intro q hq
    rw [hcalls, hevents]
    exact hsome q hq
  · rw [hstore, Store.updateStatus_requests, hemqx]
  · rw [hres, hemqx]
  · intro hacc
    rw [hstore]
    rw [hemqx] at hacc ⊢
    exact Store.updateStatus_accepted E s _ hacc

/-- C17, on a cluster whose status lists one core node: the broker API answers 500; the
node lists stay, one warning event is recorded, the status is written and stored, and the
pass returns no error. The same holds when the broker cannot be reached, when the body is
not JSON, and (without an event) when there is no requester; when the server rejects the
status write, the pass returns that error wrapped. -/
theorem updateStatus_fetch_failure_witness :
    (updateStatus.reconcile refEnv refStatusEnv statusStore (statusEMQX [busyEnterpriseNode])
        (some (respondingRequester 500 "500 Internal Server Error" "oops"))).emqx.Status.nodeLists
        = ([busyEnterpriseNode], [])
      ∧ (updateStatus.reconcile refEnv refStatusEnv statusStore (statusEMQX [busyEnterpriseNode])
          (some (respondingRequester 500 "500 Internal Server Error" "oops"))).events
          = [{ EventType := "Warning", Reason := "FailedToGetNodeStatuses"
               Message := "failed to get API api/v5/nodes, status : 500 Internal Server Error, body: oops" }]
      ∧ (updateStatus.reconcile refEnv refStatusEnv statusStore (statusEMQX [busyEnterpriseNode])
          (some (respondingRequester 500 "500 Internal Server Error" "oops"))).result = .ok {}
      ∧ (updateStatus.reconcile refEnv refStatusEnv statusStore (statusEMQX [busyEnterpriseNode])
          (some (respondingRequester 500 "500 Internal Server Error" "oops"))).store.EMQXStatus
          = some (updateStatus.reconcile refEnv refStatusEnv statusStore
              (statusEMQX [busyEnterpriseNode])
              (some (respondingRequester 500 "500 Internal Server Error" "oops"))).emqx.Status
      ∧ (updateStatus.reconcile refEnv refStatusEnv statusStore (statusEMQX [busyEnterpriseNode])
          (some unreachableRequester)).events
          = [{ EventType := "Warning", Reason := "FailedToGetNodeStatuses"
               Message := "failed to get API api/v5/nodes: connection refused" }]
      ∧ ((updateStatus.reconcile refEnv refStatusEnv statusStore (statusEMQX [busyEnterpriseNode])
          (some (respondingRequester 200 "200 OK" "<html>"))).events.map
            (fun e => (e.EventType, e.Reason))) = [("Warning", "FailedToGetNodeStatuses")]
      ∧ (updateStatus.reconcile refEnv refStatusEnv statusStore (statusEMQX [busyEnterpriseNode])
          none).events = []
      ∧ (updateStatus.reconcile refEnv refStatusEnv statusStore (statusEMQX [busyEnterpriseNode])
          none).emqx.Status.nodeLists = ([busyEnterpriseNode], [])
      ∧ (updateStatus.reconcile conflictingStatusEnv refStatusEnv statusStore
          (statusEMQX [busyEnterpriseNode]) (some unreachableRequester)).result
          = .ok { err := some (.wrap (.status .conflict) "failed to update status") } := by
  have h := updateStatus_fetch_failure refEnv refStatusEnv statusStore
    (statusEMQX [busyEnterpriseNode])
    (some (respondingRequester 500 "500 Internal Server Error" "oops")) 2 rfl
    (fun _ => ⟨_, 4, rfl, rfl⟩)
    (fun q hq => by
      cases hq
      exact Or.inr ⟨{ StatusCode := 500, Status := "500 Internal Server Error" }, rfl,
        Or.inl (by decide)⟩)
    (fun _ _ _ => rfl)
  exact ⟨h.1, rfl, rfl, h.2.2.2.2.2.2 rfl, rfl, rfl, rfl, rfl, rfl⟩

/-! ## The node statuses of the broker API -/

/-- C18, counterexample: the broker answers 200 with the body `null`, which is not a JSON
list; `json.Unmarshal` sets the slice to nil and returns no error, so `getNodeStatuesByAPI`
returns neither a list nor an error, and the status pass records no warning event. -/
theorem getNodeStatuesByAPI_accepts_null_body :
    unmarshalNodes "null" = .ok none
      ∧ (getNodeStatuesByAPI refStatusEnv (respondingRequester 200 "200 OK" "null")).result
          = .ok (none, none)
      ∧ (updateStatus.reconcile refEnv refStatusEnv statusStore (statusEMQX [busyEnterpriseNode])
          (some (respondingRequester 200 "200 OK" "null"))).events = [] :=
  ⟨rfl, rfl, rfl⟩

/-- C18, amended: `getNodeStatuesByAPI` makes one call, `GET api/v5/nodes` without a body.
When the requester returns a response whenever it returns no error, the function returns a
pair of a list and an error; the error is set if and only if the requester returned a
transport error, or the status code of the response is not 200, or `json.Unmarshal` rejects
the body; with an error the list is nil, and without one the list is exactly what
`json.Unmarshal` decoded from the body. -/
theorem getNodeStatuesByAPI_error_iff (M : StatusEnv) (r : Requester)
    (hresp : (r.Request "GET" "api/v5/nodes" none).err = none →
      (r.Request "GET" "api/v5/nodes" none).resp ≠ none) :
    (getNodeStatuesByAPI M r).calls = [{ method := "GET", path := "api/v5/nodes", body := none }]
      ∧ ∃ nodes err, (getNodeStatuesByAPI M r).result = .ok (nodes, err)
          ∧ (err ≠ none ↔
              ((r.Request "GET" "api/v5/nodes" none).err ≠ none
                ∨ (∃ resp, (r.Request "GET" "api/v5/nodes" none).resp = some resp
                    ∧ resp.StatusCode ≠ 200)
                ∨ ∃ e, M.Unmarshal (r.Request "GET" "api/v5/nodes" none).body = .error e))
          ∧ (err ≠ none → nodes = none)
          ∧ (err = none → M.Unmarshal (r.Request "GET" "api/v5/nodes" none).body = .ok nodes) := by
  refine ⟨rfl, ?_⟩
  unfold getNodeStatuesByAPI
  dsimp only
  cases herr : (r.Request "GET" "api/v5/nodes" none).err with
  | some e =>
    refine ⟨none, some (.wrap e "failed to get API api/v5/nodes"), rfl, ?_, fun _ => rfl, ?_⟩
    · exact ⟨fun _ => Or.inl (by simp), fun _ => by simp⟩
    · intro h
      simp at h
  | none =>
    cases hr : (r.Request "GET" "api/v5/nodes" none).resp with
    | none => exact absurd hr (hresp herr)
    | some resp =>
      dsimp only
      by_cases hc : resp.StatusCode ≠ 200
      · rw [if_pos hc]
        refine ⟨none, _, rfl, ?_, fun _ => rfl, ?_⟩
        · exact ⟨fun _ => Or.inr (Or.inl ⟨resp, rfl, hc⟩), fun _ => by simp⟩
        · intro h
          simp at h
      · rw [if_neg hc]
        cases hu : M.Unmarshal (r.Request "GET" "api/v5/nodes" none).body with
        | error e =>
          refine ⟨none, _, rfl, ?_, fun _ => rfl, ?_⟩
          · exact ⟨fun _ => Or.inr (Or.inr ⟨e, rfl⟩), fun _ => by simp⟩
          · intro h
            simp at h
        | ok nodes =>
          refine ⟨nodes, none, rfl, ?_, fun h => absurd rfl h, fun _ => rfl⟩
          constructor
          · intro h
            exact absurd rfl h
          · rintro (h | ⟨resp1, h1, h2⟩ | ⟨e, he⟩)
            · exact absurd rfl h
            · have := Option.some.inj h1
              subst this
              exact absurd h2 hc
            · simp at he

/-- C18, on the reference broker: a body with one node record gives that node and no error,
an empty JSON list gives an empty list and no error; a 500, an unreachable broker, a body
that is not JSON, a JSON object and a record whose session is a string each give an error
and no list. -/
theorem getNodeStatuesByAPI_error_iff_witness :
    (getNodeStatuesByAPI refStatusEnv (respondingRequester 200 "200 OK" oneNodeBody)).calls
        = [{ method := "GET", path := "api/v5/nodes", body := none }]
      ∧ (getNodeStatuesByAPI refStatusEnv (respondingRequester 200 "200 OK" oneNodeBody)).result
          = .ok (some [{ Node := "emqx@10.0.0.1", Edition := "Enterprise", Session := 3 }], none)
      ∧ (getNodeStatuesByAPI refStatusEnv (respondingRequester 200 "200 OK" "[]")).result
          = .ok (some [], none)
      ∧ (getNodeStatuesByAPI refStatusEnv
          (respondingRequester 500 "500 Internal Server Error" "[]")).result
          = .ok (none, some (.message
              "failed to get API api/v5/nodes, status : 500 Internal Server Error, body: []"))
      ∧ (getNodeStatuesByAPI refStatusEnv unreachableRequester).result
          = .ok (none, some (.wrap (.message "connection refused")
              "failed to get API api/v5/nodes"))
      ∧ (getNodeStatuesByAPI refStatusEnv (respondingRequester 200 "200 OK" "<html>")).result
          = .ok (none, some (.wrap (.message "invalid character looking for beginning of value")
              "failed to unmarshal node statuses"))
      ∧ (getNodeStatuesByAPI refStatusEnv (respondingRequester 200 "200 OK" "\x7b\x7d")).result
          = .ok (none, some (.wrap (.message
              "json: cannot unmarshal object into Go value of type []v2alpha2.EMQXNode")
              "failed to unmarshal node statuses"))
      ∧ (getNodeStatuesByAPI refStatusEnv
          (respondingRequester 200 "200 OK" "[\x7b\"session\":\"3\"\x7d]")).result
          = .ok (none, some (.wrap (.message
              "json: cannot unmarshal string into Go value of type int64")
              "failed to unmarshal node statuses")) := by
  have h := getNodeStatuesByAPI_error_iff refStatusEnv
    (respondingRequester 200 "200 OK" oneNodeBody) (fun _ => by decide)
  exact ⟨h.1, rfl, rfl, rfl, rfl, rfl, rfl, rfl⟩


/-! ## The validating webhook -/

/-- C19: whatever `reflect.DeepEqual` is, for a new and an old broker object `ValidateUpdate`
returns, and returns an error if and only if `reflect.DeepEqual` reports the volume claim
templates of the new object and of the old one as not deeply equal; the error is the
refusal to update them. An update that leaves the volume claim templates as they are, a
value deeply equal to itself, is accepted whatever else it changes, and `ValidateCreate` and
`ValidateDelete` return no error for every object. -/
theorem ValidateUpdate_error_iff (V : ValidatorEnv) (new old : EmqxBroker) :
    (∃ err, ValidateUpdate V new (.emqxBroker (some old)) = .ok err
        ∧ (err ≠ none ↔ V.DeepEqual new.VolumeClaimTemplates old.VolumeClaimTemplates = false)
        ∧ (err ≠ none → err = some (.message "refuse to update VolumeClaimTemplates ")))
      ∧ (new.VolumeClaimTemplates = old.VolumeClaimTemplates →
          V.DeepEqual old.VolumeClaimTemplates old.VolumeClaimTemplates = true →
          ValidateUpdate V new (.emqxBroker (some old)) = .ok none)
      ∧ ValidateCreate new = none
      ∧ ValidateDelete new = none := by
  have hcases : ∀ b : Bool, V.DeepEqual new.VolumeClaimTemplates old.VolumeClaimTemplates = b →
      ValidateUpdate V new (.emqxBroker (some old))
        = .ok (if b then none else some (.message "refuse to update VolumeClaimTemplates ")) := by
    intro b hb
    unfold ValidateUpdate validateVolumeClaimTemplates
    dsimp only
    rw [hb]
    cases b <;> rfl
  refine ⟨?_, ?_, rfl, rfl⟩
  · cases hb : V.DeepEqual new.VolumeClaimTemplates old.VolumeClaimTemplates with
    | true =>
      refine ⟨none, hcases true hb, ?_, fun h => absurd rfl h⟩
      exact ⟨fun h => absurd rfl h, fun h => by simp at h⟩
    | false =>
      refine ⟨_, hcases false hb, ?_, fun _ => rfl⟩
      exact ⟨fun _ => rfl, fun _ => by simp⟩
  · intro h hrefl
    rw [hcases true (by rw [h]; exact hrefl)]
    rfl

/-- C19, on a broker object compared as `reflect.DeepEqual` compares Go values: changing
replicas, image, labels and configuration with the same volume claim template is accepted,
and so is a template whose label map lists its entries in another order; raising the storage
request is refused, setting only the volume mode is refused, and replacing a nil list of
templates by an empty one is refused, since the two are not deeply equal. -/
theorem ValidateUpdate_error_iff_witness :
    ValidateUpdate refValidatorEnv
        { sampleBroker 1073741824 with
          Replicas := some 5, Image := "emqx/emqx:4.4.9", Labels := none
          EmqxConfig := some [("log.to", "console")] }
        (.emqxBroker (some (sampleBroker 1073741824))) = .ok none
      ∧ ValidateUpdate refValidatorEnv
          { sampleBroker 1073741824 with
            VolumeClaimTemplates := some
              [sampleClaim claimLabelsReordered (binaryQuantity 1073741824) .nilPointer] }
          (.emqxBroker (some (sampleBroker 1073741824))) = .ok none
      ∧ ValidateUpdate refValidatorEnv (sampleBroker 2147483648)
          (.emqxBroker (some (sampleBroker 1073741824)))
          = .ok (some (.message "refuse to update VolumeClaimTemplates "))
      ∧ ValidateUpdate refValidatorEnv
          { sampleBroker 1073741824 with
            VolumeClaimTemplates := some
              [sampleClaim claimLabels (binaryQuantity 1073741824)
                (.pointer (.string "Filesystem"))] }
          (.emqxBroker (some (sampleBroker 1073741824)))
          = .ok (some (.message "refuse to update VolumeClaimTemplates "))
      ∧ ValidateUpdate refValidatorEnv
          { sampleBroker 1073741824 with VolumeClaimTemplates := some [] }
          (.emqxBroker (some { sampleBroker 1073741824 with VolumeClaimTemplates := none }))
          = .ok (some (.message "refuse to update VolumeClaimTemplates "))
      ∧ ValidateCreate (sampleBroker 1073741824) = none
      ∧ ValidateDelete (sampleBroker 1073741824) = none := by
  have h := ValidateUpdate_error_iff refValidatorEnv
    { sampleBroker 1073741824 with
      Replicas := some 5, Image := "emqx/emqx:4.4.9", Labels := none
      EmqxConfig := some [("log.to", "console")] }
    (sampleBroker 1073741824)
  exact ⟨h.2.1 rfl rfl, rfl, rfl, rfl, rfl, h.2.2.1, rfl⟩

/-! ## The generated replica set -/

/-- C24: for a cluster object with a replicant template, `generateReplicaSet` returns a
replica set whose containers are the broker container, named `DefaultContainerName` and
running the image of the cluster, followed by the extra containers in order; the
environment of the broker container is `EMQX_NODE__DB_ROLE=replicant`, `EMQX_HOST`,
`EMQX_NODE__COOKIE` and `EMQX_API_KEY__BOOTSTRAP_FILE` followed by the variables of the
user in order; its volume mounts are the four built-in ones followed by those of the user,
and each of the four built-in mounts names a volume of the pod, whose volumes are the four
built-in ones followed by those of the user. -/
theorem generateReplicaSet_self_consistent (E : Env) (inst : EMQX)
    (tmpl : EMQXReplicantTemplate)
    (htmpl : inst.Spec.ReplicantTemplate = some tmpl) :
    ∃ generated broker, generateReplicaSet E inst = .ok generated
      ∧ generated.Spec.Template.Spec.Containers = broker :: tmpl.Spec.ExtraContainers
      ∧ broker.Name = E.DefaultContainerName
      ∧ broker.Image = inst.Spec.Image
      ∧ broker.Env
          = [ { Name := "EMQX_NODE__DB_ROLE", Value := "replicant" },
              { Name := "EMQX_HOST", ValueFrom := some (.FieldRef "status.podIP") },
              { Name := "EMQX_NODE__COOKIE",
                ValueFrom := some (.SecretKeyRef (E.NodeCookieName inst) "node_cookie") },
              { Name := "EMQX_API_KEY__BOOTSTRAP_FILE",
                Value := "\"/opt/emqx/data/bootstrap_user\"" } ]
            ++ tmpl.Spec.Env
      ∧ broker.VolumeMounts.map (fun m => m.Name)
          = ["bootstrap-user", "bootstrap-config", tmpl.Name ++ "-log", tmpl.Name ++ "-data"]
            ++ tmpl.Spec.ExtraVolumeMounts.map (fun m => m.Name)
      ∧ generated.Spec.Template.Spec.Volumes.map (fun v => v.Name)
          = ["bootstrap-user", "bootstrap-config", tmpl.Name ++ "-log", tmpl.Name ++ "-data"]
            ++ tmpl.Spec.ExtraVolumes.map (fun v => v.Name)
      ∧ ∀ m ∈ broker.VolumeMounts.take 4,
          ∃ v ∈ generated.Spec.Template.Spec.Volumes, v.Name = m.Name := by
  unfold generateReplicaSet
  rw [htmpl]
  refine ⟨_, _, rfl, rfl, rfl, rfl, rfl, rfl, rfl, ?_⟩
  intro m hm
  simp only [List.cons_append, List.nil_append, List.take_succ_cons, List.take_zero,
    List.mem_cons, List.mem_singleton, List.not_mem_nil, or_false] at hm
  rcases hm with h | h | h | h
  · exact ⟨{ Name := "bootstrap-user", VolumeSource := .Secret (E.BootstrapUserName inst) },
      by simp, by rw [h]⟩
  · exact ⟨{ Name := "bootstrap-config", VolumeSource := .ConfigMap (E.BootstrapConfigName inst) },
      by simp, by rw [h]⟩
  · exact ⟨{ Name := tmpl.Name ++ "-log", VolumeSource := .EmptyDir }, by simp, by rw [h]⟩
  · exact ⟨{ Name := tmpl.Name ++ "-data", VolumeSource := .EmptyDir }, by simp, by rw [h]⟩

/-- C24, on a cluster with a sidecar container, one variable and one mounted volume of the
user: the broker container comes first and the sidecar second, the variable of the user
is the fifth, and the mounts and the volumes carry the same names in the same order. -/
theorem generateReplicaSet_self_consistent_witness :
    (∃ generated broker, generateReplicaSet refEnv sidecarEMQX = .ok generated
      ∧ generated.Spec.Template.Spec.Containers = broker :: sidecarSpec.ExtraContainers
      ∧ broker.Name = "emqx"
      ∧ broker.Image = "emqx:5.0"
      ∧ broker.Env.map (fun e => e.Name)
          = ["EMQX_NODE__DB_ROLE", "EMQX_HOST", "EMQX_NODE__COOKIE",
             "EMQX_API_KEY__BOOTSTRAP_FILE", "EMQX_LOG__LEVEL"]
      ∧ broker.VolumeMounts.map (fun m => m.Name)
          = ["bootstrap-user", "bootstrap-config", "emqx-replicant-log", "emqx-replicant-data",
             "plugins"]
      ∧ generated.Spec.Template.Spec.Volumes.map (fun v => v.Name)
          = ["bootstrap-user", "bootstrap-config", "emqx-replicant-log", "emqx-replicant-data",
             "plugins"])
      ∧ (generateReplicaSet refEnv sidecarEMQX).toOption.map
          (fun rs => rs.Spec.Template.Spec.Containers.map (fun c => (c.Name, c.Image)))
          = some [("emqx", "emqx:5.0"), ("exporter", "emqx/exporter:0.1")] := by
  obtain ⟨generated, broker, h1, h2, h3, h4, h5, h6, h7, -⟩ :=
    generateReplicaSet_self_consistent refEnv sidecarEMQX
      { Name := "emqx-replicant"
        Labels := [("apps.emqx.io/db-role", "replicant")]
        Spec := sidecarSpec } rfl
  refine ⟨⟨generated, broker, h1, h2, h3, h4, ?_, h6, h7⟩, rfl⟩
  rw [h5]
  rfl


/-! ## The selector of the candidate -/

theorem GoMap.get_of_mem (m : GoMap) (k v : String) (hnodup : (m.map Prod.fst).Nodup)
    (hmem : (k, v) ∈ m) : GoMap.get m k = some v := by
  induction m with
  | nil => simp at hmem
  | cons kv rest ih =>
    obtain ⟨k', v'⟩ := kv
    rw [List.map_cons, List.nodup_cons] at hnodup
    rcases List.mem_cons.mp hmem with h | h
    · have hk : k = k' := congrArg Prod.fst h
      have hv : v = v' := congrArg Prod.snd h
      subst hk
      subst hv
      simp [GoMap.get, List.lookup]
    · have hne : k ≠ k' := by
        intro hk
        subst hk
        exact hnodup.1 (List.mem_map.mpr ⟨(k, v), h, rfl⟩)
      have hb : (k == k') = false := by
        rw [beq_eq_false_iff_ne]
        exact hne
      have := ih hnodup.2 h
      unfold GoMap.get at this ⊢
      rw [List.lookup_cons, hb]
      exact this

theorem GoMap.keys_set (m : GoMap) (k v : String) :
    (GoMap.set m k v).map Prod.fst
      = if k ∈ m.map Prod.fst then m.map Prod.fst else m.map Prod.fst ++ [k] := by
  induction m with
  | nil => simp [GoMap.set]
  | cons kv rest ih =>
    obtain ⟨k', v'⟩ := kv
    unfold GoMap.set
    by_cases h : k' = k
    · subst h
      simp
    · rw [if_neg h, List.map_cons, ih]
      have hne : ¬ k = k' := fun hk => h hk.symm
      by_cases hin : k ∈ rest.map Prod.fst
      · simp [hin]
      · simp [hin, hne]

theorem GoMap.nodup_set (m : GoMap) (k v : String) (hnodup : (m.map Prod.fst).Nodup) :
    ((GoMap.set m k v).map Prod.fst).Nodup := by
  rw [GoMap.keys_set]
  by_cases hin : k ∈ m.map Prod.fst
  · rw [if_pos hin]
    exact hnodup
  · rw [if_neg hin]
    rw [List.nodup_append]
    refine ⟨hnodup, List.nodup_singleton k, ?_⟩
    intro a ha hb
    rw [List.mem_singleton] at hb
    subst hb
    exact hin ha

theorem matchesLabels_self (m : GoMap) (hnodup : (m.map Prod.fst).Nodup) :
    matchesLabels m m = true := by
  unfold matchesLabels
  rw [List.all_eq_true]
  intro kv hkv
  rw [decide_eq_true_eq]
  exact GoMap.get_of_mem m kv.1 kv.2 hnodup hkv

/-- C22: for a cluster object with a replicant template and a replicant status, when no
existing replica set matches (there is no current replica set, or the `justCheckPodTemplate`
patch against it is not empty), `getNewReplicaSet` returns a replica set whose selector has
match-labels equal to the labels of its pod template; both are the labels of the replicant
template with the pod-template-hash label added; and, the labels being a map (no key
twice), the selector matches the labels of the pod template. -/
theorem getNewReplicaSet_selector_matches_template (E : Env) (s : Store) (inst : EMQX)
    (tmpl : EMQXReplicantTemplate) (st : EMQXNodesStatus)
    (htmpl : inst.Spec.ReplicantTemplate = some tmpl)
    (hst : inst.Status.ReplicantNodesStatus = some st)
    (hnomatch : ∀ cur generated, (E.getReplicaSetList s inst).1 = some cur →
      generateReplicaSet E inst = .ok generated →
      E.Calculate cur (hashedReplicaSet E generated st.CollisionCount)
        [.justCheckPodTemplate] = false) :
    ∃ rs selector generated, getNewReplicaSet E s inst = .ok rs
      ∧ generateReplicaSet E inst = .ok generated
      ∧ rs.Spec.Selector = some selector
      ∧ selector.MatchLabels = rs.Spec.Template.ObjectMeta.Labels
      ∧ rs.Spec.Template.ObjectMeta.Labels
          = CloneAndAddLabel tmpl.Labels E.PodTemplateHashLabelKey
              (E.computeHash generated.Spec.Template st.CollisionCount)
      ∧ ((tmpl.Labels.map Prod.fst).Nodup →
          matchesLabels selector.MatchLabels rs.Spec.Template.ObjectMeta.Labels = true) := by
  have hgen : ∃ generated, generateReplicaSet E inst = .ok generated := by
    unfold generateReplicaSet
    rw [htmpl]
    exact ⟨_, rfl⟩
  obtain ⟨generated, hgen⟩ := hgen
  obtain ⟨tmpl', htmpl', -, -, -, -, hlabels, hsel, -, -⟩ :=
    generateReplicaSet_ok E inst generated hgen
  have htt : tmpl' = tmpl := by
    rw [htmpl] at htmpl'
    exact (Option.some.inj htmpl').symm
  subst htt
  have hrs := getNewReplicaSet_no_match E s inst generated st hgen hst
    (fun cur hcur => hnomatch cur generated hcur hgen)
  have htl : (hashedReplicaSet E generated st.CollisionCount).Spec.Template.ObjectMeta.Labels
      = CloneAndAddLabel tmpl'.Labels E.PodTemplateHashLabelKey
          (E.computeHash generated.Spec.Template st.CollisionCount) := by
    unfold hashedReplicaSet
    dsimp only
    rw [hlabels]
  have hsl : (hashedReplicaSet E generated st.CollisionCount).Spec.Selector
      = some (LabelSelector.mk (CloneAndAddLabel tmpl'.Labels E.PodTemplateHashLabelKey
          (E.computeHash generated.Spec.Template st.CollisionCount))) := by
    unfold hashedReplicaSet
    dsimp only
    rw [hsel]
    rfl
  refine ⟨_, _, generated, hrs, hgen, hsl, ?_, htl, ?_⟩
  · rw [htl]
  · intro hnodup
    rw [htl]
    exact matchesLabels_self _ (GoMap.nodup_set _ _ _ hnodup)

/-- C22, on the sample cluster in an empty store: the selector and the pod template of the
candidate both carry the role label and the hash label, and the selector matches the
template. -/
theorem getNewReplicaSet_selector_matches_template_witness :
    ∃ rs selector, getNewReplicaSet refEnv {} (sampleEMQX [] "" none) = .ok rs
      ∧ rs.Spec.Selector = some selector
      ∧ selector.MatchLabels = rs.Spec.Template.ObjectMeta.Labels
      ∧ rs.Spec.Template.ObjectMeta.Labels
          = [("apps.emqx.io/db-role", "replicant"), ("apps.emqx.io/pod-template-hash", "emqx:5.0")]
      ∧ matchesLabels selector.MatchLabels rs.Spec.Template.ObjectMeta.Labels = true := by
  obtain ⟨rs, selector, generated, h1, h2, h3, h4, h5, h6⟩ :=
    getNewReplicaSet_selector_matches_template refEnv {} (sampleEMQX [] "" none)
      { Name := "emqx-replicant"
        Labels := [("apps.emqx.io/db-role", "replicant")]
        Spec := { Replicas := some 3 } }
      { Nodes := [], Replicas := 3, CurrentRevision := "", CollisionCount := none }
      rfl rfl (fun cur generated hcur _ => by cases hcur)
  have hg : generated = sampleGenerated := by
    have : generateReplicaSet refEnv (sampleEMQX [] "" none) = .ok sampleGenerated := rfl
    rw [this] at h2
    exact (Except.ok.inj h2).symm
  subst hg
  exact ⟨rs, selector, h1, h3, h4, h5, h6 (by decide)⟩


/-! ## The sign of the desired count -/

/-- C23 (code defect): the oldest superseded replica set desires one replica and reports
none, while its pod is still listed and correlated to an idle node. The evacuation policy
selects the pod and `sync` submits an update with a desired count of minus one; an API
server that accepts every write stores it, and one that validates the count rejects the
update, so that `sync` returns an error. -/
theorem sync_writes_negative_count :
    (refEnv.getReplicaSetList (rollingStore 1 0 [idleEnterpriseNode])
        (sampleEMQX [idleEnterpriseNode] "emqx:5.0" none)).2.map
          (fun rs => (rs.Spec.Replicas, rs.Status.Replicas)) = [(some 1, 0)]
      ∧ findCanBeDeletePod refEnv (rollingStore 1 0 [idleEnterpriseNode])
          (sampleEMQX [idleEnterpriseNode] "emqx:5.0" none) (supersededRs 1 0)
          = .ok (some supersededPod)
      ∧ (sync refEnv (rollingStore 1 0 [idleEnterpriseNode])
          (sampleEMQX [idleEnterpriseNode] "emqx:5.0" none)).2.Requests
          = [.patchPod "default" "emqx-replicant-old-x7k2p" [],
             .updateReplicaSet (scaledDown (supersededRs 1 0))]
      ∧ (scaledDown (supersededRs 1 0)).Spec.Replicas = some (-1)
      ∧ (sync refEnv (rollingStore 1 0 [idleEnterpriseNode])
          (sampleEMQX [idleEnterpriseNode] "emqx:5.0" none)).1 = .ok none
      ∧ (sync refEnv (rollingStore 1 0 [idleEnterpriseNode])
          (sampleEMQX [idleEnterpriseNode] "emqx:5.0" none)).2.ReplicaSets.map
            (fun rs => rs.Spec.Replicas) = [some (-1), some 3]
      ∧ (sync validatingEnv (rollingStore 1 0 [idleEnterpriseNode])
          (sampleEMQX [idleEnterpriseNode] "emqx:5.0" none)).1
          = .ok (some (.wrap (.status .invalid) "failed to scale down old replicaSet"))
      ∧ (sync validatingEnv (rollingStore 1 0 [idleEnterpriseNode])
          (sampleEMQX [idleEnterpriseNode] "emqx:5.0" none)).2.ReplicaSets.map
            (fun rs => rs.Spec.Replicas) = [some 1, some 3] := by
  refine ⟨rfl, rfl, rfl, rfl, rfl, rfl, rfl, rfl⟩


/-! ## Lemmas on map defaults -/

theorem GoMap.get_set_other (m : GoMap) (k k' v : String) (h : k ≠ k') :
    GoMap.get (GoMap.set m k' v) k = GoMap.get m k := by
  induction m with
  | nil =>
    have hb : (k == k') = false := by
      rw [beq_eq_false_iff_ne]
      exact h
    simp [GoMap.set, GoMap.get, List.lookup, hb]
  | cons kv rest ih =>
    obtain ⟨k0, v0⟩ := kv
    unfold GoMap.set
    by_cases h0 : k0 = k'
    · subst h0
      rw [if_pos rfl]
      have hb : (k == k0) = false := by
        rw [beq_eq_false_iff_ne]
        exact h
      unfold GoMap.get
      rw [List.lookup_cons, List.lookup_cons, hb]
    · rw [if_neg h0]
      unfold GoMap.get at ih ⊢
      rw [List.lookup_cons, List.lookup_cons, ih]

theorem setIfAbsent_get_some (m : GoMap) (kv : String × String) (k v : String)
    (h : GoMap.get m k = some v) : GoMap.get (setIfAbsent m kv) k = some v := by
  unfold setIfAbsent
  cases hk : GoMap.get m kv.1 with
  | some w => exact h
  | none =>
    dsimp only
    have hne : k ≠ kv.1 := by
      intro he
      rw [he, hk] at h
      cases h
    rw [GoMap.get_set_other m k kv.1 kv.2 hne]
    exact h

theorem setIfAbsent_get_self (m : GoMap) (kv : String × String) :
    (GoMap.get (setIfAbsent m kv) kv.1).isSome = true := by
  unfold setIfAbsent
  cases hk : GoMap.get m kv.1 with
  | some w =>
    dsimp only
    rw [hk]
    rfl
  | none =>
    dsimp only
    rw [GoMap.get_set_same]
    rfl

theorem setIfAbsent_get_other (m : GoMap) (kv : String × String) (k : String)
    (h : k ≠ kv.1) : GoMap.get (setIfAbsent m kv) k = GoMap.get m k := by
  unfold setIfAbsent
  cases hk : GoMap.get m kv.1 with
  | some w => rfl
  | none => exact GoMap.get_set_other m k kv.1 kv.2 h

theorem foldl_setIfAbsent_get_some (l : GoMap) (m : GoMap) (k v : String)
    (h : GoMap.get m k = some v) : GoMap.get (l.foldl setIfAbsent m) k = some v := by
  induction l generalizing m with
  | nil => exact h
  | cons kv rest ih =>
    rw [List.foldl_cons]
    exact ih _ (setIfAbsent_get_some m kv k v h)

theorem foldl_setIfAbsent_present (l : GoMap) (m : GoMap) (k : String)
    (h : k ∈ l.map Prod.fst) : (GoMap.get (l.foldl setIfAbsent m) k).isSome = true := by
  induction l generalizing m with
  | nil => simp at h
  | cons kv rest ih =>
    rw [List.foldl_cons]
    rw [List.map_cons, List.mem_cons] at h
    rcases h with h | h
    · subst h
      have hs := setIfAbsent_get_self m kv
      cases hq : GoMap.get (setIfAbsent m kv) kv.1 with
      | none =>
        rw [hq] at hs
        cases hs
      | some w =>
        rw [foldl_setIfAbsent_get_some rest _ kv.1 w hq]
        rfl
    · exact ih _ h

theorem foldl_setIfAbsent_default (l : GoMap) (m : GoMap) (k v : String)
    (hnodup : (l.map Prod.fst).Nodup) (hmem : (k, v) ∈ l) (hnone : GoMap.get m k = none) :
    GoMap.get (l.foldl setIfAbsent m) k = some v := by
  induction l generalizing m with
  | nil => simp at hmem
  | cons kv rest ih =>
    rw [List.foldl_cons]
    rw [List.map_cons, List.nodup_cons] at hnodup
    rcases List.mem_cons.mp hmem with h | h
    · subst h
      apply foldl_setIfAbsent_get_some
      unfold setIfAbsent
      dsimp only
      rw [hnone]
      exact GoMap.get_set_same m k v
    · have hne : k ≠ kv.1 := by
        intro he
        exact hnodup.1 (List.mem_map.mpr ⟨(k, v), h, he⟩)
      apply ih _ hnodup.2 h
      rw [setIfAbsent_get_other m kv k hne]
      exact hnone

theorem foldl_setIfAbsent_other (l : GoMap) (m : GoMap) (k : String)
    (h : k ∉ l.map Prod.fst) : GoMap.get (l.foldl setIfAbsent m) k = GoMap.get m k := by
  induction l generalizing m with
  | nil => rfl
  | cons kv rest ih =>
    rw [List.foldl_cons]
    rw [List.map_cons, List.mem_cons, not_or] at h
    rw [ih _ h.2, setIfAbsent_get_other m kv k h.1]

theorem foldl_setIfAbsent_fixed (l : GoMap) (m : GoMap)
    (h : ∀ k ∈ l.map Prod.fst, (GoMap.get m k).isSome = true) :
    l.foldl setIfAbsent m = m := by
  induction l with
  | nil => rfl
  | cons kv rest ih =>
    rw [List.foldl_cons]
    have hk := h kv.1 (by simp)
    have hfix : setIfAbsent m kv = m := by
      unfold setIfAbsent
      cases hq : GoMap.get m kv.1 with
      | none =>
        rw [hq] at hk
        cases hk
      | some w => rfl
    rw [hfix]
    exact ih (fun k hk' => h k (by
      rw [List.map_cons]
      exact List.mem_cons_of_mem _ hk'))

theorem clusterConfig_keys (W : WebhookEnv) (r : EmqxBroker) :
    (clusterConfig W r).map Prod.fst = clusterKeys :=
  rfl

theorem rangeOrder_keys (W : WebhookEnv) (r : EmqxBroker)
    (hperm : ∀ l, (W.rangeOrder l).Perm l) (k : String) :
    k ∈ (W.rangeOrder (clusterConfig W r)).map Prod.fst ↔ k ∈ clusterKeys := by
  rw [← clusterConfig_keys W r]
  exact ((hperm (clusterConfig W r)).map Prod.fst).mem_iff

/-! ## Defaults of the broker config -/

/-- C21: whatever order the loop visits the defaults in, `defaultEmqxConfig` keeps the
value of every key the config had, leaves all seven cluster keys present, gives a cluster
key the config lacked its default (for `cluster.dns.name` the headless service, the
namespace and `svc.cluster.local` joined by dots), adds no other key and changes nothing
else of the object; applied to its own result, in any order, it changes nothing. -/
theorem defaultEmqxConfig_defaults_unset_keys (W : WebhookEnv) (r : EmqxBroker)
    (hperm : ∀ l, (W.rangeOrder l).Perm l) :
    (∀ k v, GoMap.get (r.EmqxConfig.getD []) k = some v →
        GoMap.get ((defaultEmqxConfig W r).EmqxConfig.getD []) k = some v)
      ∧ (defaultEmqxConfig W r).EmqxConfig ≠ none
      ∧ (∀ k ∈ clusterKeys,
          (GoMap.get ((defaultEmqxConfig W r).EmqxConfig.getD []) k).isSome = true)
      ∧ (∀ k v, (k, v) ∈ clusterConfig W r → GoMap.get (r.EmqxConfig.getD []) k = none →
          GoMap.get ((defaultEmqxConfig W r).EmqxConfig.getD []) k = some v)
      ∧ (GoMap.get (r.EmqxConfig.getD []) "cluster.dns.name" = none →
          GoMap.get ((defaultEmqxConfig W r).EmqxConfig.getD []) "cluster.dns.name"
            = some (W.HeadlessSvc r ++ "." ++ r.Namespace ++ ".svc.cluster.local"))
      ∧ (∀ k, k ∉ clusterKeys →
          GoMap.get ((defaultEmqxConfig W r).EmqxConfig.getD []) k
            = GoMap.get (r.EmqxConfig.getD []) k)
      ∧ { defaultEmqxConfig W r with EmqxConfig := r.EmqxConfig } = r
      ∧ ∀ W2 : WebhookEnv, (∀ l, (W2.rangeOrder l).Perm l) →
          defaultEmqxConfig W2 (defaultEmqxConfig W r) = defaultEmqxConfig W r := by
  have hnodup : ((W.rangeOrder (clusterConfig W r)).map Prod.fst).Nodup := by
    rw [((hperm (clusterConfig W r)).map Prod.fst).nodup_iff, clusterConfig_keys]
    decide
  have hdefault : ∀ k v, (k, v) ∈ clusterConfig W r → GoMap.get (r.EmqxConfig.getD []) k = none →
      GoMap.get ((defaultEmqxConfig W r).EmqxConfig.getD []) k = some v := by
    intro k v hmem hnone
    exact foldl_setIfAbsent_default _ _ k v hnodup
      ((hperm (clusterConfig W r)).mem_iff.mpr hmem) hnone
  have hpresent : ∀ k ∈ clusterKeys,
      (GoMap.get ((defaultEmqxConfig W r).EmqxConfig.getD []) k).isSome = true := by
    intro k hk
    exact foldl_setIfAbsent_present _ _ k ((rangeOrder_keys W r hperm k).mpr hk)
  refine ⟨?_, ?_, hpresent, hdefault, ?_, ?_, rfl, ?_⟩
  · intro k v h
    exact foldl_setIfAbsent_get_some _ _ k v h
  · intro h
    cases h
  · intro h
    exact hdefault _ _ (by simp [clusterConfig]) h
  · intro k hk
    exact foldl_setIfAbsent_other _ _ k (fun hin => hk ((rangeOrder_keys W r hperm k).mp hin))
  · intro W2 hperm2
    have hfix : (W2.rangeOrder (clusterConfig W2 (defaultEmqxConfig W r))).foldl setIfAbsent
        ((defaultEmqxConfig W r).EmqxConfig.getD []) = (defaultEmqxConfig W r).EmqxConfig.getD [] := by
      apply foldl_setIfAbsent_fixed
      intro k hk
      exact hpresent k ((rangeOrder_keys W2 (defaultEmqxConfig W r) hperm2 k).mp hk)
    show ({ defaultEmqxConfig W r with
      EmqxConfig := some ((W2.rangeOrder (clusterConfig W2 (defaultEmqxConfig W r))).foldl
        setIfAbsent ((defaultEmqxConfig W r).EmqxConfig.getD [])) } : EmqxBroker)
      = defaultEmqxConfig W r
    rw [hfix]
    rfl

/-- C21, on a broker object whose config sets `log.to`, `cluster.discovery` and a key of
its own: the three keep their values, the five missing cluster keys get their defaults (the
empty text for `listener.tcp.internal`), and a second application changes nothing; a nil
config gets all seven defaults. -/
theorem defaultEmqxConfig_defaults_unset_keys_witness :
    (∀ k v, GoMap.get (configuredBroker.EmqxConfig.getD []) k = some v →
        GoMap.get ((defaultEmqxConfig refWebhookEnv configuredBroker).EmqxConfig.getD []) k
          = some v)
      ∧ (clusterKeys.map
          (GoMap.get ((defaultEmqxConfig refWebhookEnv configuredBroker).EmqxConfig.getD [])))
          = [some "emqx", some "file", some "k8s", some "srv", some "emqx",
             some "emqx-headless.default.svc.cluster.local", some ""]
      ∧ GoMap.get ((defaultEmqxConfig refWebhookEnv configuredBroker).EmqxConfig.getD [])
          "zone.external.max_packet_size" = some "1MB"
      ∧ ((defaultEmqxConfig refWebhookEnv configuredBroker).EmqxConfig.getD []).length = 8
      ∧ defaultEmqxConfig refWebhookEnv (defaultEmqxConfig refWebhookEnv configuredBroker)
          = defaultEmqxConfig refWebhookEnv configuredBroker
      ∧ (clusterKeys.map
          (GoMap.get ((defaultEmqxConfig refWebhookEnv (sampleBroker 1073741824)).EmqxConfig.getD [])))
          = [some "emqx", some "console", some "dns", some "srv", some "emqx",
             some "emqx-headless.default.svc.cluster.local", some ""] := by
  have h := defaultEmqxConfig_defaults_unset_keys refWebhookEnv configuredBroker
    (fun l => List.reverse_perm l)
  exact ⟨h.1, by decide, by decide, by decide,
    h.2.2.2.2.2.2.2 refWebhookEnv (fun l => List.reverse_perm l), by decide⟩

end EmqxOperator
